import Mathlib

/-!
# Thermal throttling controller

A shallow embedding of `check_temp` and `update_cpu_max_freq` from
`drivers/thermal/msm_thermal.c`, followed by theorems about one tick of the
controller and about runs of consecutive ticks.

Machine integers are natural numbers: every comparison in `check_temp` is an
unsigned 32-bit comparison and the function performs no arithmetic on
temperatures or frequencies, so no wrap-around can occur.
-/

namespace MsmThermal

/-! ## Data model -/

/-- Tunables held in the global msm_thermal_info, with the fields that
msm_thermal.c reads (check_temp), prints and stores (show_one / store_one) and
fills in msm_thermal_dev_probe. All are uint32_t. -/
structure msm_thermal_data where
  sensor_id : Nat
  poll_ms : Nat
  low_poll_ms : Nat
  mid_max_poll_ms : Nat
  shutdown_temp : Nat
  allowed_max_high : Nat
  allowed_max_low : Nat
  allowed_max_freq : Nat
  allowed_mid_high : Nat
  allowed_mid_low : Nat
  allowed_mid_freq : Nat
  allowed_low_high : Nat
  allowed_low_low : Nat
  allowed_low_freq : Nat
  deriving DecidableEq, Repr

/-- Modelled from the spec: enum throttling_status is declared in a header that
is not under src/. The spec gives four states ordered
UNTHROTTLED < PHASE1 < PHASE2 < PHASE3; they are numbered in that order, the
way C numbers enumerators, and tstat is kept as the integer it is in C. -/
abbrev UNTHROTTLED : Nat := 0

/-- Modelled from the spec: second enumerator of throttling_status (see UNTHROTTLED). -/
abbrev PHASE1 : Nat := 1

/-- Modelled from the spec: third enumerator of throttling_status (see UNTHROTTLED). -/
abbrev PHASE2 : Nat := 2

/-- Modelled from the spec: fourth enumerator of throttling_status (see UNTHROTTLED). -/
abbrev PHASE3 : Nat := 3

/-- Modelled from the spec: MSM_CPUFREQ_NO_LIMIT comes from mach/cpufreq.h, which
is not under src/; it is the spec's "no limit" cap, the all-ones 32-bit value. -/
def MSM_CPUFREQ_NO_LIMIT : Nat := 0xFFFFFFFF

/-- The error number EINVAL. -/
def EINVAL : Int := 22

/-- The fields of struct cpufreq_policy that msm_thermal.c touches: min, max and
user_policy.max. -/
structure cpufreq_policy where
  min : Nat
  max : Nat
  user_policy_max : Nat
  deriving DecidableEq, Repr

/-- Modelled from the spec: cpufreq_verify_within_limits is an inline helper of
include/linux/cpufreq.h, which is not under src/. The spec says the policy
maximum is clamped to the cap and kept at or above the configured minimum; the
helper clamps both ends of the policy into the window [min, max], in this
order of tests. -/
def cpufreq_verify_within_limits (policy : cpufreq_policy) (min max : Nat) : cpufreq_policy :=
  let p1 := if policy.min < min then { policy with min := min } else policy
  let p2 := if p1.max < min then { p1 with max := min } else p1
  let p3 := if p2.min > max then { p2 with min := max } else p2
  let p4 := if p3.max > max then { p3 with max := max } else p3
  if p4.min > p4.max then { p4 with min := p4.max } else p4

/-- The policy object as update_cpu_max_freq leaves it for
cpufreq_update_policy (lines 49-50): clamped into [policy.min, max_freq] by
cpufreq_verify_within_limits, with user_policy.max set to max_freq. max_freq
travels through an int parameter and back to unsigned int, which is the
identity on 32-bit values. -/
def policy_before_update (cpu_policy : cpufreq_policy) (max_freq : Nat) : cpufreq_policy :=
  { cpufreq_verify_within_limits cpu_policy cpu_policy.min max_freq with
    user_policy_max := max_freq }

/-- Guard of the first branch (lines 103-105): the low band is entered from UNTHROTTLED. -/
@[reducible] def rule2_guard (info : msm_thermal_data) (temp tstat : Nat) : Prop :=
  temp ≥ info.allowed_low_high ∧ temp < info.allowed_mid_high ∧ tstat = UNTHROTTLED

/-- Guard of the second branch (lines 111-112): back to UNTHROTTLED. -/
@[reducible] def rule3_guard (info : msm_thermal_data) (temp tstat : Nat) : Prop :=
  temp < info.allowed_low_low ∧ tstat > UNTHROTTLED

/-- Guard of the third branch (lines 122-124): the mid band is entered from below. -/
@[reducible] def rule4_guard (info : msm_thermal_data) (temp tstat : Nat) : Prop :=
  temp ≥ info.allowed_mid_high ∧ temp < info.allowed_max_high ∧ tstat < PHASE2

/-- Guard of the fourth branch (lines 130-131): down to PHASE1. -/
@[reducible] def rule5_guard (info : msm_thermal_data) (temp tstat : Nat) : Prop :=
  temp < info.allowed_mid_low ∧ tstat > PHASE1

/-- Guard of the fifth branch (line 137): the max band, from any state. -/
@[reducible] def rule6_guard (info : msm_thermal_data) (temp : Nat) : Prop :=
  temp ≥ info.allowed_max_high

/-- Guard of the sixth branch (lines 143-144): down to PHASE2. -/
@[reducible] def rule7_guard (info : msm_thermal_data) (temp tstat : Nat) : Prop :=
  temp < info.allowed_max_low ∧ tstat > PHASE2

/-- What one pass through the if / else-if chain leaves in the variables
max_freq, update_policy and tstat. -/
structure selection where
  max_freq : Nat
  update_policy : Bool
  tstat : Nat
  deriving DecidableEq, Repr

/-- The if / else-if chain of check_temp (lines 103-150) for one CPU. The
arguments are the values, on entry to the chain, of the variables it reads:
max_cpu_freq, final_cpu, max_freq and tstat. A branch that is taken sets
max_freq and update_policy, and writes tstat only when final_cpu is set. -/
def select_rule (info : msm_thermal_data) (temp max_cpu_freq : Nat) (final_cpu : Bool)
    (max_freq tstat : Nat) : selection :=
  if rule2_guard info temp tstat then
    ⟨info.allowed_low_freq, true, if final_cpu then PHASE1 else tstat⟩
  else if rule3_guard info temp tstat then
    ⟨if max_cpu_freq = 0 then MSM_CPUFREQ_NO_LIMIT else max_cpu_freq, true,
      if final_cpu then UNTHROTTLED else tstat⟩
  else if rule4_guard info temp tstat then
    ⟨info.allowed_mid_freq, true, if final_cpu then PHASE2 else tstat⟩
  else if rule5_guard info temp tstat then
    ⟨info.allowed_low_freq, true, if final_cpu then PHASE1 else tstat⟩
  else if rule6_guard info temp then
    ⟨info.allowed_max_freq, true, if final_cpu then PHASE3 else tstat⟩
  else if rule7_guard info temp tstat then
    ⟨info.allowed_mid_freq, true, if final_cpu then PHASE2 else tstat⟩
  else
    ⟨max_freq, false, tstat⟩

/-! ## The per-CPU loop (lines 90-156) -/

/-- Variables that live across iterations of the for_each_possible_cpu loop:
the global tstat, the locals max_freq, max_cpu_freq and final_cpu, the policy
objects behind cpufreq_cpu_get, and the log of update_cpu_max_freq calls
(cpu, max_freq) made so far in this tick. -/
structure loop_state where
  tstat : Nat
  max_freq : Nat
  max_cpu_freq : Nat
  final_cpu : Bool
  policies : Nat → Option cpufreq_policy
  calls : List (Nat × Nat)

/-- Body of the loop for one cpu (lines 91-155). A null policy skips the CPU
(continue). Otherwise max_cpu_freq is recorded on CPU 0 while UNTHROTTLED,
final_cpu is raised on CPU CONFIG_NR_CPUS - 1, the rule chain runs, and
update_cpu_max_freq is called when update_policy is set. The call is logged
and the policy object is kept as update_cpu_max_freq hands it to
cpufreq_update_policy; check_temp discards the return value, and what the
cpufreq core then does to the object is not tracked here. -/
def cpu_step (NR_CPUS : Nat) (info : msm_thermal_data) (temp : Nat)
    (l : loop_state) (cpu : Nat) : loop_state :=
  match l.policies cpu with
  | none => l
  | some cpu_policy =>
    let max_cpu_freq :=
      if l.tstat = UNTHROTTLED ∧ cpu = 0 then cpu_policy.max else l.max_cpu_freq
    let final_cpu :=
      if (cpu : Int) = (NR_CPUS : Int) - 1 then true else l.final_cpu
    let s := select_rule info temp max_cpu_freq final_cpu l.max_freq l.tstat
    if s.update_policy then
      { tstat := s.tstat, max_freq := s.max_freq, max_cpu_freq := max_cpu_freq,
        final_cpu := final_cpu,
        policies := Function.update l.policies cpu
          (some (policy_before_update cpu_policy s.max_freq)),
        calls := l.calls ++ [(cpu, s.max_freq)] }
    else
      { tstat := s.tstat, max_freq := s.max_freq, max_cpu_freq := max_cpu_freq,
        final_cpu := final_cpu, policies := l.policies, calls := l.calls }

/-- The loop for_each_possible_cpu (lines 90-156), every CPU 0 .. NR_CPUS - 1
being possible, visited in increasing order. -/
def check_temp_loop (NR_CPUS : Nat) (info : msm_thermal_data) (temp : Nat)
    (l : loop_state) : loop_state :=
  (List.range NR_CPUS).foldl (cpu_step NR_CPUS info temp) l

/-! ## One tick -/

/-- The variables on entry to the loop of check_temp: the global tstat and the
policy objects as the tick finds them, the locals as declared (lines 62-64). -/
def loop_init (tstat : Nat) (policies : Nat → Option cpufreq_policy) : loop_state :=
  { tstat := tstat, max_freq := 0, max_cpu_freq := 0, final_cpu := false,
    policies := policies, calls := [] }

/-- The switch that re-arms the work item (lines 162-175): the delays, in
milliseconds, handed to queue_delayed_work for the given tstat. The switch has
no default label. -/
def queue_next (info : msm_thermal_data) (tstat : Nat) : List Nat :=
  if tstat = UNTHROTTLED then [info.poll_ms]
  else if tstat = PHASE1 then [info.low_poll_ms]
  else if PHASE2 ≤ tstat ∧ tstat ≤ PHASE3 then [info.mid_max_poll_ms]
  else []

/-- Everything one run of check_temp leaves behind: the global tstat, the
policy objects, whether kernel_power_off() was called, the
update_cpu_max_freq calls in order, and the delays queued for the next run. -/
structure tick_result where
  tstat : Nat
  policies : Nat → Option cpufreq_policy
  power_off : Bool
  calls : List (Nat × Nat)
  queued : List Nat

/-- Function check_temp (lines 57-176). The reading is what tsens_get_temp
delivers: none for a non-zero return code, some temp otherwise. On a failed
read the work is queued after mid_max_poll_ms and the function returns.
Otherwise kernel_power_off() is called when temp >= shutdown_temp; the source
has no return after that call, so control goes on to mutex_unlock, the CPU
loop and the re-arming switch. -/
def check_temp (NR_CPUS : Nat) (info : msm_thermal_data) (tstat : Nat)
    (policies : Nat → Option cpufreq_policy) (reading : Option Nat) : tick_result :=
  match reading with
  | none =>
    { tstat := tstat, policies := policies, power_off := false, calls := [],
      queued := [info.mid_max_poll_ms] }
  | some temp =>
    let power_off := decide (temp ≥ info.shutdown_temp)
    let l := check_temp_loop NR_CPUS info temp (loop_init tstat policies)
    { tstat := l.tstat, policies := l.policies, power_off := power_off,
      calls := l.calls, queued := queue_next info l.tstat }

/-- Consecutive runs of check_temp, one per reading: each run starts from the
tstat and the policy objects the previous one left. The list holds the result
of every run, in order. -/
def run_ticks (NR_CPUS : Nat) (info : msm_thermal_data) :
    Nat → (Nat → Option cpufreq_policy) → List (Option Nat) → List tick_result
  | _, _, [] => []
  | tstat, policies, reading :: rest =>
    let r := check_temp NR_CPUS info tstat policies reading
    r :: run_ticks NR_CPUS info r.tstat r.policies rest

/-! ## Derived notions used in the statements -/

/-- The state a tick commits when every CPU is processed: the rule chain run
with final_cpu set, on the locals as the loop initialises them. -/
def next_state (info : msm_thermal_data) (tstat temp : Nat) : Nat :=
  (select_rule info temp 0 true 0 tstat).tstat

/-- Every CPU 0 .. n - 1 has a frequency policy: cpufreq_cpu_get returns
non-null for it. -/
def all_available (n : Nat) (policies : Nat → Option cpufreq_policy) : Prop :=
  ∀ c, c < n → (policies c).isSome = true

/-- The update_cpu_max_freq calls of a tick, as far as the first k CPUs: when
the chain selects a cap for the tick's starting state, one call for every CPU
that has a policy, in order and with that cap; none otherwise. -/
def calls_upto (info : msm_thermal_data) (tstat temp : Nat)
    (policies : Nat → Option cpufreq_policy) (k : Nat) : List (Nat × Nat) :=
  if (select_rule info temp 0 true 0 tstat).update_policy = true
  then ((List.range k).filter (fun c => (policies c).isSome)).map
    (fun c => (c, (select_rule info temp 0 true 0 tstat).max_freq))
  else []

/-- Band-ordering invariant of the specification's data model:
allowed_low_high < allowed_mid_high < allowed_max_high, and in each band the
low threshold lies below the high threshold. -/
def valid_config (info : msm_thermal_data) : Prop :=
  info.allowed_low_high < info.allowed_mid_high ∧
  info.allowed_mid_high < info.allowed_max_high ∧
  info.allowed_low_low < info.allowed_low_high ∧
  info.allowed_mid_low < info.allowed_mid_high ∧
  info.allowed_max_low < info.allowed_max_high

/-- The transition table in the words of the specification (rules 2 to 7, first
match wins): the cap and the candidate next state for state s at temperature
T, or none when no rule matches. The restore target of rule 3 is a parameter. -/
def spec_rule (info : msm_thermal_data) (restore s T : Nat) : Option (Nat × Nat) :=
  if info.allowed_low_high ≤ T ∧ T < info.allowed_mid_high ∧ s = UNTHROTTLED then
    some (info.allowed_low_freq, PHASE1)
  else if T < info.allowed_low_low ∧ s > UNTHROTTLED then
    some (restore, UNTHROTTLED)
  else if info.allowed_mid_high ≤ T ∧ T < info.allowed_max_high ∧ s < PHASE2 then
    some (info.allowed_mid_freq, PHASE2)
  else if T < info.allowed_mid_low ∧ s > PHASE1 then
    some (info.allowed_low_freq, PHASE1)
  else if T ≥ info.allowed_max_high then
    some (info.allowed_max_freq, PHASE3)
  else if T < info.allowed_max_low ∧ s > PHASE2 then
    some (info.allowed_mid_freq, PHASE2)
  else
    none

/-- States committed by consecutive ticks in which every CPU is processed. -/
def next_states (info : msm_thermal_data) : Nat → List Nat → List Nat
  | _, [] => []
  | s, T :: rest => next_state info s T :: next_states info (next_state info s T) rest

/-- Test configuration with the thresholds of the specification's scenarios A
and B: high thresholds 65 / 70 / 75, low thresholds 60 / 65 / 70, shutdown at
80. Frequencies and polling intervals are sample values. -/
def scenario_config : msm_thermal_data :=
  { sensor_id := 7, poll_ms := 1000, low_poll_ms := 500, mid_max_poll_ms := 250,
    shutdown_temp := 80,
    allowed_max_high := 75, allowed_max_low := 70, allowed_max_freq := 384000,
    allowed_mid_high := 70, allowed_mid_low := 65, allowed_mid_freq := 918000,
    allowed_low_high := 65, allowed_low_low := 60, allowed_low_freq := 1350000 }

/-- Test policies: every CPU has a policy with min 384000 and max 1728000. -/
def scenario_policies : Nat → Option cpufreq_policy :=
  fun _ => some { min := 384000, max := 1728000, user_policy_max := 1728000 }

/-! ## Program-order view of the loop -/

/-- Something the loop of check_temp does that is visible outside the loop
body: a write to the global tstat (lines 110, 121, 129, 136, 142, 149) or a
call of update_cpu_max_freq (line 153). -/
inductive tick_event where
  | commit (cpu : Nat) (tstat : Nat)
  | set_cap (cpu : Nat) (max_freq : Nat)
  deriving DecidableEq, Repr

/-- Events of the loop body for one cpu (lines 91-155), in program order, from
the variables as the loop holds them on reaching that cpu. A taken branch of
the chain writes tstat when final_cpu is set; that write sits inside the
chain, before the call of update_cpu_max_freq that follows the chain. -/
def cpu_events (NR_CPUS : Nat) (info : msm_thermal_data) (temp : Nat)
    (l : loop_state) (cpu : Nat) : List tick_event :=
  match l.policies cpu with
  | none => []
  | some cpu_policy =>
    let max_cpu_freq :=
      if l.tstat = UNTHROTTLED ∧ cpu = 0 then cpu_policy.max else l.max_cpu_freq
    let final_cpu :=
      if (cpu : Int) = (NR_CPUS : Int) - 1 then true else l.final_cpu
    let s := select_rule info temp max_cpu_freq final_cpu l.max_freq l.tstat
    (if s.update_policy = true ∧ final_cpu = true
      then [tick_event.commit cpu s.tstat] else []) ++
    (if s.update_policy = true then [tick_event.set_cap cpu s.max_freq] else [])

/-- Events of one run of check_temp with a successful read, in program order:
for every cpu in turn, the events of the loop body in the state the loop has
reached after the cpus before it. -/
def check_temp_events (NR_CPUS : Nat) (info : msm_thermal_data) (tstat : Nat)
    (policies : Nat → Option cpufreq_policy) (temp : Nat) : List tick_event :=
  (List.range NR_CPUS).flatMap (fun cpu =>
    cpu_events NR_CPUS info temp
      ((List.range cpu).foldl (cpu_step NR_CPUS info temp) (loop_init tstat policies)) cpu)

/-! ## Start-up: msm_thermal_init and msm_thermal_dev_probe (lines 271-399) -/

/-- The error number ENOMEM. -/
def ENOMEM : Int := 12

/-- What msm_thermal_init meets outside this file. TSENS_MAX_SENSORS is a
constant of linux/msm_tsens.h, which is not under src/, and is taken as a
parameter; the other fields say whether alloc_workqueue and
kobject_create_and_add returned non-null and what sysfs_create_group
returned. -/
structure init_env where
  TSENS_MAX_SENSORS : Nat
  workqueue_allocated : Bool
  kobject_created : Bool
  sysfs_create_group_rc : Int

/-- What msm_thermal_init leaves behind: its return value, the configuration
copied into msm_thermal_info (none when the memcpy was not reached), and the
delays handed to queue_delayed_work. -/
structure init_result where
  ret : Int
  msm_thermal_info : Option msm_thermal_data
  queued : List Nat
  deriving DecidableEq, Repr

/-- Function msm_thermal_init (lines 271-305); pdata is none for a null
pointer. -/
def msm_thermal_init (env : init_env) (pdata : Option msm_thermal_data) : init_result :=
  match pdata with
  | none => { ret := -EINVAL, msm_thermal_info := none, queued := [] }
  | some d =>
    if d.sensor_id ≥ env.TSENS_MAX_SENSORS then
      { ret := -EINVAL, msm_thermal_info := none, queued := [] }
    else if env.workqueue_allocated = false then
      { ret := -ENOMEM, msm_thermal_info := some d, queued := [] }
    else if env.kobject_created = false then
      { ret := -ENOMEM, msm_thermal_info := some d, queued := [0] }
    else if env.sysfs_create_group_rc ≠ 0 then
      { ret := env.sysfs_create_group_rc, msm_thermal_info := some d, queued := [0] }
    else
      { ret := 0, msm_thermal_info := some d, queued := [0] }

/-- The device-tree properties msm_thermal_dev_probe reads, one field per key;
none when of_property_read_u32 returns an error for the key. -/
structure device_node where
  sensor_id : Option Nat
  poll_ms : Option Nat
  low_poll_ms : Option Nat
  mid_max_poll_ms : Option Nat
  shutdown_temp : Option Nat
  allowed_max_high : Option Nat
  allowed_max_low : Option Nat
  allowed_max_freq : Option Nat
  allowed_mid_high : Option Nat
  allowed_mid_low : Option Nat
  allowed_mid_freq : Option Nat
  allowed_low_high : Option Nat
  allowed_low_low : Option Nat
  allowed_low_freq : Option Nat
  deriving DecidableEq, Repr

/-- Whether every of_property_read_u32 of msm_thermal_dev_probe succeeds, so
that control never reaches the fail label. -/
def all_read (node : device_node) : Bool :=
  node.sensor_id.isSome && node.poll_ms.isSome && node.low_poll_ms.isSome &&
  node.mid_max_poll_ms.isSome && node.shutdown_temp.isSome &&
  node.allowed_max_high.isSome && node.allowed_max_low.isSome &&
  node.allowed_max_freq.isSome && node.allowed_mid_high.isSome &&
  node.allowed_mid_low.isSome && node.allowed_mid_freq.isSome &&
  node.allowed_low_high.isSome && node.allowed_low_low.isSome &&
  node.allowed_low_freq.isSome

/-- The data msm_thermal_dev_probe has filled in when all reads have succeeded
(lines 314-389): the structure is zeroed by memset and every field is then set
from its property; a sensor id above TSENS_MAX_SENSORS is replaced by 7. -/
def probe_data (env : init_env) (node : device_node) : msm_thermal_data :=
  { sensor_id :=
      if node.sensor_id.getD 0 > env.TSENS_MAX_SENSORS then 7 else node.sensor_id.getD 0,
    poll_ms := node.poll_ms.getD 0,
    low_poll_ms := node.low_poll_ms.getD 0,
    mid_max_poll_ms := node.mid_max_poll_ms.getD 0,
    shutdown_temp := node.shutdown_temp.getD 0,
    allowed_max_high := node.allowed_max_high.getD 0,
    allowed_max_low := node.allowed_max_low.getD 0,
    allowed_max_freq := node.allowed_max_freq.getD 0,
    allowed_mid_high := node.allowed_mid_high.getD 0,
    allowed_mid_low := node.allowed_mid_low.getD 0,
    allowed_mid_freq := node.allowed_mid_freq.getD 0,
    allowed_low_high := node.allowed_low_high.getD 0,
    allowed_low_low := node.allowed_low_low.getD 0,
    allowed_low_freq := node.allowed_low_freq.getD 0 }

/-- What msm_thermal_dev_probe leaves behind: its return value and, when the
call was reached, what msm_thermal_init did. -/
structure probe_result where
  ret : Int
  init : Option init_result
  deriving DecidableEq, Repr

/-- Function msm_thermal_dev_probe (lines 307-399): a failed read returns
-EINVAL; otherwise msm_thermal_init is called, its return value is dropped and
the probe returns 0. -/
def msm_thermal_dev_probe (env : init_env) (node : device_node) : probe_result :=
  if all_read node = true then
    { ret := 0, init := some (msm_thermal_init env (some (probe_data env node))) }
  else
    { ret := -EINVAL, init := none }

/-- Test environment: eleven sensors, every kernel service succeeds. -/
def scenario_env : init_env :=
  { TSENS_MAX_SENSORS := 11, workqueue_allocated := true, kobject_created := true,
    sysfs_create_group_rc := 0 }

/-- Test configuration with the bands out of order: the high thresholds
descend (75 / 70 / 65 for low / mid / max) and every low threshold lies above
its high threshold. -/
def disordered_config : msm_thermal_data :=
  { sensor_id := 7, poll_ms := 1000, low_poll_ms := 500, mid_max_poll_ms := 250,
    shutdown_temp := 80,
    allowed_max_high := 65, allowed_max_low := 70, allowed_max_freq := 384000,
    allowed_mid_high := 70, allowed_mid_low := 75, allowed_mid_freq := 918000,
    allowed_low_high := 75, allowed_low_low := 80, allowed_low_freq := 1350000 }

/-- The device-tree node that carries a given configuration. -/
def node_of (d : msm_thermal_data) : device_node :=
  { sensor_id := some d.sensor_id, poll_ms := some d.poll_ms,
    low_poll_ms := some d.low_poll_ms, mid_max_poll_ms := some d.mid_max_poll_ms,
    shutdown_temp := some d.shutdown_temp,
    allowed_max_high := some d.allowed_max_high, allowed_max_low := some d.allowed_max_low,
    allowed_max_freq := some d.allowed_max_freq,
    allowed_mid_high := some d.allowed_mid_high, allowed_mid_low := some d.allowed_mid_low,
    allowed_mid_freq := some d.allowed_mid_freq,
    allowed_low_high := some d.allowed_low_high, allowed_low_low := some d.allowed_low_low,
    allowed_low_freq := some d.allowed_low_freq }

/-! ## The sysfs attributes (lines 178-269) -/

/-- The file-scope variables of msm_thermal.c that the sysfs handlers and
check_temp share: the configuration and the throttle state. -/
structure thermal_globals where
  msm_thermal_info : msm_thermal_data
  tstat : Nat
  deriving DecidableEq, Repr

/-- Macro show_one (lines 179-184): the text snprintf writes to buf for the
format "%u" followed by a newline, applied to the field named object. The
value the generated function returns is the length of that text. -/
def show_one (object : msm_thermal_data → Nat) (g : thermal_globals) : String :=
  toString (object g.msm_thermal_info) ++ "\n"

/-- Macro store_one (lines 186-200). The argument scanned is what
sscanf(buf, "%u", &input) delivers: none when its return value is not 1, some
input otherwise; object_set writes the field named object. The result is the
return value and the globals afterwards. -/
def store_one (object_set : msm_thermal_data → Nat → msm_thermal_data)
    (scanned : Option Nat) (count : Nat) (g : thermal_globals) : Int × thermal_globals :=
  match scanned with
  | none => (-EINVAL, g)
  | some input =>
    ((count : Int), { g with msm_thermal_info := object_set g.msm_thermal_info input })

/-- Instance show_one(shutdown_temp, shutdown_temp) of the macro. -/
def show_shutdown_temp : thermal_globals → String :=
  show_one (fun i => i.shutdown_temp)

/-- Instance show_one(allowed_max_high, allowed_max_high) of the macro. -/
def show_allowed_max_high : thermal_globals → String :=
  show_one (fun i => i.allowed_max_high)

/-- Instance show_one(allowed_max_low, allowed_max_low) of the macro. -/
def show_allowed_max_low : thermal_globals → String :=
  show_one (fun i => i.allowed_max_low)

/-- Instance show_one(allowed_max_freq, allowed_max_freq) of the macro. -/
def show_allowed_max_freq : thermal_globals → String :=
  show_one (fun i => i.allowed_max_freq)

/-- Instance show_one(allowed_mid_high, allowed_mid_high) of the macro. -/
def show_allowed_mid_high : thermal_globals → String :=
  show_one (fun i => i.allowed_mid_high)

/-- Instance show_one(allowed_mid_low, allowed_mid_low) of the macro. -/
def show_allowed_mid_low : thermal_globals → String :=
  show_one (fun i => i.allowed_mid_low)

/-- Instance show_one(allowed_mid_freq, allowed_mid_freq) of the macro. -/
def show_allowed_mid_freq : thermal_globals → String :=
  show_one (fun i => i.allowed_mid_freq)

/-- Instance show_one(allowed_low_high, allowed_low_high) of the macro. -/
def show_allowed_low_high : thermal_globals → String :=
  show_one (fun i => i.allowed_low_high)

/-- Instance show_one(allowed_low_low, allowed_low_low) of the macro. -/
def show_allowed_low_low : thermal_globals → String :=
  show_one (fun i => i.allowed_low_low)

/-- Instance show_one(allowed_low_freq, allowed_low_freq) of the macro. -/
def show_allowed_low_freq : thermal_globals → String :=
  show_one (fun i => i.allowed_low_freq)

/-- Instance show_one(poll_ms, poll_ms) of the macro. -/
def show_poll_ms : thermal_globals → String :=
  show_one (fun i => i.poll_ms)

/-- Instance show_one(low_poll_ms, low_poll_ms) of the macro. -/
def show_low_poll_ms : thermal_globals → String :=
  show_one (fun i => i.low_poll_ms)

/-- Instance show_one(mid_max_poll_ms, mid_max_poll_ms) of the macro. -/
def show_mid_max_poll_ms : thermal_globals → String :=
  show_one (fun i => i.mid_max_poll_ms)

/-- Instance store_one(shutdown_temp, shutdown_temp) of the macro. -/
def store_shutdown_temp : Option Nat → Nat → thermal_globals → Int × thermal_globals :=
  store_one (fun i v => { i with shutdown_temp := v })

/-- Instance store_one(allowed_max_high, allowed_max_high) of the macro. -/
def store_allowed_max_high : Option Nat → Nat → thermal_globals → Int × thermal_globals :=
  store_one (fun i v => { i with allowed_max_high := v })

/-- Instance store_one(allowed_max_low, allowed_max_low) of the macro. -/
def store_allowed_max_low : Option Nat → Nat → thermal_globals → Int × thermal_globals :=
  store_one (fun i v => { i with allowed_max_low := v })

/-- Instance store_one(allowed_max_freq, allowed_max_freq) of the macro. -/
def store_allowed_max_freq : Option Nat → Nat → thermal_globals → Int × thermal_globals :=
  store_one (fun i v => { i with allowed_max_freq := v })

/-- Instance store_one(allowed_mid_high, allowed_mid_high) of the macro. -/
def store_allowed_mid_high : Option Nat → Nat → thermal_globals → Int × thermal_globals :=
  store_one (fun i v => { i with allowed_mid_high := v })

/-- Instance store_one(allowed_mid_low, allowed_mid_low) of the macro. -/
def store_allowed_mid_low : Option Nat → Nat → thermal_globals → Int × thermal_globals :=
  store_one (fun i v => { i with allowed_mid_low := v })

/-- Instance store_one(allowed_mid_freq, allowed_mid_freq) of the macro. -/
def store_allowed_mid_freq : Option Nat → Nat → thermal_globals → Int × thermal_globals :=
  store_one (fun i v => { i with allowed_mid_freq := v })

/-- Instance store_one(allowed_low_high, allowed_low_high) of the macro. -/
def store_allowed_low_high : Option Nat → Nat → thermal_globals → Int × thermal_globals :=
  store_one (fun i v => { i with allowed_low_high := v })

/-- Instance store_one(allowed_low_low, allowed_low_low) of the macro. -/
def store_allowed_low_low : Option Nat → Nat → thermal_globals → Int × thermal_globals :=
  store_one (fun i v => { i with allowed_low_low := v })

/-- Instance store_one(allowed_low_freq, allowed_low_freq) of the macro. -/
def store_allowed_low_freq : Option Nat → Nat → thermal_globals → Int × thermal_globals :=
  store_one (fun i v => { i with allowed_low_freq := v })

/-- Instance store_one(poll_ms, poll_ms) of the macro. -/
def store_poll_ms : Option Nat → Nat → thermal_globals → Int × thermal_globals :=
  store_one (fun i v => { i with poll_ms := v })

/-- Instance store_one(low_poll_ms, low_poll_ms) of the macro. -/
def store_low_poll_ms : Option Nat → Nat → thermal_globals → Int × thermal_globals :=
  store_one (fun i v => { i with low_poll_ms := v })

/-- Instance store_one(mid_max_poll_ms, mid_max_poll_ms) of the macro. -/
def store_mid_max_poll_ms : Option Nat → Nat → thermal_globals → Int × thermal_globals :=
  store_one (fun i v => { i with mid_max_poll_ms := v })

/-- The thirteen attributes of msm_thermal_attributes (lines 248-263), in the
order of the array. -/
inductive tunable where
  | shutdown_temp
  | allowed_max_high
  | allowed_max_low
  | allowed_max_freq
  | allowed_mid_high
  | allowed_mid_low
  | allowed_mid_freq
  | allowed_low_high
  | allowed_low_low
  | allowed_low_freq
  | poll_ms
  | low_poll_ms
  | mid_max_poll_ms
  deriving DecidableEq, Repr

/-- The field of the configuration an attribute is named after. -/
def tunable.field : tunable → msm_thermal_data → Nat
  | .shutdown_temp => fun i => i.shutdown_temp
  | .allowed_max_high => fun i => i.allowed_max_high
  | .allowed_max_low => fun i => i.allowed_max_low
  | .allowed_max_freq => fun i => i.allowed_max_freq
  | .allowed_mid_high => fun i => i.allowed_mid_high
  | .allowed_mid_low => fun i => i.allowed_mid_low
  | .allowed_mid_freq => fun i => i.allowed_mid_freq
  | .allowed_low_high => fun i => i.allowed_low_high
  | .allowed_low_low => fun i => i.allowed_low_low
  | .allowed_low_freq => fun i => i.allowed_low_freq
  | .poll_ms => fun i => i.poll_ms
  | .low_poll_ms => fun i => i.low_poll_ms
  | .mid_max_poll_ms => fun i => i.mid_max_poll_ms

/-- The show handler global_attr_rw binds to an attribute (lines 234-246). -/
def tunable.show_fn : tunable → thermal_globals → String
  | .shutdown_temp => show_shutdown_temp
  | .allowed_max_high => show_allowed_max_high
  | .allowed_max_low => show_allowed_max_low
  | .allowed_max_freq => show_allowed_max_freq
  | .allowed_mid_high => show_allowed_mid_high
  | .allowed_mid_low => show_allowed_mid_low
  | .allowed_mid_freq => show_allowed_mid_freq
  | .allowed_low_high => show_allowed_low_high
  | .allowed_low_low => show_allowed_low_low
  | .allowed_low_freq => show_allowed_low_freq
  | .poll_ms => show_poll_ms
  | .low_poll_ms => show_low_poll_ms
  | .mid_max_poll_ms => show_mid_max_poll_ms

/-- The store handler global_attr_rw binds to an attribute (lines 234-246). -/
def tunable.store_fn : tunable → Option Nat → Nat → thermal_globals → Int × thermal_globals
  | .shutdown_temp => store_shutdown_temp
  | .allowed_max_high => store_allowed_max_high
  | .allowed_max_low => store_allowed_max_low
  | .allowed_max_freq => store_allowed_max_freq
  | .allowed_mid_high => store_allowed_mid_high
  | .allowed_mid_low => store_allowed_mid_low
  | .allowed_mid_freq => store_allowed_mid_freq
  | .allowed_low_high => store_allowed_low_high
  | .allowed_low_low => store_allowed_low_low
  | .allowed_low_freq => store_allowed_low_freq
  | .poll_ms => store_poll_ms
  | .low_poll_ms => store_low_poll_ms
  | .mid_max_poll_ms => store_mid_max_poll_ms

end MsmThermal

/-!
# GPU power-scaling governor

A shallow embedding of the policy callbacks and the sysfs handlers of
`drivers/gpu/msm/kgsl_pwrscale_conservative.c`.
-/

namespace KgslConservative

/-- The array mode (lines 40-44): Conservative, Energy saving, Performance. -/
def mode (i : Fin 3) : Char :=
  match i with
  | 0 => 'C'
  | 1 => 'E'
  | 2 => 'P'

/-- Number of values of unsigned long and of unsigned int on this board, a
32-bit ARM (the sources live under arch/arm). -/
def ULONG_MOD : Nat := 2 ^ 32

/-- Modelled from the spec: PAGE_SIZE comes from the architecture headers,
which are not under src/; it is the 4 KiB page of 32-bit ARM. -/
def PAGE_SIZE : Nat := 4096

/-- The macro POLL_INTERVAL (line 59). -/
def POLL_INTERVAL : Nat := 100000

/-- The file-scope variables of the governor (lines 46-88). -/
structure governor where
  scale_mode : Char
  g_show_stats : Nat
  g_polling_interval : Nat
  walltime_total : Nat
  busytime_total : Nat
  up_thresholds : List Nat
  down_thresholds : List Nat
  deriving DecidableEq, Repr

/-- The governor's variables as the file initialises them (lines 46-88):
scale_mode is zero until conservative_init runs, the accumulators are zero, the
polling interval is POLL_INTERVAL, the threshold tables are the listed ones. -/
def governor_static : governor :=
  { scale_mode := Char.ofNat 0, g_show_stats := 0, g_polling_interval := POLL_INTERVAL,
    walltime_total := 0, busytime_total := 0,
    up_thresholds := [110, 98, 90, 75, 100],
    down_thresholds := [60, 45, 45, 0, 0] }

/-- Modelled from the spec: struct kgsl_pwrctrl is declared in kgsl_pwrctrl.h,
which is not under src/; only the three power-level fields the governor reads
are kept. Level numbers grow as the frequency falls (the threshold tables list
400 MHz at position 0), so max_pwrlevel is the lowest-numbered level and
min_pwrlevel the highest-numbered one. -/
structure kgsl_pwrctrl where
  active_pwrlevel : Nat
  min_pwrlevel : Nat
  max_pwrlevel : Nat
  deriving DecidableEq, Repr

/-- Modelled from the spec: struct kgsl_power_stats is declared in
kgsl_device.h, which is not under src/; it is the sample power_stats delivers,
total and busy time, both non-negative. -/
structure kgsl_power_stats where
  total_time : Nat
  busy_time : Nat
  deriving DecidableEq, Repr

/-- Modelled from the spec: sysfs_streq is in lib/string.c, which is not under
src/, and the spec does not describe it; it is string equality that ignores
one trailing newline on either side, the way a word written to a sysfs file
arrives. -/
def sysfs_streq : List Char → List Char → Bool
  | [], [] => true
  | [], c2 :: r2 => c2 = Char.ofNat 10 && r2.isEmpty
  | c1 :: r1, [] => c1 = Char.ofNat 10 && r1.isEmpty
  | c1 :: r1, c2 :: r2 => if c1 = c2 then sysfs_streq r1 r2 else false

/-- What a handler of the governor leaves behind: its return value (0 for a
void function), the governor's variables, and the levels passed to
kgsl_pwrctrl_pwrlevel_change, in order. -/
structure governor_result where
  ret : Int
  g : governor
  requests : List Nat
  deriving DecidableEq, Repr

/-- Function scale_mode_store (lines 333-351); buf is the written text
without its terminating zero byte. -/
def scale_mode_store (g : governor) (pwr : kgsl_pwrctrl) (buf : List Char) :
    governor_result :=
  if sysfs_streq buf ['C'] = true then
    { ret := (min buf.length PAGE_SIZE : Nat), g := { g with scale_mode := mode 0 },
      requests := [] }
  else if sysfs_streq buf ['E'] = true then
    { ret := (min buf.length PAGE_SIZE : Nat), g := { g with scale_mode := mode 1 },
      requests := [pwr.min_pwrlevel] }
  else if sysfs_streq buf ['P'] = true then
    { ret := (min buf.length PAGE_SIZE : Nat), g := { g with scale_mode := mode 2 },
      requests := [pwr.max_pwrlevel] }
  else
    { ret := -MsmThermal.EINVAL, g := g, requests := [] }

/-- The level conservative_idle passes to kgsl_pwrctrl_pwrlevel_change
(lines 147-149): active_pwrlevel + val in unsigned int arithmetic. -/
def level_plus (active_pwrlevel : Nat) (val : Int) : Nat :=
  (((active_pwrlevel : Int) + val) % (ULONG_MOD : Int)).toNat

/-- Function conservative_idle (lines 106-153) on one sample of power_stats.
The sums and the product 100 * busytime_total are unsigned long and wrap. The
result is none when the threshold tables are read past their end, which C
leaves undefined. -/
def conservative_idle (g : governor) (pwr : kgsl_pwrctrl) (stats : kgsl_power_stats) :
    Option governor_result :=
  if stats.total_time = 0 ∨ g.scale_mode = mode 1 ∨ g.scale_mode = mode 2 then
    some { ret := 0, g := g, requests := [] }
  else
    let walltime_total := (g.walltime_total + stats.total_time % ULONG_MOD) % ULONG_MOD
    let busytime_total := (g.busytime_total + stats.busy_time % ULONG_MOD) % ULONG_MOD
    if walltime_total > g.g_polling_interval then
      let loadpct := ((100 * busytime_total) % ULONG_MOD) / walltime_total
      let g' := { g with walltime_total := 0, busytime_total := 0 }
      match g.down_thresholds[pwr.active_pwrlevel]? with
      | none => none
      | some down =>
        if loadpct < down then
          some { ret := 0, g := g', requests := [level_plus pwr.active_pwrlevel 1] }
        else
          match g.up_thresholds[pwr.active_pwrlevel]? with
          | none => none
          | some up =>
            if loadpct > up then
              some { ret := 0, g := g', requests := [level_plus pwr.active_pwrlevel (-1)] }
            else
              some { ret := 0, g := g', requests := [] }
    else
      some { ret := 0,
             g := { g with walltime_total := walltime_total,
                           busytime_total := busytime_total },
             requests := [] }

/-- Consecutive calls of conservative_idle, one per sample, each starting from
the variables the previous call left; the power-level fields are those of the
device at each call. -/
def idle_run : governor → List (kgsl_pwrctrl × kgsl_power_stats) → Option (List governor_result)
  | _, [] => some []
  | g, (pwr, stats) :: rest =>
    match conservative_idle g pwr stats with
    | none => none
    | some r =>
      match idle_run r.g rest with
      | none => none
      | some rs => some (r :: rs)

/-! ## The other callbacks and attributes of the governor -/

/-- The macro MIN_POLL_INTERVAL (line 58). -/
def MIN_POLL_INTERVAL : Nat := 10000

/-- The macro MAX_POLL_INTERVAL (line 60). -/
def MAX_POLL_INTERVAL : Nat := 1000000

/-- Function conservative_init (lines 369-378): the mode becomes Conservative. -/
def conservative_init (g : governor) : governor_result :=
  { ret := 0, g := { g with scale_mode := mode 0 }, requests := [] }

/-- Function conservative_wake (lines 90-104); is_nap says whether
device->state is KGSL_STATE_NAP. -/
def conservative_wake (g : governor) (is_nap : Bool) : governor_result :=
  if is_nap = false ∧ g.scale_mode = mode 0 then
    { ret := 0, g := { g with walltime_total := 0, busytime_total := 0 }, requests := [] }
  else
    { ret := 0, g := g, requests := [] }

/-- Function conservative_sleep (lines 161-172). -/
def conservative_sleep (g : governor) (pwr : kgsl_pwrctrl) : governor_result :=
  if g.scale_mode ≠ mode 2 ∧ pwr.active_pwrlevel ≠ pwr.min_pwrlevel then
    { ret := 0, g := g, requests := [pwr.min_pwrlevel] }
  else
    { ret := 0, g := g, requests := [] }

/-- What kstrtoul or kstrtoint, routines of lib/kstrtox.c that are not under
src/, deliver for the written text: the return value err, 0 for success, and
the number stored through the pointer when err is 0. -/
structure kstrto_result where
  err : Int
  value : Nat
  deriving DecidableEq, Repr

/-- Function conservative_stats_store (lines 185-201). -/
def conservative_stats_store (g : governor) (parsed : kstrto_result) (count : Nat) :
    governor_result :=
  if parsed.err ≠ 0 then
    { ret := parsed.err, g := g, requests := [] }
  else
    { ret := (count : Int), g := { g with g_show_stats := if parsed.value ≠ 0 then 1 else 0 },
      requests := [] }

/-- Function conservative_polling_interval_store (lines 217-238). -/
def conservative_polling_interval_store (g : governor) (parsed : kstrto_result)
    (count : Nat) : governor_result :=
  if parsed.err ≠ 0 then
    { ret := parsed.err, g := g, requests := [] }
  else
    let tmp :=
      if parsed.value < MIN_POLL_INTERVAL then MIN_POLL_INTERVAL
      else if parsed.value > MAX_POLL_INTERVAL then MAX_POLL_INTERVAL
      else parsed.value
    { ret := (count : Int), g := { g with g_polling_interval := tmp }, requests := [] }

/-- The table after sscanf has stored the numbers it converted into its
leading entries. -/
def store_scanned : List Nat → List Nat → List Nat
  | [], table => table
  | _ :: _, [] => []
  | v :: vs, _ :: rest => v :: store_scanned vs rest

/-- Function down_thresholds_store (lines 260-277); scanned holds the numbers
sscanf converted, in order. sscanf writes them into the table before its
return value is examined. -/
def down_thresholds_store (g : governor) (scanned : List Nat) (count : Nat) :
    governor_result :=
  { ret := if scanned.length < 1 ∨ scanned.length > 5 then -MsmThermal.EINVAL else (count : Int),
    g := { g with down_thresholds := store_scanned (scanned.take 5) g.down_thresholds },
    requests := [] }

/-- Function up_thresholds_store (lines 298-315); scanned as for
down_thresholds_store. -/
def up_thresholds_store (g : governor) (scanned : List Nat) (count : Nat) :
    governor_result :=
  { ret := if scanned.length < 1 ∨ scanned.length > 5 then -MsmThermal.EINVAL else (count : Int),
    g := { g with up_thresholds := store_scanned (scanned.take 5) g.up_thresholds },
    requests := [] }

/-- One call into the governor: a policy callback or a write to one of its
sysfs attributes, with what the call receives from outside. -/
inductive governor_call where
  | init
  | wake (is_nap : Bool)
  | idle (pwr : kgsl_pwrctrl) (stats : kgsl_power_stats)
  | sleep (pwr : kgsl_pwrctrl)
  | stats_store (parsed : kstrto_result) (count : Nat)
  | polling_interval_store (parsed : kstrto_result) (count : Nat)
  | down_store (scanned : List Nat) (count : Nat)
  | up_store (scanned : List Nat) (count : Nat)
  | mode_store (pwr : kgsl_pwrctrl) (buf : List Char)
  deriving DecidableEq, Repr

/-- The governor function behind a call; none when conservative_idle reads a
threshold table past its end. -/
def governor_step (g : governor) : governor_call → Option governor_result
  | .init => some (conservative_init g)
  | .wake is_nap => some (conservative_wake g is_nap)
  | .idle pwr stats => conservative_idle g pwr stats
  | .sleep pwr => some (conservative_sleep g pwr)
  | .stats_store parsed count => some (conservative_stats_store g parsed count)
  | .polling_interval_store parsed count =>
    some (conservative_polling_interval_store g parsed count)
  | .down_store scanned count => some (down_thresholds_store g scanned count)
  | .up_store scanned count => some (up_thresholds_store g scanned count)
  | .mode_store pwr buf => some (scale_mode_store g pwr buf)

/-- The governor's variables after a sequence of calls, each starting from
what the previous one left. -/
def governor_run : governor → List governor_call → Option governor
  | g, [] => some g
  | g, c :: rest =>
    match governor_step g c with
    | none => none
    | some r => governor_run r.g rest

end KgslConservative

/-!
# ION memory reservation of the m7 board

A shallow embedding of `reserve_ion_memory` from
`arch/arm/mach-msm/htc/m7/board-m7.c`, for a kernel built with CONFIG_ION_MSM
and CONFIG_MSM_MULTIMEDIA_USE_ION (without them the function body is empty).
Sizes and addresses are unsigned int, size_t or unsigned long, all 32 bits wide
on this board; sums are reduced modulo 2 ^ 32 where the source adds.
-/

namespace BoardM7

/-- Number of values of a 32-bit unsigned integer. -/
def U32 : Nat := 2 ^ 32

/-! ## Size constants (lines 142-178) -/

/-- The two configuration switches that select among the size constants and
the entries of the heap table. -/
structure board_config where
  CONFIG_MSM_IOMMU : Bool
  CONFIG_CMA : Bool
  deriving DecidableEq, Repr

/-- The macro MSM_PMEM_ADSP_SIZE. -/
def MSM_PMEM_ADSP_SIZE : Nat := 0x8600000

/-- The macro MSM_PMEM_AUDIO_SIZE. -/
def MSM_PMEM_AUDIO_SIZE : Nat := 0x4CF000

/-- The macro MSM_PMEM_SIZE. -/
def MSM_PMEM_SIZE : Nat := 0x0

/-- The macro HOLE_SIZE. -/
def HOLE_SIZE : Nat := 0x20000

/-- The macro MSM_ION_MFC_META_SIZE. -/
def MSM_ION_MFC_META_SIZE : Nat := 0x40000

/-- The macro MSM_ION_MM_SIZE, by configuration. -/
def MSM_ION_MM_SIZE (c : board_config) : Nat :=
  if c.CONFIG_MSM_IOMMU then 0x6000000 else MSM_PMEM_ADSP_SIZE

/-- The macro MSM_ION_SF_SIZE, by configuration. -/
def MSM_ION_SF_SIZE (c : board_config) : Nat :=
  if c.CONFIG_MSM_IOMMU then 0 else MSM_PMEM_SIZE

/-- The macro MSM_ION_QSECOM_SIZE, by configuration. -/
def MSM_ION_QSECOM_SIZE (c : board_config) : Nat :=
  if c.CONFIG_MSM_IOMMU then 0x780000 else 0x600000

/-- The macro MSM_ION_HEAP_NUM, by configuration. -/
def MSM_ION_HEAP_NUM (c : board_config) : Nat :=
  if c.CONFIG_MSM_IOMMU then (if c.CONFIG_CMA then 8 else 7) else 8

/-- The macro MSM_ION_MM_FW_SIZE. -/
def MSM_ION_MM_FW_SIZE : Nat := 0x200000 - HOLE_SIZE

/-- The size SZ_8K of linux/sizes.h. -/
def SZ_8K : Nat := 0x2000

/-- The size SZ_8M of linux/sizes.h. -/
def SZ_8M : Nat := 0x800000

/-- The macro MSM_ION_MFC_SIZE. -/
def MSM_ION_MFC_SIZE : Nat := SZ_8K + MSM_ION_MFC_META_SIZE

/-- The macro MSM_ION_AUDIO_SIZE. -/
def MSM_ION_AUDIO_SIZE : Nat := MSM_PMEM_AUDIO_SIZE

/-- The macro MSM_ION_ADSP_SIZE. -/
def MSM_ION_ADSP_SIZE : Nat := SZ_8M

/-- The macro APQ8064_FIXED_AREA_START. -/
def APQ8064_FIXED_AREA_START : Nat := 0xa0000000 - (MSM_ION_MM_FW_SIZE + HOLE_SIZE)

/-- The macro MAX_FIXED_AREA_SIZE. -/
def MAX_FIXED_AREA_SIZE : Nat := 0x10000000

/-! ## Heaps -/

/-- Modelled from the spec: enum ion_fixed_position is declared in the ION
headers, which are not under src/; these are the four values the board file
uses. -/
inductive ion_fixed_position where
  | NOT_FIXED
  | FIXED_LOW
  | FIXED_MIDDLE
  | FIXED_HIGH
  deriving DecidableEq, Repr

/-- The fields of struct ion_cp_heap_pdata that reserve_ion_memory reads or
writes. -/
structure ion_cp_heap_pdata where
  fixed_position : ion_fixed_position
  is_cma : Bool
  secure_base : Nat
  secure_size : Nat
  deriving DecidableEq, Repr

/-- The field of struct ion_co_heap_pdata that reserve_ion_memory reads. -/
structure ion_co_heap_pdata where
  fixed_position : ion_fixed_position
  deriving DecidableEq, Repr

/-- The type of a heap together with its extra_data, which the source casts
according to the type: to ion_cp_heap_pdata for ION_HEAP_TYPE_CP, to
ion_co_heap_pdata for ION_HEAP_TYPE_CARVEOUT and ION_HEAP_TYPE_DMA. For every
other type only whether extra_data is non-null matters. A null extra_data is
none. -/
inductive heap_kind where
  | other (has_extra_data : Bool)
  | cp (extra_data : Option ion_cp_heap_pdata)
  | carveout (extra_data : Option ion_co_heap_pdata)
  | dma (extra_data : Option ion_co_heap_pdata)
  deriving DecidableEq, Repr

/-- The heap identifiers the board's table uses. -/
inductive ion_heap_id where
  | ION_SYSTEM_HEAP_ID
  | ION_CP_MM_HEAP_ID
  | ION_MM_FIRMWARE_HEAP_ID
  | ION_CP_MFC_HEAP_ID
  | ION_SF_HEAP_ID
  | ION_IOMMU_HEAP_ID
  | ION_QSECOM_HEAP_ID
  | ION_AUDIO_HEAP_ID
  | ION_ADSP_HEAP_ID
  deriving DecidableEq, Repr

/-- The fields of struct ion_platform_heap that reserve_ion_memory touches. -/
structure ion_platform_heap where
  id : ion_heap_id
  kind : heap_kind
  size : Nat
  base : Nat
  deriving DecidableEq, Repr

/-- Whether heap->extra_data is non-null (lines 559 and 666). -/
def has_extra_data (h : ion_platform_heap) : Bool :=
  match h.kind with
  | .other b => b
  | .cp e => e.isSome
  | .carveout e => e.isSome
  | .dma e => e.isSome

/-- The fixed_position both loops read for a heap (lines 560-582 and
667-683); NOT_FIXED when extra_data is null or the type is not one of the
three. -/
def fixed_position_of (h : ion_platform_heap) : ion_fixed_position :=
  match h.kind with
  | .other _ => .NOT_FIXED
  | .cp (some p) => p.fixed_position
  | .carveout (some p) => p.fixed_position
  | .dma (some p) => p.fixed_position
  | _ => .NOT_FIXED

/-- The use_cma flag the first loop computes for a heap (lines 556-582). -/
def use_cma_of (h : ion_platform_heap) : Bool :=
  match h.kind with
  | .cp (some p) => p.is_cma
  | .dma (some _) => true
  | _ => false

/-! ## Alignment -/

/-- The macro ALIGN of linux/kernel.h on a 32-bit unsigned x:
(x + mask) and-not mask, with mask = a - 1 in 32-bit arithmetic. -/
def ALIGN (x a : Nat) : Nat :=
  ((x + (a % U32 + U32 - 1) % U32) % U32) &&& (U32 - 1 - (a % U32 + U32 - 1) % U32)

/-- The macro IS_ALIGNED of linux/kernel.h on a 32-bit unsigned x: x and mask
is zero, with mask = a - 1 in 32-bit arithmetic. -/
def IS_ALIGNED (x a : Nat) : Bool :=
  x &&& ((a % U32 + U32 - 1) % U32) = 0

/-- What reserve_ion_memory meets outside the board file. SECTION_SIZE and
cma_alignment (PAGE_SIZE shifted left by the larger of MAX_ORDER and
pageblock_order) come from architecture and mm headers that are not under
src/ and are taken as parameters; memblock_remove gives the return value of
the kernel routine of that name for a start address and a size. -/
structure reserve_env where
  SECTION_SIZE : Nat
  cma_alignment : Nat
  memblock_remove : Nat → Nat → Int

/-! ## The first loop (lines 553-611) -/

/-- The heap as the first loop leaves it: the size of a content-protected heap
whose pdata has is_cma set is rounded up to cma_alignment (lines 564-569). -/
def heap_sized (env : reserve_env) (h : ion_platform_heap) : ion_platform_heap :=
  match h.kind with
  | .cp (some p) => if p.is_cma then { h with size := ALIGN h.size env.cma_alignment } else h
  | _ => h

/-- The locals of reserve_ion_memory that the first loop fills, the sizes
handed to reserve_mem_for_ion, and the arguments (size, base, limit) of the
calls of dma_declare_contiguous. -/
structure reserve_acc where
  fixed_size : Nat
  fixed_low_size : Nat
  fixed_middle_size : Nat
  fixed_high_size : Nat
  low_use_cma : Bool
  middle_use_cma : Bool
  high_use_cma : Bool
  reserved : List Nat
  dma_declared : List (Nat × Nat × Nat)
  deriving DecidableEq, Repr

/-- The locals on entry to the first loop (lines 538-549). -/
def reserve_acc_init : reserve_acc :=
  { fixed_size := 0, fixed_low_size := 0, fixed_middle_size := 0, fixed_high_size := 0,
    low_use_cma := false, middle_use_cma := false, high_use_cma := false,
    reserved := [], dma_declared := [] }

/-- Body of the first loop for one heap (lines 554-610). -/
def size_step (env : reserve_env) (acc : reserve_acc) (h : ion_platform_heap) : reserve_acc :=
  if has_extra_data h = true then
    let size := (heap_sized env h).size
    let use_cma := use_cma_of h
    let fixed_position := fixed_position_of h
    let acc1 :=
      if fixed_position ≠ .NOT_FIXED then
        { acc with fixed_size := (acc.fixed_size + size) % U32 }
      else if use_cma = false then
        { acc with reserved := acc.reserved ++ [size] }
      else acc
    match fixed_position with
    | .FIXED_LOW =>
      { acc1 with fixed_low_size := (acc1.fixed_low_size + size) % U32,
                  low_use_cma := use_cma }
    | .FIXED_MIDDLE =>
      { acc1 with fixed_middle_size := (acc1.fixed_middle_size + size) % U32,
                  middle_use_cma := use_cma }
    | .FIXED_HIGH =>
      { acc1 with fixed_high_size := (acc1.fixed_high_size + size) % U32,
                  high_use_cma := use_cma }
    | .NOT_FIXED =>
      if use_cma = true then
        { acc1 with dma_declared := acc1.dma_declared ++ [(size, 0, 0xb0000000)] }
      else acc1
  else acc

/-- The first loop over the heap table (lines 553-611). -/
def size_loop (env : reserve_env) (heaps : List ion_platform_heap) : reserve_acc :=
  heaps.foldl (size_step env) reserve_acc_init

/-! ## The fixed areas (lines 622-661) -/

/-- The BUG_ON sites of reserve_ion_memory and the null pdata dereference of
line 699, as ways in which the function does not return. -/
inductive reserve_bug where
  | low_size_unaligned
  | low_start_unaligned
  | low_memblock_remove
  | middle_start_unaligned
  | middle_size_unaligned
  | middle_memblock_remove
  | high_start_unaligned
  | high_memblock_remove
  | null_pdata
  deriving DecidableEq, Repr

/-- The local fixed_low_start (line 622). -/
def fixed_low_start : Nat := APQ8064_FIXED_AREA_START

/-- The local fixed_middle_start (line 636). -/
def fixed_middle_start (acc : reserve_acc) : Nat :=
  (fixed_low_start + acc.fixed_low_size + HOLE_SIZE) % U32

/-- The local fixed_high_start (line 649). -/
def fixed_high_start (acc : reserve_acc) : Nat :=
  (fixed_middle_start acc + acc.fixed_middle_size) % U32

/-- The local fixed_high_size after its round-up (lines 651 and 655). -/
def fixed_high_size_aligned (env : reserve_env) (acc : reserve_acc) : Nat :=
  if acc.high_use_cma then ALIGN acc.fixed_high_size env.cma_alignment
  else ALIGN acc.fixed_high_size env.SECTION_SIZE

/-- The first BUG_ON of lines 622-661 that fires, in source order, or none
when all of them pass. -/
def area_bug (env : reserve_env) (acc : reserve_acc) : Option reserve_bug :=
  let low :=
    if acc.low_use_cma then
      if IS_ALIGNED ((acc.fixed_low_size + HOLE_SIZE) % U32) env.cma_alignment = false then
        some reserve_bug.low_size_unaligned
      else if IS_ALIGNED fixed_low_start env.cma_alignment = false then
        some reserve_bug.low_start_unaligned
      else none
    else
      if IS_ALIGNED ((acc.fixed_low_size + HOLE_SIZE) % U32) env.SECTION_SIZE = false then
        some reserve_bug.low_size_unaligned
      else if env.memblock_remove fixed_low_start
          ((acc.fixed_low_size + HOLE_SIZE) % U32) ≠ 0 then
        some reserve_bug.low_memblock_remove
      else none
  let middle :=
    if acc.middle_use_cma then
      if IS_ALIGNED (fixed_middle_start acc) env.cma_alignment = false then
        some reserve_bug.middle_start_unaligned
      else if IS_ALIGNED acc.fixed_middle_size env.cma_alignment = false then
        some reserve_bug.middle_size_unaligned
      else none
    else
      if IS_ALIGNED acc.fixed_middle_size env.SECTION_SIZE = false then
        some reserve_bug.middle_size_unaligned
      else if env.memblock_remove (fixed_middle_start acc) acc.fixed_middle_size ≠ 0 then
        some reserve_bug.middle_memblock_remove
      else none
  let high :=
    if acc.high_use_cma then
      if IS_ALIGNED (fixed_high_start acc) env.cma_alignment = false then
        some reserve_bug.high_start_unaligned
      else none
    else
      if env.memblock_remove (fixed_high_start acc) (fixed_high_size_aligned env acc) ≠ 0 then
        some reserve_bug.high_memblock_remove
      else none
  match low with
  | some b => some b
  | none =>
    match middle with
    | some b => some b
    | none => high

/-- The calls of memblock_remove (start, size) of lines 628, 642 and 656, in
order, when no BUG_ON fires. -/
def memblock_removed (env : reserve_env) (acc : reserve_acc) : List (Nat × Nat) :=
  (if acc.low_use_cma then []
    else [(fixed_low_start, (acc.fixed_low_size + HOLE_SIZE) % U32)]) ++
  (if acc.middle_use_cma then []
    else [(fixed_middle_start acc, acc.fixed_middle_size)]) ++
  (if acc.high_use_cma then []
    else [(fixed_high_start acc, fixed_high_size_aligned env acc)])

/-! ## The second loop (lines 663-710) -/

/-- Body of the second loop for one heap (lines 664-709), which has been
through the first loop. A FIXED_MIDDLE heap that is not content-protected has
a null pdata at line 699. -/
def assign_base (acc : reserve_acc) (h : ion_platform_heap) :
    Except reserve_bug ion_platform_heap :=
  if has_extra_data h = true then
    match fixed_position_of h with
    | .FIXED_LOW => .ok { h with base := fixed_low_start }
    | .FIXED_MIDDLE =>
      match h.kind with
      | .cp (some p) =>
        .ok { h with
          base := fixed_middle_start acc,
          kind := .cp (some { p with
            secure_base := (fixed_middle_start acc + U32 - HOLE_SIZE) % U32,
            secure_size := (HOLE_SIZE + h.size) % U32 }) }
      | _ => .error reserve_bug.null_pdata
    | .FIXED_HIGH => .ok { h with base := fixed_high_start acc }
    | .NOT_FIXED => .ok h
  else .ok h

/-- The second loop over the heap table (lines 663-710). -/
def assign_bases (acc : reserve_acc) :
    List ion_platform_heap → Except reserve_bug (List ion_platform_heap)
  | [] => .ok []
  | h :: rest =>
    match assign_base acc h with
    | .error b => .error b
    | .ok h' =>
      match assign_bases acc rest with
      | .error b => .error b
      | .ok rest' => .ok (h' :: rest')

/-- The calls of dma_declare_contiguous of the second loop (lines 691-698),
as (size, base, limit), one per FIXED_MIDDLE heap when middle_use_cma is set. -/
def dma_declared_middle (acc : reserve_acc) (heaps : List ion_platform_heap) :
    List (Nat × Nat × Nat) :=
  if acc.middle_use_cma then
    (heaps.filter (fun h =>
      has_extra_data h && decide (fixed_position_of h = .FIXED_MIDDLE))).map
      (fun h => (h.size, fixed_middle_start acc, 0xa0000000))
  else []

/-! ## reserve_ion_memory -/

/-- What reserve_ion_memory leaves behind when it returns: the heap table, the
locals of the first loop, the sizes added to the EBI1 entry of the reserve
table, the calls of memblock_remove and those of dma_declare_contiguous. -/
structure reserve_result where
  heaps : List ion_platform_heap
  acc : reserve_acc
  reserved : List Nat
  memblock_removed : List (Nat × Nat)
  dma_declared : List (Nat × Nat × Nat)
  deriving DecidableEq, Repr

/-- Function reserve_ion_memory (lines 533-712) on the heaps
apq8064_ion_pdata lists. An error is the BUG_ON, or the null dereference,
that stops the kernel. -/
def reserve_ion_memory (env : reserve_env) (heaps : List ion_platform_heap) :
    Except reserve_bug reserve_result :=
  let acc := size_loop env heaps
  let sized := heaps.map (heap_sized env)
  if acc.fixed_size = 0 then
    .ok { heaps := sized, acc := acc, reserved := acc.reserved, memblock_removed := [],
          dma_declared := acc.dma_declared }
  else
    match area_bug env acc with
    | some b => .error b
    | none =>
      match assign_bases acc sized with
      | .error b => .error b
      | .ok heaps' =>
        .ok { heaps := heaps', acc := acc, reserved := acc.reserved,
              memblock_removed := memblock_removed env acc,
              dma_declared := acc.dma_declared ++ dma_declared_middle acc sized }

/-! ## The board's heap table (lines 334-364 and 399-479) -/

/-- The initialiser cp_mm_apq8064_ion_pdata. -/
def cp_mm_apq8064_ion_pdata (c : board_config) : ion_cp_heap_pdata :=
  { fixed_position := .FIXED_MIDDLE, is_cma := c.CONFIG_CMA, secure_base := 0,
    secure_size := 0 }

/-- The initialiser cp_mfc_apq8064_ion_pdata. -/
def cp_mfc_apq8064_ion_pdata : ion_cp_heap_pdata :=
  { fixed_position := .FIXED_HIGH, is_cma := false, secure_base := 0, secure_size := 0 }

/-- The initialiser co_apq8064_ion_pdata; it names no fixed_position, which C
zeroes to NOT_FIXED. -/
def co_apq8064_ion_pdata : ion_co_heap_pdata :=
  { fixed_position := .NOT_FIXED }

/-- The initialiser fw_co_apq8064_ion_pdata. -/
def fw_co_apq8064_ion_pdata : ion_co_heap_pdata :=
  { fixed_position := .FIXED_LOW }

/-- The array apq8064_heaps (lines 399-474), by configuration. -/
def apq8064_heaps (c : board_config) : List ion_platform_heap :=
  [ { id := .ION_SYSTEM_HEAP_ID, kind := .other false, size := 0, base := 0 },
    { id := .ION_CP_MM_HEAP_ID, kind := .cp (some (cp_mm_apq8064_ion_pdata c)),
      size := MSM_ION_MM_SIZE c, base := 0 },
    { id := .ION_MM_FIRMWARE_HEAP_ID, kind := .carveout (some fw_co_apq8064_ion_pdata),
      size := MSM_ION_MM_FW_SIZE, base := 0 },
    { id := .ION_CP_MFC_HEAP_ID, kind := .cp (some cp_mfc_apq8064_ion_pdata),
      size := MSM_ION_MFC_SIZE, base := 0 } ] ++
  (if c.CONFIG_MSM_IOMMU then []
    else [ { id := .ION_SF_HEAP_ID, kind := .carveout (some co_apq8064_ion_pdata),
             size := MSM_ION_SF_SIZE c, base := 0 } ]) ++
  [ { id := .ION_IOMMU_HEAP_ID, kind := .other false, size := 0, base := 0 },
    { id := .ION_QSECOM_HEAP_ID, kind := .carveout (some co_apq8064_ion_pdata),
      size := MSM_ION_QSECOM_SIZE c, base := 0 },
    { id := .ION_AUDIO_HEAP_ID, kind := .carveout (some co_apq8064_ion_pdata),
      size := MSM_ION_AUDIO_SIZE, base := 0 } ] ++
  (if c.CONFIG_CMA then
    [ { id := .ION_ADSP_HEAP_ID, kind := .dma (some co_apq8064_ion_pdata),
        size := MSM_ION_ADSP_SIZE, base := 0 } ]
    else [])

/-- The heaps apq8064_ion_pdata hands to the loops: the first MSM_ION_HEAP_NUM
entries of apq8064_heaps (lines 476-479). -/
def apq8064_ion_pdata (c : board_config) : List ion_platform_heap :=
  (apq8064_heaps c).take (MSM_ION_HEAP_NUM c)

/-- The environment of the board: sections of 1 MiB, a CMA alignment of
8 MiB (4 KiB pages shifted by MAX_ORDER = 11), and a memblock_remove that
succeeds. -/
def m7_env : reserve_env :=
  { SECTION_SIZE := 0x100000, cma_alignment := 0x800000,
    memblock_remove := fun _ _ => 0 }

/-- The heap as the second loop leaves it when its body does not stop the
kernel: the value assign_base returns, the heap itself where it fails. -/
def placed (acc : reserve_acc) (h : ion_platform_heap) : ion_platform_heap :=
  match assign_base acc h with
  | .ok h' => h'
  | .error _ => h

/-- Test table for a given triple of sizes: a firmware carveout heap at
FIXED_LOW, a content-protected heap at FIXED_MIDDLE and one at FIXED_HIGH,
none of them using CMA. -/
def three_heaps (fw_size mm_size mfc_size : Nat) : List ion_platform_heap :=
  [ { id := .ION_CP_MM_HEAP_ID,
      kind := .cp (some { fixed_position := .FIXED_MIDDLE, is_cma := false,
                          secure_base := 0, secure_size := 0 }),
      size := mm_size, base := 0 },
    { id := .ION_MM_FIRMWARE_HEAP_ID, kind := .carveout (some fw_co_apq8064_ion_pdata),
      size := fw_size, base := 0 },
    { id := .ION_CP_MFC_HEAP_ID, kind := .cp (some cp_mfc_apq8064_ion_pdata),
      size := mfc_size, base := 0 } ]

/-- Test table like three_heaps, except that the FIXED_MIDDLE heap is a plain
carveout heap. -/
def three_heaps_carveout_mm (fw_size mm_size mfc_size : Nat) : List ion_platform_heap :=
  [ { id := .ION_CP_MM_HEAP_ID, kind := .carveout (some { fixed_position := .FIXED_MIDDLE }),
      size := mm_size, base := 0 },
    { id := .ION_MM_FIRMWARE_HEAP_ID, kind := .carveout (some fw_co_apq8064_ion_pdata),
      size := fw_size, base := 0 },
    { id := .ION_CP_MFC_HEAP_ID, kind := .cp (some cp_mfc_apq8064_ion_pdata),
      size := mfc_size, base := 0 } ]

/-- The BUG_ON, or null dereference, at which reserve_ion_memory stops, none
when it returns. -/
def bug_of (r : Except reserve_bug reserve_result) : Option reserve_bug :=
  match r with
  | .error b => some b
  | .ok _ => none

/-- The base reserve_ion_memory gives the heap with a given id, none when the
function does not return or the table has no such heap. -/
def base_of (r : Except reserve_bug reserve_result) (id : ion_heap_id) : Option Nat :=
  match r with
  | .error _ => none
  | .ok res => (res.heaps.find? (fun h => h.id = id)).map (fun h => h.base)

/-- The pair (secure_base, secure_size) reserve_ion_memory leaves in the pdata
of the content-protected heap with a given id; none when the function does not
return or the table has no such heap. -/
def secure_of (r : Except reserve_bug reserve_result) (id : ion_heap_id) :
    Option (Nat × Nat) :=
  match r with
  | .error _ => none
  | .ok res =>
    match res.heaps.find? (fun h => h.id = id) with
    | none => none
    | some h =>
      match h.kind with
      | .cp (some p) => some (p.secure_base, p.secure_size)
      | _ => none

/-- The locals of the first loop for a table, none when reserve_ion_memory
does not return. -/
def acc_of (r : Except reserve_bug reserve_result) : Option reserve_acc :=
  match r with
  | .error _ => none
  | .ok res => some res.acc

end BoardM7

namespace MsmThermal

/-! ## Facts about the rule chain -/

theorem select_rule_tstat_not_final (info : msm_thermal_data) (temp m mf s : Nat) :
    (select_rule info temp m false mf s).tstat = s := by
  unfold select_rule
  split_ifs <;> first | contradiction | rfl

theorem select_rule_tstat_final (info : msm_thermal_data) (temp m mf m' mf' s : Nat) :
    (select_rule info temp m true mf s).tstat = (select_rule info temp m' true mf' s).tstat := by
  unfold select_rule
  split_ifs <;> first | contradiction | rfl

theorem select_rule_update_policy (info : msm_thermal_data) (temp m mf m' mf' s : Nat)
    (fc fc' : Bool) :
    (select_rule info temp m fc mf s).update_policy
      = (select_rule info temp m' fc' mf' s).update_policy := by
  unfold select_rule
  split_ifs <;> first | contradiction | rfl

theorem select_rule_max_freq (info : msm_thermal_data) (temp m mf m' mf' s : Nat)
    (fc fc' : Bool) (hm : s ≠ UNTHROTTLED → m = m')
    (hu : (select_rule info temp m' fc' mf' s).update_policy = true) :
    (select_rule info temp m fc mf s).max_freq
      = (select_rule info temp m' fc' mf' s).max_freq := by
  unfold select_rule at hu ⊢
  by_cases h2 : rule2_guard info temp s
  · simp only [if_pos h2]
  simp only [if_neg h2] at hu ⊢
  by_cases h3 : rule3_guard info temp s
  · have h0 : m = m' := hm (Nat.pos_iff_ne_zero.mp h3.2)
    simp only [if_pos h3, h0]
  simp only [if_neg h3] at hu ⊢
  by_cases h4 : rule4_guard info temp s
  · simp only [if_pos h4]
  simp only [if_neg h4] at hu ⊢
  by_cases h5 : rule5_guard info temp s
  · simp only [if_pos h5]
  simp only [if_neg h5] at hu ⊢
  by_cases h6 : rule6_guard info temp
  · simp only [if_pos h6]
  simp only [if_neg h6] at hu ⊢
  by_cases h7 : rule7_guard info temp s
  · simp only [if_pos h7]
  simp only [if_neg h7] at hu
  exact absurd hu (by decide)

/-! ## Facts about the per-CPU loop -/

theorem cpu_step_spec (n : Nat) (info : msm_thermal_data) (temp : Nat) (l : loop_state)
    (cpu : Nat) (p : cpufreq_policy) (hp : l.policies cpu = some p)
    (hm : l.tstat ≠ UNTHROTTLED → l.max_cpu_freq = 0) :
    (cpu_step n info temp l cpu).tstat
        = (if (cpu : Int) = (n : Int) - 1 ∨ l.final_cpu = true
            then next_state info l.tstat temp else l.tstat) ∧
    (cpu_step n info temp l cpu).final_cpu
        = (decide ((cpu : Int) = (n : Int) - 1) || l.final_cpu) ∧
    (l.tstat ≠ UNTHROTTLED → (cpu_step n info temp l cpu).max_cpu_freq = 0) ∧
    (cpu_step n info temp l cpu).calls
        = l.calls ++ (if (select_rule info temp 0 true 0 l.tstat).update_policy = true
            then [(cpu, (select_rule info temp 0 true 0 l.tstat).max_freq)] else []) ∧
    (∀ c, ((cpu_step n info temp l cpu).policies c).isSome = (l.policies c).isSome) := by
  have hmcf : l.tstat ≠ UNTHROTTLED →
      (if l.tstat = UNTHROTTLED ∧ cpu = 0 then p.max else l.max_cpu_freq) = 0 := by
    intro h
    rw [if_neg (fun hc => h hc.1)]
    exact hm h
  generalize hM : (if l.tstat = UNTHROTTLED ∧ cpu = 0 then p.max else l.max_cpu_freq) = M
    at hmcf
  have hF : (if (cpu : Int) = (n : Int) - 1 then true else l.final_cpu)
      = (decide ((cpu : Int) = (n : Int) - 1) || l.final_cpu) := by
    by_cases hc : (cpu : Int) = (n : Int) - 1 <;> simp [hc]
  generalize hFC : (decide ((cpu : Int) = (n : Int) - 1) || l.final_cpu) = F at hF
  have hu := select_rule_update_policy info temp M l.max_freq 0 0 l.tstat F true
  have ht : (select_rule info temp M F l.max_freq l.tstat).tstat
      = (if (cpu : Int) = (n : Int) - 1 ∨ l.final_cpu = true
          then next_state info l.tstat temp else l.tstat) := by
    cases F with
    | false =>
      have : ¬ ((cpu : Int) = (n : Int) - 1 ∨ l.final_cpu = true) := by
        simpa using hFC
      rw [if_neg this, select_rule_tstat_not_final]
    | true =>
      have : (cpu : Int) = (n : Int) - 1 ∨ l.final_cpu = true := by
        simpa using hFC
      rw [if_pos this, select_rule_tstat_final info temp M l.max_freq 0 0 l.tstat]
      rfl
  cases hU : (select_rule info temp 0 true 0 l.tstat).update_policy with
  | false =>
    rw [hU] at hu
    have hstep : cpu_step n info temp l cpu =
        { tstat := (select_rule info temp M F l.max_freq l.tstat).tstat,
          max_freq := (select_rule info temp M F l.max_freq l.tstat).max_freq,
          max_cpu_freq := M, final_cpu := F, policies := l.policies, calls := l.calls } := by
      simp only [cpu_step, hp, hM, hF, hu, Bool.false_eq_true, if_false]
    rw [hstep]
    refine ⟨ht, rfl, hmcf, by simp, fun c => rfl⟩
  | true =>
    rw [hU] at hu
    have hx := select_rule_max_freq info temp M l.max_freq 0 0 l.tstat F true hmcf hU
    have hstep : cpu_step n info temp l cpu =
        { tstat := (select_rule info temp M F l.max_freq l.tstat).tstat,
          max_freq := (select_rule info temp M F l.max_freq l.tstat).max_freq,
          max_cpu_freq := M, final_cpu := F,
          policies := Function.update l.policies cpu
            (some { cpufreq_verify_within_limits p p.min
                      (select_rule info temp M F l.max_freq l.tstat).max_freq with
                    user_policy_max := (select_rule info temp M F l.max_freq l.tstat).max_freq }),
          calls := l.calls ++ [(cpu, (select_rule info temp M F l.max_freq l.tstat).max_freq)] } := by
      simp only [cpu_step, hp, hM, hF, hu, if_true, policy_before_update]
    rw [hstep]
    refine ⟨ht, rfl, hmcf, by simp [hx], fun c => ?_⟩
    by_cases hc : c = cpu
    · subst hc
      simp [hp]
    · simp [Function.update_noteq hc]

theorem cpu_step_none (n : Nat) (info : msm_thermal_data) (temp : Nat) (l : loop_state)
    (cpu : Nat) (hp : l.policies cpu = none) : cpu_step n info temp l cpu = l := by
  simp only [cpu_step, hp]

theorem calls_upto_succ_some (info : msm_thermal_data) (tstat temp : Nat)
    (policies : Nat → Option cpufreq_policy) (k : Nat) (h : (policies k).isSome = true) :
    calls_upto info tstat temp policies (k + 1)
      = calls_upto info tstat temp policies k
        ++ (if (select_rule info temp 0 true 0 tstat).update_policy = true
            then [(k, (select_rule info temp 0 true 0 tstat).max_freq)] else []) := by
  unfold calls_upto
  by_cases hu : (select_rule info temp 0 true 0 tstat).update_policy = true
  · simp only [if_pos hu, List.range_succ, List.filter_append, List.map_append,
      List.filter_cons, List.filter_nil, h, if_true, List.map_cons, List.map_nil]
  · simp only [if_neg hu, List.append_nil]

theorem calls_upto_succ_none (info : msm_thermal_data) (tstat temp : Nat)
    (policies : Nat → Option cpufreq_policy) (k : Nat) (h : (policies k).isSome = false) :
    calls_upto info tstat temp policies (k + 1) = calls_upto info tstat temp policies k := by
  unfold calls_upto
  by_cases hu : (select_rule info temp 0 true 0 tstat).update_policy = true
  · simp only [if_pos hu, List.range_succ, List.filter_append, List.map_append,
      List.filter_cons, List.filter_nil, h, Bool.false_eq_true, if_false, List.map_nil,
      List.append_nil]
  · simp only [if_neg hu]

theorem calls_upto_all_available (info : msm_thermal_data) (tstat temp : Nat)
    (policies : Nat → Option cpufreq_policy) (n : Nat) (hall : all_available n policies) :
    calls_upto info tstat temp policies n
      = if (select_rule info temp 0 true 0 tstat).update_policy = true
        then (List.range n).map (fun c => (c, (select_rule info temp 0 true 0 tstat).max_freq))
        else [] := by
  unfold calls_upto
  have : (List.range n).filter (fun c => (policies c).isSome) = List.range n := by
    apply List.filter_eq_self.mpr
    intro c hc
    exact hall c (List.mem_range.mp hc)
  rw [this]

/-- Invariant of the loop before CPU k is visited, k < n: tstat and final_cpu
are untouched, max_cpu_freq is still 0 unless the tick started UNTHROTTLED, the
calls made are those of the CPUs below k that have a policy, and no policy
object has appeared or disappeared. -/
theorem loop_prefix (n : Nat) (info : msm_thermal_data) (temp s : Nat)
    (policies : Nat → Option cpufreq_policy) :
    ∀ k, k < n →
      ((List.range k).foldl (cpu_step n info temp) (loop_init s policies)).tstat = s ∧
      ((List.range k).foldl (cpu_step n info temp) (loop_init s policies)).final_cpu = false ∧
      (s ≠ UNTHROTTLED →
        ((List.range k).foldl (cpu_step n info temp) (loop_init s policies)).max_cpu_freq = 0) ∧
      ((List.range k).foldl (cpu_step n info temp) (loop_init s policies)).calls
        = calls_upto info s temp policies k ∧
      (∀ c, (((List.range k).foldl (cpu_step n info temp) (loop_init s policies)).policies c).isSome
        = (policies c).isSome) := by
  intro k
  induction k with
  | zero =>
    intro _
    refine ⟨rfl, rfl, fun _ => rfl, ?_, fun _ => rfl⟩
    unfold calls_upto
    split_ifs <;> rfl
  | succ k ih =>
    intro hk
    obtain ⟨h1, h2, h3, h4, h5⟩ := ih (by omega)
    rw [List.range_succ, List.foldl_append, List.foldl_cons, List.foldl_nil]
    generalize (List.range k).foldl (cpu_step n info temp) (loop_init s policies) = l
      at h1 h2 h3 h4 h5
    cases hpk : l.policies k with
    | none =>
      have hk0 : (policies k).isSome = false := by rw [← h5 k, hpk]; rfl
      rw [cpu_step_none n info temp l k hpk, calls_upto_succ_none info s temp policies k hk0]
      exact ⟨h1, h2, h3, h4, h5⟩
    | some p =>
      have hk1 : (policies k).isSome = true := by rw [← h5 k, hpk]; rfl
      obtain ⟨g1, g2, g3, g4, g5⟩ :=
        cpu_step_spec n info temp l k p hpk (by rw [h1]; exact h3)
      have hne : ¬ ((k : Int) = (n : Int) - 1 ∨ l.final_cpu = true) := by
        rw [h2]
        intro h
        rcases h with h | h
        · omega
        · exact absurd h (by decide)
      refine ⟨?_, ?_, ?_, ?_, ?_⟩
      · rw [g1, if_neg hne, h1]
      · rw [g2, h2]
        have : ¬ ((k : Int) = (n : Int) - 1) := by omega
        simp [this]
      · intro hs
        exact g3 (by rw [h1]; exact hs)
      · rw [g4, h4, h1, calls_upto_succ_some info s temp policies k hk1]
      · intro c
        rw [g5 c, h5 c]

/-- What the loop of check_temp leaves behind, for any set of available
policies: tstat moves to next_state exactly when the last CPU has a policy,
every CPU that has a policy receives the selected cap, and no policy object
appears or disappears. -/
theorem check_temp_loop_spec (n : Nat) (info : msm_thermal_data) (temp s : Nat)
    (policies : Nat → Option cpufreq_policy) :
    (check_temp_loop n info temp (loop_init s policies)).tstat
      = (if 0 < n ∧ (policies (n - 1)).isSome = true then next_state info s temp else s) ∧
    (check_temp_loop n info temp (loop_init s policies)).calls
      = calls_upto info s temp policies n ∧
    (∀ c, ((check_temp_loop n info temp (loop_init s policies)).policies c).isSome
      = (policies c).isSome) := by
  rcases Nat.eq_zero_or_pos n with h0 | hn
  · subst h0
    refine ⟨?_, ?_, fun _ => rfl⟩
    · rw [if_neg (by omega)]
      rfl
    · unfold calls_upto
      split_ifs <;> rfl
  obtain ⟨k, rfl⟩ : ∃ k, n = k + 1 := ⟨n - 1, by omega⟩
  obtain ⟨h1, h2, h3, h4, h5⟩ := loop_prefix (k + 1) info temp s policies k (by omega)
  unfold check_temp_loop
  rw [List.range_succ, List.foldl_append, List.foldl_cons, List.foldl_nil]
  generalize (List.range k).foldl (cpu_step (k + 1) info temp) (loop_init s policies) = l
    at h1 h2 h3 h4 h5
  rw [Nat.add_sub_cancel]
  cases hpk : l.policies k with
  | none =>
    have hk0 : (policies k).isSome = false := by rw [← h5 k, hpk]; rfl
    rw [cpu_step_none (k + 1) info temp l k hpk,
      calls_upto_succ_none info s temp policies k hk0, hk0]
    exact ⟨by rw [if_neg (by simp), h1], h4, h5⟩
  | some p =>
    have hk1 : (policies k).isSome = true := by rw [← h5 k, hpk]; rfl
    obtain ⟨g1, _, _, g4, g5⟩ :=
      cpu_step_spec (k + 1) info temp l k p hpk (by rw [h1]; exact h3)
    have hfin : (k : Int) = ((k + 1 : Nat) : Int) - 1 ∨ l.final_cpu = true := by
      left
      omega
    refine ⟨?_, ?_, ?_⟩
    · rw [g1, if_pos hfin, h1, if_pos ⟨hn, hk1⟩]
    · rw [g4, h4, h1, calls_upto_succ_some info s temp policies k hk1]
    · intro c
      rw [g5 c, h5 c]

/-- One successful read, for any set of available policies. -/
theorem check_temp_some (n : Nat) (info : msm_thermal_data) (s temp : Nat)
    (policies : Nat → Option cpufreq_policy) :
    (check_temp n info s policies (some temp)).tstat
      = (if 0 < n ∧ (policies (n - 1)).isSome = true then next_state info s temp else s) ∧
    (check_temp n info s policies (some temp)).calls = calls_upto info s temp policies n ∧
    (∀ c, ((check_temp n info s policies (some temp)).policies c).isSome
      = (policies c).isSome) ∧
    (check_temp n info s policies (some temp)).power_off = decide (temp ≥ info.shutdown_temp) ∧
    (check_temp n info s policies (some temp)).queued
      = queue_next info (check_temp n info s policies (some temp)).tstat :=
  ⟨(check_temp_loop_spec n info temp s policies).1,
   (check_temp_loop_spec n info temp s policies).2.1,
   (check_temp_loop_spec n info temp s policies).2.2, rfl, rfl⟩

/-- One successful read with every policy available on a machine with at least
one CPU. -/
theorem check_temp_all_available (n : Nat) (hn : 0 < n) (info : msm_thermal_data)
    (s temp : Nat) (policies : Nat → Option cpufreq_policy)
    (hall : all_available n policies) :
    (check_temp n info s policies (some temp)).tstat = next_state info s temp ∧
    (check_temp n info s policies (some temp)).calls
      = (if (select_rule info temp 0 true 0 s).update_policy = true
        then (List.range n).map (fun c => (c, (select_rule info temp 0 true 0 s).max_freq))
        else []) ∧
    all_available n (check_temp n info s policies (some temp)).policies := by
  obtain ⟨h1, h2, h3, _, _⟩ := check_temp_some n info s temp policies
  refine ⟨?_, ?_, ?_⟩
  · rw [h1, if_pos ⟨hn, hall (n - 1) (by omega)⟩]
  · rw [h2, calls_upto_all_available info s temp policies n hall]
  · intro c hc
    rw [h3 c]
    exact hall c hc

theorem select_rule_spec (info : msm_thermal_data) (s T : Nat) :
    select_rule info T 0 true 0 s
      = (match spec_rule info MSM_CPUFREQ_NO_LIMIT s T with
         | some cn => ⟨cn.1, true, cn.2⟩
         | none => ⟨0, false, s⟩) := by
  unfold select_rule spec_rule
  by_cases h2 : rule2_guard info T s
  · simp only [if_pos h2, if_true]
  simp only [if_neg h2]
  by_cases h3 : rule3_guard info T s
  · simp only [if_pos h3, if_true]
  simp only [if_neg h3]
  by_cases h4 : rule4_guard info T s
  · simp only [if_pos h4, if_true]
  simp only [if_neg h4]
  by_cases h5 : rule5_guard info T s
  · simp only [if_pos h5, if_true]
  simp only [if_neg h5]
  by_cases h6 : rule6_guard info T
  · simp only [if_pos h6, if_true]
  simp only [if_neg h6]
  by_cases h7 : rule7_guard info T s
  · simp only [if_pos h7, if_true]
  simp only [if_neg h7]

/-- The rule chain on entry to a tick, by cases: which guard is the first to
hold, and what the chain then leaves in max_freq, update_policy and tstat. -/
theorem select_rule_cases (info : msm_thermal_data) (s T : Nat) :
    ((info.allowed_low_high ≤ T ∧ T < info.allowed_mid_high ∧ s = 0) ∧
      select_rule info T 0 true 0 s = ⟨info.allowed_low_freq, true, 1⟩) ∨
    (¬ (info.allowed_low_high ≤ T ∧ T < info.allowed_mid_high ∧ s = 0) ∧
      (T < info.allowed_low_low ∧ 0 < s) ∧
      select_rule info T 0 true 0 s = ⟨MSM_CPUFREQ_NO_LIMIT, true, 0⟩) ∨
    (¬ (info.allowed_low_high ≤ T ∧ T < info.allowed_mid_high ∧ s = 0) ∧
      ¬ (T < info.allowed_low_low ∧ 0 < s) ∧
      (info.allowed_mid_high ≤ T ∧ T < info.allowed_max_high ∧ s < 2) ∧
      select_rule info T 0 true 0 s = ⟨info.allowed_mid_freq, true, 2⟩) ∨
    (¬ (info.allowed_low_high ≤ T ∧ T < info.allowed_mid_high ∧ s = 0) ∧
      ¬ (T < info.allowed_low_low ∧ 0 < s) ∧
      ¬ (info.allowed_mid_high ≤ T ∧ T < info.allowed_max_high ∧ s < 2) ∧
      (T < info.allowed_mid_low ∧ 1 < s) ∧
      select_rule info T 0 true 0 s = ⟨info.allowed_low_freq, true, 1⟩) ∨
    (¬ (info.allowed_low_high ≤ T ∧ T < info.allowed_mid_high ∧ s = 0) ∧
      ¬ (T < info.allowed_low_low ∧ 0 < s) ∧
      ¬ (info.allowed_mid_high ≤ T ∧ T < info.allowed_max_high ∧ s < 2) ∧
      ¬ (T < info.allowed_mid_low ∧ 1 < s) ∧
      info.allowed_max_high ≤ T ∧
      select_rule info T 0 true 0 s = ⟨info.allowed_max_freq, true, 3⟩) ∨
    (¬ (info.allowed_low_high ≤ T ∧ T < info.allowed_mid_high ∧ s = 0) ∧
      ¬ (T < info.allowed_low_low ∧ 0 < s) ∧
      ¬ (info.allowed_mid_high ≤ T ∧ T < info.allowed_max_high ∧ s < 2) ∧
      ¬ (T < info.allowed_mid_low ∧ 1 < s) ∧
      ¬ info.allowed_max_high ≤ T ∧
      (T < info.allowed_max_low ∧ 2 < s) ∧
      select_rule info T 0 true 0 s = ⟨info.allowed_mid_freq, true, 2⟩) ∨
    (¬ (info.allowed_low_high ≤ T ∧ T < info.allowed_mid_high ∧ s = 0) ∧
      ¬ (T < info.allowed_low_low ∧ 0 < s) ∧
      ¬ (info.allowed_mid_high ≤ T ∧ T < info.allowed_max_high ∧ s < 2) ∧
      ¬ (T < info.allowed_mid_low ∧ 1 < s) ∧
      ¬ info.allowed_max_high ≤ T ∧
      ¬ (T < info.allowed_max_low ∧ 2 < s) ∧
      select_rule info T 0 true 0 s = ⟨0, false, s⟩) := by
  unfold select_rule
  by_cases h2 : rule2_guard info T s
  · exact Or.inl ⟨h2, by simp only [if_pos h2, if_true]⟩
  refine Or.inr ?_
  by_cases h3 : rule3_guard info T s
  · exact Or.inl ⟨h2, h3, by simp only [if_neg h2, if_pos h3, if_true]⟩
  refine Or.inr ?_
  by_cases h4 : rule4_guard info T s
  · exact Or.inl ⟨h2, h3, h4, by simp only [if_neg h2, if_neg h3, if_pos h4, if_true]⟩
  refine Or.inr ?_
  by_cases h5 : rule5_guard info T s
  · exact Or.inl ⟨h2, h3, h4, h5,
      by simp only [if_neg h2, if_neg h3, if_neg h4, if_pos h5, if_true]⟩
  refine Or.inr ?_
  by_cases h6 : rule6_guard info T
  · exact Or.inl ⟨h2, h3, h4, h5, h6,
      by simp only [if_neg h2, if_neg h3, if_neg h4, if_neg h5, if_pos h6, if_true]⟩
  refine Or.inr ?_
  by_cases h7 : rule7_guard info T s
  · exact Or.inl ⟨h2, h3, h4, h5, h6, h7,
      by simp only [if_neg h2, if_neg h3, if_neg h4, if_neg h5, if_neg h6, if_pos h7, if_true]⟩
  exact Or.inr ⟨h2, h3, h4, h5, h6, h7,
    by simp only [if_neg h2, if_neg h3, if_neg h4, if_neg h5, if_neg h6, if_neg h7]⟩

/-- The chain never leaves the four states. -/
theorem next_state_le (info : msm_thermal_data) (s T : Nat) (hs : s ≤ 3) :
    next_state info s T ≤ 3 := by
  unfold next_state
  rcases select_rule_cases info s T with
    ⟨_, e⟩ | ⟨_, _, e⟩ | ⟨_, _, _, e⟩ | ⟨_, _, _, _, e⟩ | ⟨_, _, _, _, _, e⟩ |
    ⟨_, _, _, _, _, _, e⟩ | ⟨_, _, _, _, _, _, e⟩ <;>
  rw [e] <;> dsimp only <;> omega

/-- Consecutive ticks with every policy available on a machine with at least
one CPU: the committed states follow next_state, and kernel_power_off is
called exactly on the readings at or above shutdown_temp. -/
theorem run_ticks_all_available (n : Nat) (hn : 0 < n) (info : msm_thermal_data) :
    ∀ (Ts : List Nat) (s : Nat) (policies : Nat → Option cpufreq_policy),
      all_available n policies →
      (run_ticks n info s policies (Ts.map some)).map (fun r => r.tstat)
        = next_states info s Ts ∧
      (run_ticks n info s policies (Ts.map some)).map (fun r => r.power_off)
        = Ts.map (fun T => decide (T ≥ info.shutdown_temp)) := by
  intro Ts
  induction Ts with
  | nil =>
    intro s policies _
    exact ⟨rfl, rfl⟩
  | cons T rest ih =>
    intro s policies hall
    obtain ⟨h1, _, h3⟩ := check_temp_all_available n hn info s T policies hall
    obtain ⟨i1, i2⟩ := ih (check_temp n info s policies (some T)).tstat
      (check_temp n info s policies (some T)).policies h3
    simp only [List.map_cons, run_ticks, next_states]
    refine ⟨?_, ?_⟩
    · rw [i1, h1]
    · rw [i2]
      rfl

/-- For a valid configuration the committed state is monotone in the
temperature. -/
theorem next_state_mono (info : msm_thermal_data) (s T1 T2 : Nat) (hv : valid_config info)
    (hs : s ≤ 3) (h12 : T1 ≤ T2) : next_state info s T1 ≤ next_state info s T2 := by
  obtain ⟨v1, v2, v3, v4, v5⟩ := hv
  unfold next_state
  rcases select_rule_cases info s T1 with
    ⟨_, e1⟩ | ⟨_, _, e1⟩ | ⟨_, _, _, e1⟩ | ⟨_, _, _, _, e1⟩ | ⟨_, _, _, _, _, e1⟩ |
    ⟨_, _, _, _, _, _, e1⟩ | ⟨_, _, _, _, _, _, e1⟩ <;>
  rcases select_rule_cases info s T2 with
    ⟨_, e2⟩ | ⟨_, _, e2⟩ | ⟨_, _, _, e2⟩ | ⟨_, _, _, _, e2⟩ | ⟨_, _, _, _, _, e2⟩ |
    ⟨_, _, _, _, _, _, e2⟩ | ⟨_, _, _, _, _, _, e2⟩ <;>
  rw [e1, e2] <;> dsimp only <;> omega

/-- For a valid configuration and a temperature below allowed_max_high, the
chain selects nothing in the state the previous tick committed at the same
temperature. -/
theorem select_rule_settled (info : msm_thermal_data) (s T : Nat) (hv : valid_config info)
    (hs : s ≤ 3) (hT : T < info.allowed_max_high) :
    (select_rule info T 0 true 0 (next_state info s T)).update_policy = false := by
  obtain ⟨v1, v2, v3, v4, v5⟩ := hv
  have key : ∀ t, t = (select_rule info T 0 true 0 s).tstat →
      (select_rule info T 0 true 0 t).update_policy = false := by
    intro t ht
    rcases select_rule_cases info s T with
      ⟨_, e1⟩ | ⟨_, _, e1⟩ | ⟨_, _, _, e1⟩ | ⟨_, _, _, _, e1⟩ | ⟨_, _, _, _, _, e1⟩ |
      ⟨_, _, _, _, _, _, e1⟩ | ⟨_, _, _, _, _, _, e1⟩ <;>
    rw [e1] at ht <;> dsimp only at ht <;>
    rcases select_rule_cases info t T with
      ⟨_, e2⟩ | ⟨_, _, e2⟩ | ⟨_, _, _, e2⟩ | ⟨_, _, _, _, e2⟩ | ⟨_, _, _, _, _, e2⟩ |
      ⟨_, _, _, _, _, _, e2⟩ | ⟨_, _, _, _, _, _, e2⟩ <;>
    first
      | omega
      | rw [e2]
  exact key _ rfl

/-- For a valid configuration, a temperature at or above allowed_max_high
selects allowed_max_freq and PHASE3 from every state. -/
theorem select_rule_max_band (info : msm_thermal_data) (s T : Nat) (hv : valid_config info)
    (hT : info.allowed_max_high ≤ T) :
    select_rule info T 0 true 0 s = ⟨info.allowed_max_freq, true, 3⟩ := by
  obtain ⟨v1, v2, v3, v4, v5⟩ := hv
  rcases select_rule_cases info s T with
    ⟨_, e⟩ | ⟨_, _, e⟩ | ⟨_, _, _, e⟩ | ⟨_, _, _, _, e⟩ | ⟨_, _, _, _, _, e⟩ |
    ⟨_, _, _, _, _, _, e⟩ | ⟨_, _, _, _, _, _, e⟩ <;>
  first
    | omega
    | exact e

/-! ## Claims about one tick -/

/-- C1. With a policy available for every CPU (and at least one CPU), a tick of
check_temp at a temperature T below shutdown_temp triggers no shutdown and
selects the cap and next state of the first matching rule of the
specification's table, rules 2 to 7 in that order; the restore cap of rule 3
is MSM_CPUFREQ_NO_LIMIT. The cap goes to every CPU, once each, in CPU order.
When no rule matches, no cap is applied and the state is unchanged. -/
theorem C1_first_matching_rule (n : Nat) (hn : 0 < n) (info : msm_thermal_data) (s T : Nat)
    (policies : Nat → Option cpufreq_policy) (_hs : s ≤ PHASE3)
    (hT : T < info.shutdown_temp) (hall : all_available n policies) :
    (check_temp n info s policies (some T)).power_off = false ∧
    (check_temp n info s policies (some T)).tstat
      = (match spec_rule info MSM_CPUFREQ_NO_LIMIT s T with
         | some cn => cn.2
         | none => s) ∧
    (check_temp n info s policies (some T)).calls
      = (match spec_rule info MSM_CPUFREQ_NO_LIMIT s T with
         | some cn => (List.range n).map (fun c => (c, cn.1))
         | none => []) := by
  obtain ⟨h1, h2, _⟩ := check_temp_all_available n hn info s T policies hall
  have hp := (check_temp_some n info s T policies).2.2.2.1
  refine ⟨?_, ?_, ?_⟩
  · rw [hp]
    exact decide_eq_false (by omega)
  · rw [h1, next_state, select_rule_spec]
    cases spec_rule info MSM_CPUFREQ_NO_LIMIT s T <;> rfl
  · rw [h2, select_rule_spec]
    cases spec_rule info MSM_CPUFREQ_NO_LIMIT s T <;> simp

/-- Witness for C1: four CPUs, UNTHROTTLED, a reading of 66 in the low band. -/
theorem C1_first_matching_rule_witness :
    (check_temp 4 scenario_config UNTHROTTLED scenario_policies (some 66)).tstat = PHASE1 ∧
    (check_temp 4 scenario_config UNTHROTTLED scenario_policies (some 66)).calls
      = [(0, 1350000), (1, 1350000), (2, 1350000), (3, 1350000)] :=
  ⟨(C1_first_matching_rule 4 (by decide) scenario_config UNTHROTTLED 66 scenario_policies
      (by decide) (by decide) (fun _ _ => rfl)).2.1.trans (by decide),
   (C1_first_matching_rule 4 (by decide) scenario_config UNTHROTTLED 66 scenario_policies
      (by decide) (by decide) (fun _ _ => rfl)).2.2.trans (by decide)⟩

/-- C2, as stated, fails: on a four-CPU machine in state UNTHROTTLED with the
scenario thresholds, a reading of 81 (shutdown_temp is 80) calls
kernel_power_off and then still caps every CPU to allowed_max_freq, moves the
state to PHASE3 and queues the next tick. -/
theorem C2_counterexample_processing_continues :
    81 ≥ scenario_config.shutdown_temp ∧
    (check_temp 4 scenario_config UNTHROTTLED scenario_policies (some 81)).power_off = true ∧
    (check_temp 4 scenario_config UNTHROTTLED scenario_policies (some 81)).calls
      = [(0, 384000), (1, 384000), (2, 384000), (3, 384000)] ∧
    (check_temp 4 scenario_config UNTHROTTLED scenario_policies (some 81)).tstat = PHASE3 ∧
    (check_temp 4 scenario_config UNTHROTTLED scenario_policies (some 81)).tstat ≠ UNTHROTTLED ∧
    (check_temp 4 scenario_config UNTHROTTLED scenario_policies (some 81)).queued = [250] := by
  decide

/-- C2, amended. A tick of check_temp whose reading satisfies
T >= shutdown_temp calls kernel_power_off. check_temp does not return there:
the caps it applies, the state it commits and the delay it queues are those of
the same tick run with shutdown_temp raised above T, which triggers no
shutdown. -/
theorem C2_shutdown_then_rule_table (n : Nat) (info : msm_thermal_data) (s T : Nat)
    (policies : Nat → Option cpufreq_policy) (hT : T ≥ info.shutdown_temp) :
    (check_temp n info s policies (some T)).power_off = true ∧
    (check_temp n { info with shutdown_temp := T + 1 } s policies (some T)).power_off = false ∧
    (check_temp n info s policies (some T)).calls
      = (check_temp n { info with shutdown_temp := T + 1 } s policies (some T)).calls ∧
    (check_temp n info s policies (some T)).tstat
      = (check_temp n { info with shutdown_temp := T + 1 } s policies (some T)).tstat ∧
    (check_temp n info s policies (some T)).queued
      = (check_temp n { info with shutdown_temp := T + 1 } s policies (some T)).queued := by
  refine ⟨?_, ?_, rfl, rfl, rfl⟩
  · exact decide_eq_true hT
  · exact decide_eq_false (by simp)

/-- Witness for the amended C2: four CPUs, UNTHROTTLED, a reading of 81. -/
theorem C2_shutdown_then_rule_table_witness :
    81 ≥ scenario_config.shutdown_temp ∧
    (check_temp 4 scenario_config UNTHROTTLED scenario_policies (some 81)).power_off = true ∧
    (check_temp 4 scenario_config UNTHROTTLED scenario_policies (some 81)).tstat
      = (check_temp 4 { scenario_config with shutdown_temp := 81 + 1 } UNTHROTTLED
          scenario_policies (some 81)).tstat :=
  ⟨by decide,
   (C2_shutdown_then_rule_table 4 scenario_config UNTHROTTLED 81 scenario_policies
      (by decide)).1,
   (C2_shutdown_then_rule_table 4 scenario_config UNTHROTTLED 81 scenario_policies
      (by decide)).2.2.2.1⟩

/-- C5. A tick of check_temp in which the sensor read fails leaves the throttle
state and every policy object unchanged, makes no update_cpu_max_freq call,
triggers no shutdown, and queues exactly one next tick, after mid_max_poll_ms,
whatever the prior state. -/
theorem C5_sensor_failure (n : Nat) (info : msm_thermal_data) (s : Nat)
    (policies : Nat → Option cpufreq_policy) :
    (check_temp n info s policies none).tstat = s ∧
    (check_temp n info s policies none).policies = policies ∧
    (check_temp n info s policies none).calls = [] ∧
    (check_temp n info s policies none).power_off = false ∧
    (check_temp n info s policies none).queued = [info.mid_max_poll_ms] :=
  ⟨rfl, rfl, rfl, rfl, rfl⟩

/-- C6. After a tick of check_temp whose sensor read succeeds, started in one
of the four states, exactly one next tick is queued, and its delay is decided
by the state held at the end of the tick: poll_ms for UNTHROTTLED, low_poll_ms
for PHASE1, mid_max_poll_ms for PHASE2 and for PHASE3. -/
theorem C6_next_delay_by_final_state (n : Nat) (info : msm_thermal_data) (s T : Nat)
    (policies : Nat → Option cpufreq_policy) (hs : s ≤ PHASE3) :
    (check_temp n info s policies (some T)).tstat ≤ PHASE3 ∧
    (check_temp n info s policies (some T)).queued.length = 1 ∧
    ((check_temp n info s policies (some T)).tstat = UNTHROTTLED →
      (check_temp n info s policies (some T)).queued = [info.poll_ms]) ∧
    ((check_temp n info s policies (some T)).tstat = PHASE1 →
      (check_temp n info s policies (some T)).queued = [info.low_poll_ms]) ∧
    ((check_temp n info s policies (some T)).tstat = PHASE2 ∨
        (check_temp n info s policies (some T)).tstat = PHASE3 →
      (check_temp n info s policies (some T)).queued = [info.mid_max_poll_ms]) := by
  obtain ⟨h1, _, _, _, h5⟩ := check_temp_some n info s T policies
  have hle : (check_temp n info s policies (some T)).tstat ≤ 3 := by
    rw [h1]
    split_ifs
    · exact next_state_le info s T hs
    · exact hs
  rw [h5]
  generalize (check_temp n info s policies (some T)).tstat = t at hle
  refine ⟨hle, ?_, ?_, ?_, ?_⟩
  · interval_cases t <;> rfl
  · intro h
    subst h
    rfl
  · intro h
    subst h
    rfl
  · intro h
    rcases h with h | h <;> subst h <;> rfl

/-- Witness for C6: four CPUs, UNTHROTTLED, a reading of 66. -/
theorem C6_next_delay_by_final_state_witness :
    UNTHROTTLED ≤ PHASE3 ∧
    (check_temp 4 scenario_config UNTHROTTLED scenario_policies (some 66)).queued.length = 1 :=
  ⟨by decide,
   (C6_next_delay_by_final_state 4 scenario_config UNTHROTTLED 66 scenario_policies
      (by decide)).2.1⟩

/-- C9. For a configuration that satisfies the band-ordering invariant and for
every state, a temperature equal to a band's high threshold does not satisfy
the guard of that band's downgrade branch in check_temp: allowed_low_high
fails the guard T < allowed_low_low, allowed_mid_high fails T < allowed_mid_low,
and allowed_max_high fails T < allowed_max_low. -/
theorem C9_hysteresis_exclusive (info : msm_thermal_data) (s : Nat)
    (hv : valid_config info) :
    ¬ rule3_guard info info.allowed_low_high s ∧
    ¬ rule5_guard info info.allowed_mid_high s ∧
    ¬ rule7_guard info info.allowed_max_high s := by
  obtain ⟨_, _, v3, v4, v5⟩ := hv
  refine ⟨fun h => ?_, fun h => ?_, fun h => ?_⟩
  · have := h.1
    omega
  · have := h.1
    omega
  · have := h.1
    omega

/-- Witness for C9: the scenario configuration in state PHASE1. -/
theorem C9_hysteresis_exclusive_witness :
    valid_config scenario_config ∧
    ¬ rule3_guard scenario_config scenario_config.allowed_low_high PHASE1 ∧
    ¬ rule5_guard scenario_config scenario_config.allowed_mid_high PHASE1 ∧
    ¬ rule7_guard scenario_config scenario_config.allowed_max_high PHASE1 :=
  ⟨by unfold valid_config; decide,
   C9_hysteresis_exclusive scenario_config PHASE1 (by unfold valid_config; decide)⟩

/-- C10. For a configuration that satisfies the band-ordering invariant and a
fixed current state among the four, the state one tick of check_temp commits
is monotone non-decreasing in the temperature: T1 <= T2 < shutdown_temp gives
a state at T1 that is at most the state at T2. This holds for any number of
CPUs and any set of available policies. -/
theorem C10_next_state_monotone (n : Nat) (info : msm_thermal_data) (s T1 T2 : Nat)
    (policies : Nat → Option cpufreq_policy) (hv : valid_config info) (hs : s ≤ PHASE3)
    (h12 : T1 ≤ T2) (_h2 : T2 < info.shutdown_temp) :
    (check_temp n info s policies (some T1)).tstat
      ≤ (check_temp n info s policies (some T2)).tstat := by
  rw [(check_temp_some n info s T1 policies).1, (check_temp_some n info s T2 policies).1]
  split_ifs
  · exact next_state_mono info s T1 T2 hv hs h12
  · exact Nat.le_refl s

/-- Witness for C10: the scenario configuration in PHASE1 at 62 and at 72. -/
theorem C10_next_state_monotone_witness :
    valid_config scenario_config ∧
    (check_temp 4 scenario_config PHASE1 scenario_policies (some 62)).tstat
      ≤ (check_temp 4 scenario_config PHASE1 scenario_policies (some 72)).tstat :=
  ⟨by unfold valid_config; decide,
   C10_next_state_monotone 4 scenario_config PHASE1 62 72 scenario_policies
     (by unfold valid_config; decide) (by decide) (by decide) (by decide)⟩

/-! ## Claims about consecutive ticks -/

/-- C3. Scenario A: with high thresholds 65 / 70 / 75, low thresholds
60 / 65 / 70 and shutdown_temp 80, starting UNTHROTTLED with every policy
available, the readings 60, 66, 71, 76, 81 leave the states UNTHROTTLED,
PHASE1, PHASE2, PHASE3 after the first four ticks, none of which triggers a
shutdown, and the fifth tick calls kernel_power_off. -/
theorem C3_scenario_A (n : Nat) (hn : 0 < n) (info : msm_thermal_data)
    (policies : Nat → Option cpufreq_policy) (hall : all_available n policies)
    (h1 : info.allowed_low_high = 65) (h2 : info.allowed_mid_high = 70)
    (h3 : info.allowed_max_high = 75) (h4 : info.shutdown_temp = 80)
    (h5 : info.allowed_low_low = 60) (h6 : info.allowed_mid_low = 65)
    (h7 : info.allowed_max_low = 70) :
    ((run_ticks n info UNTHROTTLED policies
        [some 60, some 66, some 71, some 76, some 81]).take 4).map (fun r => r.tstat)
      = [UNTHROTTLED, PHASE1, PHASE2, PHASE3] ∧
    (run_ticks n info UNTHROTTLED policies
        [some 60, some 66, some 71, some 76, some 81]).map (fun r => r.power_off)
      = [false, false, false, false, true] := by
  obtain ⟨a, b⟩ := run_ticks_all_available n hn info [60, 66, 71, 76, 81] UNTHROTTLED
    policies hall
  simp only [List.map_cons, List.map_nil] at a b
  refine ⟨?_, ?_⟩
  · rw [List.map_take, a]
    simp [next_states, next_state, select_rule, rule2_guard, rule3_guard, rule4_guard,
      rule5_guard, rule6_guard, rule7_guard, UNTHROTTLED, PHASE1, PHASE2, PHASE3,
      h1, h2, h3, h5, h6, h7]
  · rw [b]
    simp [h4]

/-- Witness for C3: the scenario configuration on four CPUs. -/
theorem C3_scenario_A_witness :
    ((run_ticks 4 scenario_config UNTHROTTLED scenario_policies
        [some 60, some 66, some 71, some 76, some 81]).take 4).map (fun r => r.tstat)
      = [UNTHROTTLED, PHASE1, PHASE2, PHASE3] ∧
    (run_ticks 4 scenario_config UNTHROTTLED scenario_policies
        [some 60, some 66, some 71, some 76, some 81]).map (fun r => r.power_off)
      = [false, false, false, false, true] :=
  C3_scenario_A 4 (by decide) scenario_config scenario_policies (fun _ _ => rfl)
    rfl rfl rfl rfl rfl rfl rfl

/-- C4, as stated, fails: with the scenario thresholds, from PHASE3 on a
four-CPU machine, the readings 76, 72, 67, 61 leave the states PHASE3, PHASE3,
PHASE2, PHASE1 and not PHASE3, PHASE2, PHASE1, UNTHROTTLED: 72 is not below
allowed_max_low = 70, so the second tick changes nothing. -/
theorem C4_counterexample_scenario_B :
    scenario_config.allowed_max_low = 70 ∧ scenario_config.allowed_mid_low = 65 ∧
    scenario_config.allowed_low_low = 60 ∧ scenario_config.allowed_low_high = 65 ∧
    scenario_config.allowed_mid_high = 70 ∧ scenario_config.allowed_max_high = 75 ∧
    scenario_config.shutdown_temp = 80 ∧
    (run_ticks 4 scenario_config PHASE3 scenario_policies
        [some 76, some 72, some 67, some 61]).map (fun r => r.tstat)
      = [PHASE3, PHASE3, PHASE2, PHASE1] ∧
    (run_ticks 4 scenario_config PHASE3 scenario_policies
        [some 76, some 72, some 67, some 61]).map (fun r => r.tstat)
      ≠ [PHASE3, PHASE2, PHASE1, UNTHROTTLED] := by
  decide

/-- C4, amended. Scenario B: with low thresholds 70 / 65 / 60, high thresholds
65 / 70 / 75 and shutdown_temp 80, starting from PHASE3 with every policy
available, the readings 76, 72, 67, 61 leave the states PHASE3, PHASE3,
PHASE2, PHASE1: each downgrade needs a reading strictly below the band's low
threshold. -/
theorem C4_scenario_B_amended (n : Nat) (hn : 0 < n) (info : msm_thermal_data)
    (policies : Nat → Option cpufreq_policy) (hall : all_available n policies)
    (h1 : info.allowed_low_high = 65) (h2 : info.allowed_mid_high = 70)
    (h3 : info.allowed_max_high = 75) (_h4 : info.shutdown_temp = 80)
    (h5 : info.allowed_low_low = 60) (h6 : info.allowed_mid_low = 65)
    (h7 : info.allowed_max_low = 70) :
    (run_ticks n info PHASE3 policies
        [some 76, some 72, some 67, some 61]).map (fun r => r.tstat)
      = [PHASE3, PHASE3, PHASE2, PHASE1] := by
  obtain ⟨a, _⟩ := run_ticks_all_available n hn info [76, 72, 67, 61] PHASE3 policies hall
  simp only [List.map_cons, List.map_nil] at a
  rw [a]
  simp [next_states, next_state, select_rule, rule2_guard, rule3_guard, rule4_guard,
      rule5_guard, rule6_guard, rule7_guard, UNTHROTTLED, PHASE1, PHASE2, PHASE3,
      h1, h2, h3, h5, h6, h7]

/-- Witness for the amended C4: the scenario configuration on two CPUs. -/
theorem C4_scenario_B_amended_witness :
    (run_ticks 2 scenario_config PHASE3 scenario_policies
        [some 76, some 72, some 67, some 61]).map (fun r => r.tstat)
      = [PHASE3, PHASE3, PHASE2, PHASE1] :=
  C4_scenario_B_amended 2 (by decide) scenario_config scenario_policies (fun _ _ => rfl)
    rfl rfl rfl rfl rfl rfl rfl

/-- C7 fails on the code. On a four-CPU machine whose CPU 0 policy has max
1728000, a tick at 66 from UNTHROTTLED caps every CPU to allowed_low_freq and
enters PHASE1; the next tick at 50 returns to UNTHROTTLED and applies
MSM_CPUFREQ_NO_LIMIT to every CPU, not the 1728000 that was the ceiling while
UNTHROTTLED: max_cpu_freq is a local that restarts at 0 on every tick. -/
theorem C7_restore_cap_is_no_limit :
    Option.map (fun p => p.max) (scenario_policies 0) = some 1728000 ∧
    (run_ticks 4 scenario_config UNTHROTTLED scenario_policies
        [some 66, some 50]).map (fun r => r.tstat) = [PHASE1, UNTHROTTLED] ∧
    (run_ticks 4 scenario_config UNTHROTTLED scenario_policies
        [some 66, some 50]).map (fun r => r.calls)
      = [[(0, 1350000), (1, 1350000), (2, 1350000), (3, 1350000)],
         [(0, MSM_CPUFREQ_NO_LIMIT), (1, MSM_CPUFREQ_NO_LIMIT),
          (2, MSM_CPUFREQ_NO_LIMIT), (3, MSM_CPUFREQ_NO_LIMIT)]] ∧
    MSM_CPUFREQ_NO_LIMIT ≠ 1728000 := by
  decide

/-- C8, as stated, fails: with the scenario configuration, which satisfies the
band-ordering invariant, two consecutive ticks at 76 (below shutdown_temp 80)
from PHASE3 both cap all four CPUs to allowed_max_freq: the second tick makes
four update_cpu_max_freq calls, not zero. -/
theorem C8_counterexample_max_band_repeats :
    valid_config scenario_config ∧ 76 < scenario_config.shutdown_temp ∧
    (run_ticks 4 scenario_config PHASE3 scenario_policies
        [some 76, some 76]).map (fun r => r.calls)
      = [[(0, 384000), (1, 384000), (2, 384000), (3, 384000)],
         [(0, 384000), (1, 384000), (2, 384000), (3, 384000)]] :=
  ⟨by unfold valid_config; decide, by decide, by decide⟩

/-- C8, amended. For a configuration that satisfies the band-ordering
invariant, a state among the four and a temperature T below shutdown_temp,
with every policy available: the first of two consecutive ticks at T makes at
most one update_cpu_max_freq call per CPU; when T is below allowed_max_high
the second tick makes none; when T is at or above allowed_max_high the branch
for the max band, which tests no state, applies allowed_max_freq to every CPU
again on the second tick. -/
theorem C8_idempotent_below_max_band (n : Nat) (hn : 0 < n) (info : msm_thermal_data)
    (s T : Nat) (policies : Nat → Option cpufreq_policy) (hv : valid_config info)
    (hs : s ≤ PHASE3) (_hT : T < info.shutdown_temp) (hall : all_available n policies) :
    ((check_temp n info s policies (some T)).calls.map Prod.fst).Nodup ∧
    (∀ c ∈ (check_temp n info s policies (some T)).calls.map Prod.fst, c < n) ∧
    (T < info.allowed_max_high →
      (check_temp n info (check_temp n info s policies (some T)).tstat
        (check_temp n info s policies (some T)).policies (some T)).calls = []) ∧
    (info.allowed_max_high ≤ T →
      (check_temp n info (check_temp n info s policies (some T)).tstat
        (check_temp n info s policies (some T)).policies (some T)).calls
        = (List.range n).map (fun c => (c, info.allowed_max_freq))) := by
  obtain ⟨h1, h2, h3⟩ := check_temp_all_available n hn info s T policies hall
  obtain ⟨_, g2, _⟩ := check_temp_all_available n hn info
    (check_temp n info s policies (some T)).tstat T
    (check_temp n info s policies (some T)).policies h3
  have hfst : ∀ cap : Nat,
      ((List.range n).map (fun c => (c, cap))).map Prod.fst = List.range n := by
    intro cap
    rw [List.map_map]
    exact List.map_id _
  refine ⟨?_, ?_, ?_, ?_⟩
  · rw [h2]
    split_ifs
    · rw [hfst]
      exact List.nodup_range n
    · exact List.nodup_nil
  · rw [h2]
    split_ifs
    · rw [hfst]
      intro c hc
      exact List.mem_range.mp hc
    · intro c hc
      exact absurd hc (List.not_mem_nil c)
  · intro hlt
    rw [g2, h1, select_rule_settled info s T hv hs hlt]
    rfl
  · intro hge
    rw [g2, select_rule_max_band info _ T hv hge]
    rfl

/-- Witness for the amended C8: two ticks at 66 from UNTHROTTLED on four CPUs. -/
theorem C8_idempotent_below_max_band_witness :
    valid_config scenario_config ∧
    (check_temp 4 scenario_config (check_temp 4 scenario_config UNTHROTTLED
          scenario_policies (some 66)).tstat
        (check_temp 4 scenario_config UNTHROTTLED scenario_policies (some 66)).policies
        (some 66)).calls = [] :=
  ⟨by unfold valid_config; decide,
   (C8_idempotent_below_max_band 4 (by decide) scenario_config UNTHROTTLED 66
      scenario_policies (by unfold valid_config; decide) (by decide) (by decide)
      (fun _ _ => rfl)).2.2.1 (by decide)⟩

/-! ## Further facts about one tick -/

/-- A tick started in one of the four states ends in one of the four states,
whatever the reading and the set of available policies. -/
theorem check_temp_tstat_le (n : Nat) (info : msm_thermal_data) (s : Nat)
    (policies : Nat → Option cpufreq_policy) (reading : Option Nat) (hs : s ≤ 3) :
    (check_temp n info s policies reading).tstat ≤ 3 := by
  cases reading with
  | none => exact hs
  | some T =>
    rw [(check_temp_some n info s T policies).1]
    split_ifs
    · exact next_state_le info s T hs
    · exact hs

/-- In each of the four states the re-arming switch queues exactly one delay. -/
theorem queue_next_length (info : msm_thermal_data) (t : Nat) (ht : t ≤ 3) :
    (queue_next info t).length = 1 := by
  interval_cases t <;> rfl

/-! ## Claims about skipped CPUs, shutdown and state validity -/

/-- C11. In a tick of check_temp with any set of unavailable policies, only
the CPUs without a policy are skipped: the update_cpu_max_freq calls are one
call, with the selected cap, for every CPU below NR_CPUS that has a policy, in
CPU order. The cap is a function of the configuration, the reading and the
pre-tick state alone, so a CPU that has a policy in two ticks that differ only
in which other CPUs are skipped receives the same calls in both. Started in one
of the four states, the tick queues exactly one next tick. -/
theorem C11_only_unavailable_cpus_skipped (n : Nat) (info : msm_thermal_data) (s T : Nat)
    (policies : Nat → Option cpufreq_policy) (hs : s ≤ PHASE3) :
    (check_temp n info s policies (some T)).calls
      = (if (select_rule info T 0 true 0 s).update_policy = true
         then ((List.range n).filter (fun c => (policies c).isSome)).map
           (fun c => (c, (select_rule info T 0 true 0 s).max_freq))
         else []) ∧
    (∀ (policies' : Nat → Option cpufreq_policy) (c cap : Nat),
      (policies c).isSome = true → (policies' c).isSome = true →
      ((c, cap) ∈ (check_temp n info s policies (some T)).calls
        ↔ (c, cap) ∈ (check_temp n info s policies' (some T)).calls)) ∧
    (check_temp n info s policies (some T)).queued.length = 1 := by
  have hcalls : ∀ (pol : Nat → Option cpufreq_policy) (c cap : Nat),
      (pol c).isSome = true →
      ((c, cap) ∈ (check_temp n info s pol (some T)).calls
        ↔ ((select_rule info T 0 true 0 s).update_policy = true ∧ c < n ∧
            cap = (select_rule info T 0 true 0 s).max_freq)) := by
    intro pol c cap hc
    rw [(check_temp_some n info s T pol).2.1]
    unfold calls_upto
    by_cases hu : (select_rule info T 0 true 0 s).update_policy = true
    · simp only [if_pos hu, List.mem_map, List.mem_filter, List.mem_range, Prod.mk.injEq]
      constructor
      · rintro ⟨a, ⟨ha, _⟩, rfl, rfl⟩
        exact ⟨hu, ha, rfl⟩
      · rintro ⟨_, hlt, rfl⟩
        exact ⟨c, ⟨hlt, hc⟩, rfl, rfl⟩
    · simp only [if_neg hu, List.not_mem_nil, false_iff]
      intro h
      exact hu h.1
  refine ⟨(check_temp_some n info s T policies).2.1, ?_, ?_⟩
  · intro policies' c cap h1 h2
    rw [hcalls policies c cap h1, hcalls policies' c cap h2]
  · rw [(check_temp_some n info s T policies).2.2.2.2]
    exact queue_next_length info _ (check_temp_tstat_le n info s policies (some T) hs)

/-- Witness for C11: four CPUs of which CPU 1 has no policy, UNTHROTTLED, a
reading of 66. -/
theorem C11_only_unavailable_cpus_skipped_witness :
    UNTHROTTLED ≤ PHASE3 ∧
    (check_temp 4 scenario_config UNTHROTTLED
        (fun c => if c = 1 then none else scenario_policies c) (some 66)).calls
      = [(0, 1350000), (2, 1350000), (3, 1350000)] ∧
    (check_temp 4 scenario_config UNTHROTTLED
        (fun c => if c = 1 then none else scenario_policies c) (some 66)).queued.length = 1 :=
  ⟨by decide,
   (C11_only_unavailable_cpus_skipped 4 scenario_config UNTHROTTLED 66
      (fun c => if c = 1 then none else scenario_policies c) (by decide)).1.trans (by decide),
   (C11_only_unavailable_cpus_skipped 4 scenario_config UNTHROTTLED 66
      (fun c => if c = 1 then none else scenario_policies c) (by decide)).2.2⟩

/-- C15, as stated, fails: on a four-CPU machine in PHASE3 with the scenario
thresholds, a reading of 81 (shutdown_temp is 80) calls kernel_power_off and
the same run of check_temp queues the next tick after mid_max_poll_ms. -/
theorem C15_counterexample_tick_requeued :
    81 ≥ scenario_config.shutdown_temp ∧
    (check_temp 4 scenario_config PHASE3 scenario_policies (some 81)).power_off = true ∧
    (check_temp 4 scenario_config PHASE3 scenario_policies (some 81)).queued
      = [scenario_config.mid_max_poll_ms] ∧
    (check_temp 4 scenario_config PHASE3 scenario_policies (some 81)).queued ≠ [] := by
  decide

/-- C15, amended. In every tick of check_temp in which the shutdown action is
invoked (T >= shutdown_temp), started in one of the four states, the re-arming
switch still runs once kernel_power_off returns: exactly one further tick is
queued, with the delay that belongs to the state held at the end of the
tick. -/
theorem C15_shutdown_tick_requeues (n : Nat) (info : msm_thermal_data) (s T : Nat)
    (policies : Nat → Option cpufreq_policy) (hs : s ≤ PHASE3)
    (hT : T ≥ info.shutdown_temp) :
    (check_temp n info s policies (some T)).power_off = true ∧
    (check_temp n info s policies (some T)).queued
      = queue_next info (check_temp n info s policies (some T)).tstat ∧
    (check_temp n info s policies (some T)).queued.length = 1 := by
  obtain ⟨_, _, _, h4, h5⟩ := check_temp_some n info s T policies
  refine ⟨?_, h5, ?_⟩
  · rw [h4]
    exact decide_eq_true hT
  · rw [h5]
    exact queue_next_length info _ (check_temp_tstat_le n info s policies (some T) hs)

/-- Witness for the amended C15: four CPUs, PHASE3, a reading of 81. -/
theorem C15_shutdown_tick_requeues_witness :
    PHASE3 ≤ PHASE3 ∧ 81 ≥ scenario_config.shutdown_temp ∧
    (check_temp 4 scenario_config PHASE3 scenario_policies (some 81)).queued.length = 1 :=
  ⟨by decide, by decide,
   (C15_shutdown_tick_requeues 4 scenario_config PHASE3 81 scenario_policies
      (by decide) (by decide)).2.2⟩

/-- C17. For every configuration that satisfies the band-ordering invariant,
every initial state among the four, every finite sequence of readings
(failed reads included), any number of CPUs and any set of available policies,
the state check_temp holds after each tick is one of UNTHROTTLED, PHASE1,
PHASE2, PHASE3. -/
theorem C17_state_always_defined (n : Nat) (info : msm_thermal_data)
    (_hv : valid_config info) :
    ∀ (readings : List (Option Nat)) (s : Nat) (policies : Nat → Option cpufreq_policy),
      s ≤ PHASE3 →
      ∀ r ∈ run_ticks n info s policies readings,
        r.tstat = UNTHROTTLED ∨ r.tstat = PHASE1 ∨ r.tstat = PHASE2 ∨ r.tstat = PHASE3 := by
  intro readings
  induction readings with
  | nil =>
    intro s policies _ r hr
    exact absurd hr (List.not_mem_nil r)
  | cons reading rest ih =>
    intro s policies hs r hr
    have hle := check_temp_tstat_le n info s policies reading hs
    simp only [run_ticks, List.mem_cons] at hr
    rcases hr with hr | hr
    · subst hr
      have h3 : (check_temp n info s policies reading).tstat ≤ 3 := hle
      show _ = 0 ∨ _ = 1 ∨ _ = 2 ∨ _ = 3
      omega
    · exact ih _ _ hle r hr

/-- Witness for C17: the scenario configuration over a run with a failed read,
on two CPUs of which the last has no policy. -/
theorem C17_state_always_defined_witness :
    valid_config scenario_config ∧
    ∀ r ∈ run_ticks 2 scenario_config PHASE2
        (fun c => if c = 1 then none else scenario_policies c)
        [some 50, none, some 90, some 66],
      r.tstat = UNTHROTTLED ∨ r.tstat = PHASE1 ∨ r.tstat = PHASE2 ∨ r.tstat = PHASE3 :=
  ⟨by unfold valid_config; decide,
   C17_state_always_defined 2 scenario_config (by unfold valid_config; decide)
     [some 50, none, some 90, some 66] PHASE2
     (fun c => if c = 1 then none else scenario_policies c) (by decide)⟩

/-! ## Claims about the order of commit and cap -/

theorem cpu_events_none (n : Nat) (info : msm_thermal_data) (temp : Nat) (l : loop_state)
    (cpu : Nat) (hp : l.policies cpu = none) : cpu_events n info temp l cpu = [] := by
  simp only [cpu_events, hp]

/-- Events of the loop body for a cpu that has a policy, in a state that
satisfies the loop invariant. -/
theorem cpu_events_spec (n : Nat) (info : msm_thermal_data) (temp : Nat) (l : loop_state)
    (cpu : Nat) (p : cpufreq_policy) (hp : l.policies cpu = some p)
    (hm : l.tstat ≠ UNTHROTTLED → l.max_cpu_freq = 0) :
    cpu_events n info temp l cpu
      = (if (select_rule info temp 0 true 0 l.tstat).update_policy = true ∧
            ((cpu : Int) = (n : Int) - 1 ∨ l.final_cpu = true)
          then [tick_event.commit cpu (next_state info l.tstat temp)] else []) ++
        (if (select_rule info temp 0 true 0 l.tstat).update_policy = true
          then [tick_event.set_cap cpu (select_rule info temp 0 true 0 l.tstat).max_freq]
          else []) := by
  have hmcf : l.tstat ≠ UNTHROTTLED →
      (if l.tstat = UNTHROTTLED ∧ cpu = 0 then p.max else l.max_cpu_freq) = 0 := by
    intro h
    rw [if_neg (fun hc => h hc.1)]
    exact hm h
  generalize hM : (if l.tstat = UNTHROTTLED ∧ cpu = 0 then p.max else l.max_cpu_freq) = M
    at hmcf
  have hstep : cpu_events n info temp l cpu
      = (if (select_rule info temp M
              (if (cpu : Int) = (n : Int) - 1 then true else l.final_cpu)
              l.max_freq l.tstat).update_policy = true ∧
            (if (cpu : Int) = (n : Int) - 1 then true else l.final_cpu) = true
          then [tick_event.commit cpu (select_rule info temp M
              (if (cpu : Int) = (n : Int) - 1 then true else l.final_cpu)
              l.max_freq l.tstat).tstat] else []) ++
        (if (select_rule info temp M
              (if (cpu : Int) = (n : Int) - 1 then true else l.final_cpu)
              l.max_freq l.tstat).update_policy = true
          then [tick_event.set_cap cpu (select_rule info temp M
              (if (cpu : Int) = (n : Int) - 1 then true else l.final_cpu)
              l.max_freq l.tstat).max_freq] else []) := by
    simp only [cpu_events, hp, hM]
  have hF : (if (cpu : Int) = (n : Int) - 1 then true else l.final_cpu) = true
      ↔ ((cpu : Int) = (n : Int) - 1 ∨ l.final_cpu = true) := by
    by_cases hc : (cpu : Int) = (n : Int) - 1 <;> simp [hc]
  generalize (if (cpu : Int) = (n : Int) - 1 then true else l.final_cpu) = F at hstep hF
  have hu := select_rule_update_policy info temp M l.max_freq 0 0 l.tstat F true
  rw [hstep]
  by_cases hU : (select_rule info temp 0 true 0 l.tstat).update_policy = true
  · have hx := select_rule_max_freq info temp M l.max_freq 0 0 l.tstat F true hmcf hU
    have hu' : (select_rule info temp M F l.max_freq l.tstat).update_policy = true := by
      rw [hu]
      exact hU
    by_cases hfin : (cpu : Int) = (n : Int) - 1 ∨ l.final_cpu = true
    · have hF' : F = true := hF.mpr hfin
      subst hF'
      have ht := select_rule_tstat_final info temp M l.max_freq 0 0 l.tstat
      simp only [hu', hU, hx, ht, hfin, and_self, if_true, next_state]
    · have hF' : F = false := Bool.eq_false_iff.mpr (fun h => hfin (hF.mp h))
      subst hF'
      simp only [hu', hU, hx, hfin, Bool.false_eq_true, and_false, if_false, if_true]
  · have hU' : (select_rule info temp 0 true 0 l.tstat).update_policy = false :=
      Bool.eq_false_iff.mpr hU
    rw [hU'] at hu
    simp only [hu, hU', Bool.false_eq_true, false_and, if_false]

/-- The events up to, and not including, the last CPU: one set_cap with the
selected cap for every CPU that has a policy, and no write to tstat. -/
theorem events_prefix (n : Nat) (info : msm_thermal_data) (temp s : Nat)
    (policies : Nat → Option cpufreq_policy) :
    ∀ k, k + 1 ≤ n →
      (List.range k).flatMap (fun cpu =>
        cpu_events n info temp
          ((List.range cpu).foldl (cpu_step n info temp) (loop_init s policies)) cpu)
      = (if (select_rule info temp 0 true 0 s).update_policy = true
         then ((List.range k).filter (fun c => (policies c).isSome)).map
           (fun c => tick_event.set_cap c (select_rule info temp 0 true 0 s).max_freq)
         else []) := by
  intro k
  induction k with
  | zero =>
    intro _
    simp
  | succ k ih =>
    intro hk
    obtain ⟨h1, h2, h3, _, h5⟩ := loop_prefix n info temp s policies k (by omega)
    rw [List.range_succ, List.flatMap_append, ih (by omega)]
    simp only [List.flatMap_cons, List.flatMap_nil, List.append_nil]
    generalize (List.range k).foldl (cpu_step n info temp) (loop_init s policies) = l
      at h1 h2 h3 h5
    cases hpk : l.policies k with
    | none =>
      have hk0 : (policies k).isSome = false := by rw [← h5 k, hpk]; rfl
      rw [cpu_events_none n info temp l k hpk]
      by_cases hU : (select_rule info temp 0 true 0 s).update_policy = true
      · simp [hU, List.filter_append, hk0]
      · simp [hU]
    | some p =>
      have hk1 : (policies k).isSome = true := by rw [← h5 k, hpk]; rfl
      rw [cpu_events_spec n info temp l k p hpk (by rw [h1]; exact h3), h1]
      have hne : ¬ ((k : Int) = (n : Int) - 1 ∨ l.final_cpu = true) := by
        rw [h2]
        intro h
        rcases h with h | h
        · omega
        · exact absurd h (by decide)
      have hcn : ¬ ((select_rule info temp 0 true 0 s).update_policy = true ∧
          ((k : Int) = (n : Int) - 1 ∨ l.final_cpu = true)) := fun h => hne h.2
      rw [if_neg hcn]
      by_cases hU : (select_rule info temp 0 true 0 s).update_policy = true
      · simp [hU, List.filter_append, hk1]
      · simp [hU]

/-- C12, as stated, fails. On two CPUs in UNTHROTTLED at a reading of 66, with
both policies available the write of PHASE1 to tstat comes before the cap is
applied to CPU 1, the last CPU; with the policy of CPU 1 unavailable the cap
is applied to CPU 0 and tstat is never written, so the tick ends in
UNTHROTTLED although PHASE1 was selected. -/
theorem C12_counterexample_commit_order :
    check_temp_events 2 scenario_config UNTHROTTLED scenario_policies 66
      = [tick_event.set_cap 0 1350000, tick_event.commit 1 PHASE1,
         tick_event.set_cap 1 1350000] ∧
    check_temp_events 2 scenario_config UNTHROTTLED
        (fun c => if c = 1 then none else scenario_policies c) 66
      = [tick_event.set_cap 0 1350000] ∧
    (check_temp 2 scenario_config UNTHROTTLED
        (fun c => if c = 1 then none else scenario_policies c) (some 66)).calls
      = [(0, 1350000)] ∧
    (check_temp 2 scenario_config UNTHROTTLED
        (fun c => if c = 1 then none else scenario_policies c) (some 66)).tstat
      = UNTHROTTLED := by
  decide

/-- C12, amended. In every tick of check_temp in which a cap change is
selected and the last CPU (index NR_CPUS - 1) has a policy, tstat is written
exactly once, in the loop body of the last CPU: after the cap has been applied
to every other CPU that has a policy and just before it is applied to the last
CPU. Every CPU of the tick is evaluated against the pre-tick state, every CPU
that has a policy receives the same cap, and the tick ends in the selected
state. -/
theorem C12_commit_once_at_last_cpu (n : Nat) (hn : 0 < n) (info : msm_thermal_data)
    (s T : Nat) (policies : Nat → Option cpufreq_policy)
    (hlast : (policies (n - 1)).isSome = true)
    (hsel : (select_rule info T 0 true 0 s).update_policy = true) :
    check_temp_events n info s policies T
      = ((List.range (n - 1)).filter (fun c => (policies c).isSome)).map
          (fun c => tick_event.set_cap c (select_rule info T 0 true 0 s).max_freq)
        ++ [tick_event.commit (n - 1) (next_state info s T),
            tick_event.set_cap (n - 1) (select_rule info T 0 true 0 s).max_freq] ∧
    (∀ k, k < n →
      ((List.range k).foldl (cpu_step n info T) (loop_init s policies)).tstat = s) ∧
    (check_temp n info s policies (some T)).calls
      = ((List.range n).filter (fun c => (policies c).isSome)).map
          (fun c => (c, (select_rule info T 0 true 0 s).max_freq)) ∧
    (check_temp n info s policies (some T)).tstat = next_state info s T := by
  obtain ⟨t1, t2, _⟩ := check_temp_some n info s T policies
  refine ⟨?_, fun k hk => ( loop_prefix n info T s policies k hk).1, ?_, ?_⟩
  · obtain ⟨m, rfl⟩ : ∃ m, n = m + 1 := ⟨n - 1, by omega⟩
    rw [Nat.add_sub_cancel] at hlast ⊢
    obtain ⟨h1, _, h3, _, h5⟩ := loop_prefix (m + 1) info T s policies m (by omega)
    unfold check_temp_events
    rw [List.range_succ, List.flatMap_append,
      events_prefix (m + 1) info T s policies m (Nat.le_refl _), if_pos hsel]
    simp only [List.flatMap_cons, List.flatMap_nil, List.append_nil]
    generalize (List.range m).foldl (cpu_step (m + 1) info T) (loop_init s policies) = l
      at h1 h3 h5
    have hsome : (l.policies m).isSome = true := by rw [h5 m]; exact hlast
    obtain ⟨p, hp⟩ := Option.isSome_iff_exists.mp hsome
    rw [cpu_events_spec (m + 1) info T l m p hp (by rw [h1]; exact h3), h1]
    have hfin : (m : Int) = ((m + 1 : Nat) : Int) - 1 ∨ l.final_cpu = true := by
      left
      omega
    rw [if_pos ⟨hsel, hfin⟩, if_pos hsel]
    rfl
  · rw [t2]
    unfold calls_upto
    rw [if_pos hsel]
  · rw [t1, if_pos ⟨hn, hlast⟩]

/-- Witness for the amended C12: four CPUs of which CPU 1 has no policy,
UNTHROTTLED, a reading of 66. -/
theorem C12_commit_once_at_last_cpu_witness :
    check_temp_events 4 scenario_config UNTHROTTLED
        (fun c => if c = 1 then none else scenario_policies c) 66
      = [tick_event.set_cap 0 1350000, tick_event.set_cap 2 1350000,
         tick_event.commit 3 PHASE1, tick_event.set_cap 3 1350000] :=
  (C12_commit_once_at_last_cpu 4 (by decide) scenario_config UNTHROTTLED 66
    (fun c => if c = 1 then none else scenario_policies c) (by decide) (by decide)).1.trans
    (by decide)

/-! ## Claims about update_cpu_max_freq -/

/-- C14, as stated, fails: for a configuration whose high thresholds descend
and whose low thresholds lie above the high ones, with a valid sensor id,
msm_thermal_init returns 0, has installed the configuration and has queued the
first tick with delay 0; msm_thermal_dev_probe on the same values does the
same and returns 0. -/
theorem C14_counterexample_disordered_bands_accepted :
    ¬ valid_config disordered_config ∧
    msm_thermal_init scenario_env (some disordered_config)
      = { ret := 0, msm_thermal_info := some disordered_config, queued := [0] } ∧
    msm_thermal_dev_probe scenario_env (node_of disordered_config)
      = { ret := 0,
          init := some { ret := 0, msm_thermal_info := some disordered_config,
                         queued := [0] } } :=
  ⟨by unfold valid_config; decide, by decide, by decide⟩

/-- C14, amended. msm_thermal_init refuses to start the controller (returns
-EINVAL, installs no configuration and queues no tick) exactly when pdata is
null or sensor_id >= TSENS_MAX_SENSORS. It does not examine the bands: for
every other configuration, whatever the order of its thresholds, it installs
the configuration and, once the workqueue is allocated, queues the first tick
with delay 0. -/
theorem C14_init_checks_sensor_id_only (env : init_env) :
    (∀ pdata : Option msm_thermal_data,
      ((msm_thermal_init env pdata).ret = -EINVAL ∧
        (msm_thermal_init env pdata).msm_thermal_info = none ∧
        (msm_thermal_init env pdata).queued = [])
      ↔ (pdata = none ∨ ∃ d, pdata = some d ∧ d.sensor_id ≥ env.TSENS_MAX_SENSORS)) ∧
    (∀ d : msm_thermal_data, d.sensor_id < env.TSENS_MAX_SENSORS →
      (msm_thermal_init env (some d)).msm_thermal_info = some d ∧
      (env.workqueue_allocated = true → (msm_thermal_init env (some d)).queued = [0])) := by
  refine ⟨?_, ?_⟩
  · intro pdata
    cases pdata with
    | none => simp [msm_thermal_init]
    | some d =>
      by_cases hs : d.sensor_id ≥ env.TSENS_MAX_SENSORS
      · simp [msm_thermal_init, hs]
      · simp only [msm_thermal_init, if_neg hs]
        constructor
        · intro h
          split_ifs at h <;> simp at h
        · rintro (h | ⟨d', h, h'⟩)
          · simp at h
          · simp only [Option.some.injEq] at h
            subst h
            exact absurd h' hs
  · intro d hd
    have hs : ¬ d.sensor_id ≥ env.TSENS_MAX_SENSORS := by omega
    simp only [msm_thermal_init, if_neg hs]
    refine ⟨?_, ?_⟩
    · split_ifs <;> rfl
    · intro hw
      simp only [hw, Bool.true_eq_false, if_false]
      split_ifs <;> rfl

/-- Witness for the amended C14: the disordered configuration is installed and
its first tick queued. -/
theorem C14_init_checks_sensor_id_only_witness :
    disordered_config.sensor_id < scenario_env.TSENS_MAX_SENSORS ∧
    scenario_env.workqueue_allocated = true ∧
    (msm_thermal_init scenario_env (some disordered_config)).msm_thermal_info
      = some disordered_config ∧
    (msm_thermal_init scenario_env (some disordered_config)).queued = [0] :=
  ⟨by decide, rfl,
   ((C14_init_checks_sensor_id_only scenario_env).2 disordered_config (by decide)).1,
   ((C14_init_checks_sensor_id_only scenario_env).2 disordered_config (by decide)).2 rfl⟩

/-! ## Claims about the sysfs attributes -/

/-- C16. Each of the thirteen tunables is independently settable. When sscanf
reads an unsigned number v from the input, store_X returns the input length,
sets field X of msm_thermal_info to v, leaves the other twelve tunables,
sensor_id and the throttle state unchanged, and a following show_X prints v
followed by a newline. When sscanf reads no number, store_X returns -EINVAL
and changes nothing. -/
theorem C16_tunables_independent (x y : tunable) (v count : Nat) (g : thermal_globals) :
    (x.store_fn (some v) count g).1 = (count : Int) ∧
    y.field (x.store_fn (some v) count g).2.msm_thermal_info
      = (if y = x then v else y.field g.msm_thermal_info) ∧
    (x.store_fn (some v) count g).2.msm_thermal_info.sensor_id
      = g.msm_thermal_info.sensor_id ∧
    (x.store_fn (some v) count g).2.tstat = g.tstat ∧
    x.show_fn (x.store_fn (some v) count g).2 = toString v ++ "\n" ∧
    x.store_fn none count g = (-EINVAL, g) := by
  cases x <;> refine ⟨rfl, ?_, rfl, rfl, rfl, rfl⟩ <;> cases y <;> rfl

/-! ## Claims about settling, overheating and a missing last CPU -/

/-- The state the chain commits is kept by the chain at the same temperature,
for a valid configuration. -/
theorem next_state_fixed (info : msm_thermal_data) (s T : Nat) (hv : valid_config info) :
    next_state info (next_state info s T) T = next_state info s T := by
  obtain ⟨v1, v2, v3, v4, v5⟩ := hv
  have key : ∀ t, t = (select_rule info T 0 true 0 s).tstat →
      (select_rule info T 0 true 0 t).tstat = t := by
    intro t ht
    rcases select_rule_cases info s T with
      ⟨_, e1⟩ | ⟨_, _, e1⟩ | ⟨_, _, _, e1⟩ | ⟨_, _, _, _, e1⟩ | ⟨_, _, _, _, _, e1⟩ |
      ⟨_, _, _, _, _, _, e1⟩ | ⟨_, _, _, _, _, _, e1⟩ <;>
    rw [e1] at ht <;> dsimp only at ht <;>
    rcases select_rule_cases info t T with
      ⟨_, e2⟩ | ⟨_, _, e2⟩ | ⟨_, _, _, e2⟩ | ⟨_, _, _, _, e2⟩ | ⟨_, _, _, _, _, e2⟩ |
      ⟨_, _, _, _, _, _, e2⟩ | ⟨_, _, _, _, _, _, e2⟩ <;>
    first
      | omega
      | (rw [e2]; dsimp only; omega)
      | rw [e2]
  exact key _ rfl

/-- With thresholds ordered allowed_low_low < allowed_low_high <
allowed_mid_high < allowed_max_high and allowed_mid_low < allowed_mid_high, a
temperature at or above allowed_max_high reaches the fifth branch from every
state. -/
theorem select_rule_overheat (info : msm_thermal_data) (s T : Nat)
    (h1 : info.allowed_low_low < info.allowed_low_high)
    (h2 : info.allowed_low_high < info.allowed_mid_high)
    (h3 : info.allowed_mid_high < info.allowed_max_high)
    (h4 : info.allowed_mid_low < info.allowed_mid_high)
    (hT : info.allowed_max_high ≤ T) :
    select_rule info T 0 true 0 s = ⟨info.allowed_max_freq, true, 3⟩ := by
  rcases select_rule_cases info s T with
    ⟨_, e⟩ | ⟨_, _, e⟩ | ⟨_, _, _, e⟩ | ⟨_, _, _, _, e⟩ | ⟨_, _, _, _, _, e⟩ |
    ⟨_, _, _, _, _, _, e⟩ | ⟨_, _, _, _, _, _, e⟩ <;>
  first
    | omega
    | exact e

/-- When the last CPU has no policy, final_cpu is still false at the end of
the loop. -/
theorem final_cpu_stays_false (n : Nat) (info : msm_thermal_data) (temp s : Nat)
    (policies : Nat → Option cpufreq_policy) (hlast : policies (n - 1) = none) :
    (check_temp_loop n info temp (loop_init s policies)).final_cpu = false := by
  rcases Nat.eq_zero_or_pos n with h0 | hn
  · subst h0
    rfl
  obtain ⟨k, rfl⟩ : ∃ k, n = k + 1 := ⟨n - 1, by omega⟩
  simp only [Nat.add_sub_cancel] at hlast
  obtain ⟨_, hf, _, _, hp⟩ := loop_prefix (k + 1) info temp s policies k (by omega)
  have hnone : ((List.range k).foldl (cpu_step (k + 1) info temp)
      (loop_init s policies)).policies k = none := by
    have := hp k
    rw [hlast] at this
    cases hq : ((List.range k).foldl (cpu_step (k + 1) info temp)
      (loop_init s policies)).policies k with
    | none => rfl
    | some q =>
      rw [hq] at this
      exact Bool.noConfusion this
  unfold check_temp_loop
  rw [List.range_succ, List.foldl_append, List.foldl_cons, List.foldl_nil,
    cpu_step_none _ _ _ _ _ hnone]
  exact hf

/-- C23. No oscillation at constant temperature: for every valid
configuration, every state s and every temperature T, with at least one CPU
and all CPU policies available, the state reached after one tick of check_temp
is next_state s T, a second tick at the same T leaves that state in place, and
next_state (next_state s T) T = next_state s T. The bound T < shutdown_temp is
not needed. -/
theorem C23_no_oscillation (n : Nat) (info : msm_thermal_data) (s T : Nat)
    (policies : Nat → Option cpufreq_policy)
    (hn : 0 < n) (hv : valid_config info) (hall : all_available n policies) :
    (check_temp n info s policies (some T)).tstat = next_state info s T ∧
    (check_temp n info (check_temp n info s policies (some T)).tstat
        (check_temp n info s policies (some T)).policies (some T)).tstat
      = (check_temp n info s policies (some T)).tstat ∧
    next_state info (next_state info s T) T = next_state info s T := by
  obtain ⟨h1, _, h3⟩ := check_temp_all_available n hn info s T policies hall
  obtain ⟨g1, _, _⟩ := check_temp_all_available n hn info
    (check_temp n info s policies (some T)).tstat T
    (check_temp n info s policies (some T)).policies h3
  refine ⟨h1, ?_, next_state_fixed info s T hv⟩
  rw [g1, h1]
  exact next_state_fixed info s T hv

/-- Witness for C23: the scenario configuration on four CPUs, from UNTHROTTLED
at a reading of 72. -/
theorem C23_no_oscillation_witness :
    (check_temp 4 scenario_config UNTHROTTLED scenario_policies (some 72)).tstat = PHASE2 ∧
    next_state scenario_config (next_state scenario_config UNTHROTTLED 72) 72
      = next_state scenario_config UNTHROTTLED 72 :=
  ⟨(C23_no_oscillation 4 scenario_config UNTHROTTLED 72 scenario_policies (by decide)
      (by unfold valid_config; decide) (fun _ _ => rfl)).1.trans (by decide),
   (C23_no_oscillation 4 scenario_config UNTHROTTLED 72 scenario_policies (by decide)
      (by unfold valid_config; decide) (fun _ _ => rfl)).2.2⟩

/-- C24. Overheat response: for every configuration with allowed_low_low <
allowed_low_high < allowed_mid_high < allowed_max_high and allowed_mid_low <
allowed_mid_high, every current state and every T with allowed_max_high <= T <
shutdown_temp, one tick of check_temp with at least one CPU and all CPU
policies available calls update_cpu_max_freq with allowed_max_freq once for
every CPU, in CPU order, ends in PHASE3, triggers no shutdown and queues the
next tick after mid_max_poll_ms. -/
theorem C24_overheat_response (n : Nat) (info : msm_thermal_data) (s T : Nat)
    (policies : Nat → Option cpufreq_policy)
    (hn : 0 < n) (hall : all_available n policies)
    (h1 : info.allowed_low_low < info.allowed_low_high)
    (h2 : info.allowed_low_high < info.allowed_mid_high)
    (h3 : info.allowed_mid_high < info.allowed_max_high)
    (h4 : info.allowed_mid_low < info.allowed_mid_high)
    (hT : info.allowed_max_high ≤ T) (hT2 : T < info.shutdown_temp) :
    (check_temp n info s policies (some T)).calls
      = (List.range n).map (fun c => (c, info.allowed_max_freq)) ∧
    (check_temp n info s policies (some T)).tstat = PHASE3 ∧
    (check_temp n info s policies (some T)).power_off = false ∧
    (check_temp n info s policies (some T)).queued = [info.mid_max_poll_ms] := by
  obtain ⟨a1, a2, _⟩ := check_temp_all_available n hn info s T policies hall
  obtain ⟨_, _, _, b4, b5⟩ := check_temp_some n info s T policies
  have hsel := select_rule_overheat info s T h1 h2 h3 h4 hT
  have hst : (check_temp n info s policies (some T)).tstat = 3 := by
    rw [a1]
    unfold next_state
    rw [hsel]
  refine ⟨?_, hst, ?_, ?_⟩
  · rw [a2, hsel]
    rfl
  · rw [b4]
    exact decide_eq_false (by omega)
  · rw [b5, hst]
    rfl

/-- Witness for C24: the scenario configuration on four CPUs, from UNTHROTTLED
at a reading of 76. -/
theorem C24_overheat_response_witness :
    (check_temp 4 scenario_config UNTHROTTLED scenario_policies (some 76)).calls
      = [(0, 384000), (1, 384000), (2, 384000), (3, 384000)] ∧
    (check_temp 4 scenario_config UNTHROTTLED scenario_policies (some 76)).tstat = PHASE3 :=
  ⟨(C24_overheat_response 4 scenario_config UNTHROTTLED 76 scenario_policies (by decide)
      (fun _ _ => rfl) (by decide) (by decide) (by decide) (by decide) (by decide)
      (by decide)).1.trans (by decide),
   (C24_overheat_response 4 scenario_config UNTHROTTLED 76 scenario_policies (by decide)
      (fun _ _ => rfl) (by decide) (by decide) (by decide) (by decide) (by decide)
      (by decide)).2.1⟩

/-- C25. If the policy of the last CPU (index NR_CPUS - 1) is unavailable in a
tick of check_temp, final_cpu is false at the end of the loop and the throttle
state after the tick equals the state before it, for every reading; yet the
selected cap has been applied, by one update_cpu_max_freq call each, to every
CPU whose policy is available. -/
theorem C25_last_cpu_unavailable (n : Nat) (info : msm_thermal_data) (s : Nat)
    (policies : Nat → Option cpufreq_policy) (hlast : policies (n - 1) = none) :
    (∀ reading : Option Nat, (check_temp n info s policies reading).tstat = s) ∧
    (∀ T : Nat,
      (check_temp_loop n info T (loop_init s policies)).final_cpu = false ∧
      (check_temp n info s policies (some T)).calls
        = (if (select_rule info T 0 true 0 s).update_policy = true
           then ((List.range n).filter (fun c => (policies c).isSome)).map
             (fun c => (c, (select_rule info T 0 true 0 s).max_freq))
           else [])) := by
  refine ⟨?_, ?_⟩
  · intro reading
    cases reading with
    | none => rfl
    | some T =>
      rw [(check_temp_some n info s T policies).1, hlast]
      exact if_neg (fun h => absurd h.2 (by decide))
  · intro T
    exact ⟨final_cpu_stays_false n info T s policies hlast,
      (check_temp_some n info s T policies).2.1⟩

/-- Witness for C25: four CPUs of which CPU 3 has no policy, UNTHROTTLED, a
reading of 66: the state stays UNTHROTTLED although CPUs 0 to 2 are capped. -/
theorem C25_last_cpu_unavailable_witness :
    (check_temp 4 scenario_config UNTHROTTLED
        (fun c => if c = 3 then none else scenario_policies c) (some 66)).tstat
      = UNTHROTTLED ∧
    (check_temp 4 scenario_config UNTHROTTLED
        (fun c => if c = 3 then none else scenario_policies c) (some 66)).calls
      = [(0, 1350000), (1, 1350000), (2, 1350000)] :=
  ⟨(C25_last_cpu_unavailable 4 scenario_config UNTHROTTLED
      (fun c => if c = 3 then none else scenario_policies c) rfl).1 (some 66),
   ((C25_last_cpu_unavailable 4 scenario_config UNTHROTTLED
      (fun c => if c = 3 then none else scenario_policies c) rfl).2 66).2.trans (by decide)⟩

/-! ## Claims about the probe and the result of init -/

/-- C30. msm_thermal_init returns -EINVAL and queues no tick exactly when
pdata is null or sensor_id >= TSENS_MAX_SENSORS. msm_thermal_dev_probe, once
all its properties are read, replaces the sensor id by 7 only when it is
strictly greater than TSENS_MAX_SENSORS, calls msm_thermal_init and returns 0
whatever that call returned. So for a device-tree sensor id equal to
TSENS_MAX_SENSORS the probe returns 0 although msm_thermal_init has returned
-EINVAL, has installed no configuration and has queued no tick. -/
theorem C30_probe_ignores_init (env : init_env) :
    (∀ pdata : Option msm_thermal_data,
      ((msm_thermal_init env pdata).ret = -EINVAL ∧ (msm_thermal_init env pdata).queued = [])
      ↔ (pdata = none ∨ ∃ d, pdata = some d ∧ d.sensor_id ≥ env.TSENS_MAX_SENSORS)) ∧
    (∀ node : device_node, all_read node = true →
      (msm_thermal_dev_probe env node).ret = 0 ∧
      (msm_thermal_dev_probe env node).init
        = some (msm_thermal_init env (some (probe_data env node))) ∧
      (∀ v, node.sensor_id = some v →
        (probe_data env node).sensor_id = (if v > env.TSENS_MAX_SENSORS then 7 else v))) ∧
    (∀ node : device_node, all_read node = true →
      node.sensor_id = some env.TSENS_MAX_SENSORS →
      msm_thermal_dev_probe env node
        = { ret := 0,
            init := some { ret := -EINVAL, msm_thermal_info := none, queued := [] } }) := by
  refine ⟨?_, ?_, ?_⟩
  · intro pdata
    cases pdata with
    | none => simp [msm_thermal_init]
    | some d =>
      by_cases hs : d.sensor_id ≥ env.TSENS_MAX_SENSORS
      · simp [msm_thermal_init, hs]
      · simp only [msm_thermal_init, if_neg hs]
        constructor
        · intro h
          have hne : (-ENOMEM : Int) ≠ -EINVAL := by decide
          split_ifs at h
          · exact absurd h.1 hne
          · exact h.2.elim
          · exact h.2.elim
          · exact h.2.elim
        · rintro (h | ⟨d', h, h'⟩)
          · exact Option.noConfusion h
          · simp only [Option.some.injEq] at h
            subst h
            exact absurd h' hs
  · intro node hr
    refine ⟨?_, ?_, ?_⟩
    · simp only [msm_thermal_dev_probe, if_pos hr]
    · simp only [msm_thermal_dev_probe, if_pos hr]
    · intro v hv
      simp only [probe_data, hv, Option.getD_some]
  · intro node hr hv
    have hid : (probe_data env node).sensor_id = env.TSENS_MAX_SENSORS := by
      simp only [probe_data, hv, Option.getD_some, gt_iff_lt, Nat.lt_irrefl, if_false]
    have hge : (probe_data env node).sensor_id ≥ env.TSENS_MAX_SENSORS := by
      rw [hid]
    simp only [msm_thermal_dev_probe, if_pos hr, msm_thermal_init, if_pos hge]

/-- Witness for C30: eleven sensors and a device tree that names sensor 11,
with the scenario thresholds. -/
theorem C30_probe_ignores_init_witness :
    msm_thermal_dev_probe scenario_env (node_of { scenario_config with sensor_id := 11 })
      = { ret := 0,
          init := some { ret := -EINVAL, msm_thermal_info := none, queued := [] } } :=
  (C30_probe_ignores_init scenario_env).2.2
    (node_of { scenario_config with sensor_id := 11 }) rfl rfl

end MsmThermal

namespace KgslConservative

/-! ## Claims about the scale mode -/

/-- While the mode is Energy saving or Performance, any run of calls of
conservative_idle completes, requests nothing and changes nothing. -/
theorem idle_run_locked (g : governor) (hm : g.scale_mode = 'E' ∨ g.scale_mode = 'P') :
    ∀ samples : List (kgsl_pwrctrl × kgsl_power_stats),
      idle_run g samples
        = some (samples.map (fun _ => { ret := 0, g := g, requests := [] })) := by
  intro samples
  induction samples with
  | nil => rfl
  | cons x rest ih =>
    obtain ⟨pwr, stats⟩ := x
    have hc : stats.total_time = 0 ∨ g.scale_mode = mode 1 ∨ g.scale_mode = mode 2 := by
      rcases hm with h | h
      · exact Or.inr (Or.inl h)
      · exact Or.inr (Or.inr h)
    simp only [idle_run, conservative_idle, if_pos hc, ih, List.map_cons]

/-- C20. scale_mode_store with "E" (with or without the trailing newline) sets
the mode to Energy saving and requests min_pwrlevel; with "P" it sets the mode
to Performance and requests max_pwrlevel; both return the length of the input.
While the mode is E or P every call of conservative_idle, for every sample and
every power-level state, requests no power-level change and leaves the
walltime and busytime accumulators, and every other variable of the governor,
unchanged; so does every run of such calls. -/
theorem C20_scale_mode_locks (g : governor) (pwr : kgsl_pwrctrl) :
    scale_mode_store g pwr ['E']
      = { ret := 1, g := { g with scale_mode := 'E' }, requests := [pwr.min_pwrlevel] } ∧
    scale_mode_store g pwr ['E', Char.ofNat 10]
      = { ret := 2, g := { g with scale_mode := 'E' }, requests := [pwr.min_pwrlevel] } ∧
    scale_mode_store g pwr ['P']
      = { ret := 1, g := { g with scale_mode := 'P' }, requests := [pwr.max_pwrlevel] } ∧
    scale_mode_store g pwr ['P', Char.ofNat 10]
      = { ret := 2, g := { g with scale_mode := 'P' }, requests := [pwr.max_pwrlevel] } ∧
    (g.scale_mode = 'E' ∨ g.scale_mode = 'P' →
      (∀ (p : kgsl_pwrctrl) (stats : kgsl_power_stats),
        conservative_idle g p stats = some { ret := 0, g := g, requests := [] }) ∧
      (∀ samples : List (kgsl_pwrctrl × kgsl_power_stats),
        idle_run g samples
          = some (samples.map (fun _ => { ret := 0, g := g, requests := [] })))) := by
  refine ⟨rfl, rfl, rfl, rfl, ?_⟩
  intro hm
  refine ⟨?_, idle_run_locked g hm⟩
  intro p stats
  have hc : stats.total_time = 0 ∨ g.scale_mode = mode 1 ∨ g.scale_mode = mode 2 := by
    rcases hm with h | h
    · exact Or.inr (Or.inl h)
    · exact Or.inr (Or.inr h)
  simp only [conservative_idle, if_pos hc]

/-- Witness for C20: from the initial variables in Conservative mode, a store
of "E" on a device at level 1 of levels 0 to 3, then a busy sample. -/
theorem C20_scale_mode_locks_witness :
    (scale_mode_store { governor_static with scale_mode := 'C' }
        { active_pwrlevel := 1, min_pwrlevel := 3, max_pwrlevel := 0 } ['E']).g.scale_mode
      = 'E' ∧
    conservative_idle
        (scale_mode_store { governor_static with scale_mode := 'C' }
          { active_pwrlevel := 1, min_pwrlevel := 3, max_pwrlevel := 0 } ['E']).g
        { active_pwrlevel := 3, min_pwrlevel := 3, max_pwrlevel := 0 }
        { total_time := 200000, busy_time := 200000 }
      = some { ret := 0,
               g := (scale_mode_store { governor_static with scale_mode := 'C' }
                 { active_pwrlevel := 1, min_pwrlevel := 3, max_pwrlevel := 0 } ['E']).g,
               requests := [] } :=
  ⟨by decide,
   ((C20_scale_mode_locks
      (scale_mode_store { governor_static with scale_mode := 'C' }
        { active_pwrlevel := 1, min_pwrlevel := 3, max_pwrlevel := 0 } ['E']).g
      { active_pwrlevel := 3, min_pwrlevel := 3, max_pwrlevel := 0 }).2.2.2.2
      (Or.inl (by decide))).1
      { active_pwrlevel := 3, min_pwrlevel := 3, max_pwrlevel := 0 }
      { total_time := 200000, busy_time := 200000 }⟩

/-! ## Claims about sleep, the load computation and the polling interval -/

/-- C21. conservative_sleep leaves the governor's variables alone; in every
mode other than Performance it requests min_pwrlevel, once, exactly when the
active level differs from min_pwrlevel, and nothing when the GPU is already
there; in Performance mode it requests no change. -/
theorem C21_sleep_goes_to_min (g : governor) (pwr : kgsl_pwrctrl) :
    (conservative_sleep g pwr).g = g ∧
    (g.scale_mode ≠ 'P' →
      (pwr.active_pwrlevel ≠ pwr.min_pwrlevel →
        (conservative_sleep g pwr).requests = [pwr.min_pwrlevel]) ∧
      (pwr.active_pwrlevel = pwr.min_pwrlevel → (conservative_sleep g pwr).requests = [])) ∧
    (g.scale_mode = 'P' → (conservative_sleep g pwr).requests = []) := by
  have hm : mode 2 = 'P' := rfl
  refine ⟨?_, ?_, ?_⟩
  · unfold conservative_sleep
    split_ifs <;> rfl
  · intro hP
    refine ⟨?_, ?_⟩
    · intro hne
      unfold conservative_sleep
      rw [hm, if_pos ⟨hP, hne⟩]
    · intro heq
      unfold conservative_sleep
      rw [if_neg (fun h => h.2 heq)]
  · intro hP
    unfold conservative_sleep
    rw [hm, if_neg (fun h => h.1 hP)]

/-- Witness for C21: Conservative mode at level 1 of levels 0 to 4. -/
theorem C21_sleep_goes_to_min_witness :
    (conservative_sleep { governor_static with scale_mode := 'C' }
      { active_pwrlevel := 1, min_pwrlevel := 4, max_pwrlevel := 0 }).requests = [4] :=
  ((C21_sleep_goes_to_min { governor_static with scale_mode := 'C' }
    { active_pwrlevel := 1, min_pwrlevel := 4, max_pwrlevel := 0 }).2.1 (by decide)).1
    (by decide)
/-- The level conservative_idle requests one step down or up, for a level
that is in range. -/
theorem level_plus_in_range (a : Nat) (ha : a + 1 < 4294967296) :
    level_plus a 1 = a + 1 ∧ (0 < a → level_plus a (-1) = a - 1) := by
  unfold level_plus ULONG_MOD
  refine ⟨?_, ?_⟩
  · have h1 : ((a : Int) + 1) % ((2 ^ 32 : Nat) : Int) = (a : Int) + 1 := by
      apply Int.emod_eq_of_lt <;> push_cast <;> omega
    rw [h1]
    omega
  · intro h0
    have h1 : ((a : Int) + -1) % ((2 ^ 32 : Nat) : Int) = (a : Int) - 1 := by
      apply Int.emod_eq_of_lt <;> push_cast <;> omega
    rw [h1]
    omega

/-- C22, as stated, fails when 100 * busytime_total leaves the range of
unsigned long. From the initial variables in Conservative mode at level 0, one
sample of 50 s of wall time, all of it busy, gives by the stated formula
loadpct = 100, which is neither below 60 nor above 110, so no change; the code
computes 14 from the wrapped product and requests level 1. -/
theorem C22_counterexample_load_wraps :
    100 * (0 + 50000000) / (0 + 50000000) = 100 ∧
    governor_static.down_thresholds[0]? = some 60 ∧
    governor_static.up_thresholds[0]? = some 110 ∧
    conservative_idle { governor_static with scale_mode := 'C' }
        { active_pwrlevel := 0, min_pwrlevel := 4, max_pwrlevel := 0 }
        { total_time := 50000000, busy_time := 50000000 }
      = some { ret := 0, g := { governor_static with scale_mode := 'C' }, requests := [1] } := by
  decide

/-- C22, amended. In Conservative mode, for a sample with non-zero total_time
for which the new sums walltime_total + total_time and 100 * (busytime_total +
busy_time) stay below 2 ^ 32, conservative_idle adds the sample to the
accumulators. If the accumulated walltime does not exceed g_polling_interval it
requests no level change and keeps the sums. Otherwise, for an active level
inside both tables, it resets both accumulators to 0 and, with loadpct =
floor (100 * busytime_total / walltime_total), requests active_pwrlevel + 1 if
loadpct < down_thresholds[active_pwrlevel], else active_pwrlevel - 1 (in
unsigned arithmetic) if loadpct > up_thresholds[active_pwrlevel], else no
change. -/
theorem C22_idle_load_step (g : governor) (pwr : kgsl_pwrctrl) (stats : kgsl_power_stats)
    (hmode : g.scale_mode = 'C') (htotal : stats.total_time ≠ 0)
    (hwall : g.walltime_total + stats.total_time < 2 ^ 32)
    (hbusy : 100 * (g.busytime_total + stats.busy_time) < 2 ^ 32) :
    (g.walltime_total + stats.total_time ≤ g.g_polling_interval →
      conservative_idle g pwr stats
        = some { ret := 0,
                 g := { g with walltime_total := g.walltime_total + stats.total_time,
                               busytime_total := g.busytime_total + stats.busy_time },
                 requests := [] }) ∧
    (g.g_polling_interval < g.walltime_total + stats.total_time →
      ∀ down up, g.down_thresholds[pwr.active_pwrlevel]? = some down →
        g.up_thresholds[pwr.active_pwrlevel]? = some up →
        conservative_idle g pwr stats
          = some { ret := 0,
                   g := { g with walltime_total := 0, busytime_total := 0 },
                   requests :=
                     if 100 * (g.busytime_total + stats.busy_time)
                          / (g.walltime_total + stats.total_time) < down then
                       [level_plus pwr.active_pwrlevel 1]
                     else if 100 * (g.busytime_total + stats.busy_time)
                          / (g.walltime_total + stats.total_time) > up then
                       [level_plus pwr.active_pwrlevel (-1)]
                     else [] }) ∧
    (pwr.active_pwrlevel + 1 < 2 ^ 32 →
      level_plus pwr.active_pwrlevel 1 = pwr.active_pwrlevel + 1 ∧
      (0 < pwr.active_pwrlevel →
        level_plus pwr.active_pwrlevel (-1) = pwr.active_pwrlevel - 1)) := by
  have hM : ULONG_MOD = 4294967296 := by decide
  have h32 : (2 : Nat) ^ 32 = 4294967296 := by decide
  rw [h32] at hwall hbusy
  have hc : ¬ (stats.total_time = 0 ∨ g.scale_mode = mode 1 ∨ g.scale_mode = mode 2) := by
    rw [hmode]
    rintro (h | h | h)
    · exact htotal h
    · exact absurd h (by decide)
    · exact absurd h (by decide)
  have hW : (g.walltime_total + stats.total_time % ULONG_MOD) % ULONG_MOD
      = g.walltime_total + stats.total_time := by
    rw [hM]
    omega
  have hB : (g.busytime_total + stats.busy_time % ULONG_MOD) % ULONG_MOD
      = g.busytime_total + stats.busy_time := by
    rw [hM]
    omega
  have hP : (100 * (g.busytime_total + stats.busy_time)) % ULONG_MOD
      = 100 * (g.busytime_total + stats.busy_time) := by
    rw [hM]
    omega
  refine ⟨?_, ?_, ?_⟩
  · intro hle
    unfold conservative_idle
    rw [if_neg hc]
    simp only [hW, hB]
    rw [if_neg (by omega)]
  · intro hlt down up hd hu
    unfold conservative_idle
    rw [if_neg hc]
    simp only [hW, hB, hP, hd, hu]
    rw [if_pos hlt]
    by_cases h1 : 100 * (g.busytime_total + stats.busy_time)
        / (g.walltime_total + stats.total_time) < down
    · simp only [if_pos h1]
    · simp only [if_neg h1]
      by_cases h2 : 100 * (g.busytime_total + stats.busy_time)
          / (g.walltime_total + stats.total_time) > up
      · simp only [if_pos h2]
      · simp only [if_neg h2]
  · intro ha
    rw [h32] at ha
    exact level_plus_in_range pwr.active_pwrlevel ha

/-- Witness for the amended C22: from the initial variables in Conservative
mode at level 1, a sample of 200 ms of which 199 ms busy: the load is 99, above
the threshold 98, and level 0 is requested. -/
theorem C22_idle_load_step_witness :
    conservative_idle { governor_static with scale_mode := 'C' }
        { active_pwrlevel := 1, min_pwrlevel := 4, max_pwrlevel := 0 }
        { total_time := 200000, busy_time := 199000 }
      = some { ret := 0, g := { governor_static with scale_mode := 'C' }, requests := [0] } :=
  ((C22_idle_load_step { governor_static with scale_mode := 'C' }
      { active_pwrlevel := 1, min_pwrlevel := 4, max_pwrlevel := 0 }
      { total_time := 200000, busy_time := 199000 } rfl (by decide) (by decide)
      (by decide)).2.1 (by decide) 45 98 rfl rfl).trans (by decide)
/-- C26. With the default threshold tables, for every active level in 0..4
and every sample after which the accumulators satisfy busytime_total <=
walltime_total with 100 * busytime_total inside the range of unsigned long,
conservative_idle returns and every level it requests lies in 0..4 and is one
step from the active level: it never requests level -1 from level 0 and never
level 5 from level 4. -/
theorem C26_level_stays_in_range (g : governor) (pwr : kgsl_pwrctrl)
    (stats : kgsl_power_stats)
    (hup : g.up_thresholds = [110, 98, 90, 75, 100])
    (hdown : g.down_thresholds = [60, 45, 45, 0, 0])
    (hlevel : pwr.active_pwrlevel ≤ 4)
    (hbusy : (g.busytime_total + stats.busy_time % ULONG_MOD) % ULONG_MOD
      ≤ (g.walltime_total + stats.total_time % ULONG_MOD) % ULONG_MOD)
    (hprod : 100 * ((g.busytime_total + stats.busy_time % ULONG_MOD) % ULONG_MOD)
      < ULONG_MOD) :
    ∃ r, conservative_idle g pwr stats = some r ∧
      ∀ l ∈ r.requests, l ≤ 4 ∧
        ((l = pwr.active_pwrlevel + 1 ∧ pwr.active_pwrlevel < 4) ∨
         (l + 1 = pwr.active_pwrlevel ∧ 0 < pwr.active_pwrlevel)) := by
  generalize hB : (g.busytime_total + stats.busy_time % ULONG_MOD) % ULONG_MOD = B
    at hbusy hprod
  generalize hW : (g.walltime_total + stats.total_time % ULONG_MOD) % ULONG_MOD = W
    at hbusy
  unfold conservative_idle
  by_cases hc : stats.total_time = 0 ∨ g.scale_mode = mode 1 ∨ g.scale_mode = mode 2
  · rw [if_pos hc]
    exact ⟨_, rfl, fun l hl => absurd hl (List.not_mem_nil l)⟩
  rw [if_neg hc]
  simp only [hB, hW]
  by_cases hi : W > g.g_polling_interval
  swap
  · rw [if_neg hi]
    exact ⟨_, rfl, fun l hl => absurd hl (List.not_mem_nil l)⟩
  rw [if_pos hi, Nat.mod_eq_of_lt hprod, hup, hdown]
  have hWpos : 0 < W := by omega
  have hload : 100 * B / W ≤ 100 :=
    Nat.div_le_of_le_mul (by rw [Nat.mul_comm W 100]; exact Nat.mul_le_mul_left 100 hbusy)
  generalize 100 * B / W = loadpct at hload
  have h1 : level_plus 0 1 = 1 := by decide
  have h2 : level_plus 1 1 = 2 := by decide
  have h3 : level_plus 2 1 = 3 := by decide
  have h4 : level_plus 1 (-1) = 0 := by decide
  have h5 : level_plus 2 (-1) = 1 := by decide
  have h6 : level_plus 3 (-1) = 2 := by decide
  obtain ⟨a, ha⟩ : ∃ a, pwr.active_pwrlevel = a := ⟨_, rfl⟩
  rw [ha] at hlevel ⊢
  interval_cases a
  · simp only [List.getElem?_cons_zero]
    by_cases d : loadpct < 60
    · rw [if_pos d]
      refine ⟨_, rfl, ?_⟩
      intro l hl
      simp only [List.mem_singleton] at hl
      rw [hl, h1]
      omega
    · rw [if_neg d, if_neg (by omega)]
      exact ⟨_, rfl, fun l hl => absurd hl (List.not_mem_nil l)⟩
  · simp only [List.getElem?_cons_succ, List.getElem?_cons_zero]
    by_cases d : loadpct < 45
    · rw [if_pos d]
      refine ⟨_, rfl, ?_⟩
      intro l hl
      simp only [List.mem_singleton] at hl
      rw [hl, h2]
      omega
    · rw [if_neg d]
      by_cases u : loadpct > 98
      · rw [if_pos u]
        refine ⟨_, rfl, ?_⟩
        intro l hl
        simp only [List.mem_singleton] at hl
        rw [hl, h4]
        omega
      · rw [if_neg u]
        exact ⟨_, rfl, fun l hl => absurd hl (List.not_mem_nil l)⟩
  · simp only [List.getElem?_cons_succ, List.getElem?_cons_zero]
    by_cases d : loadpct < 45
    · rw [if_pos d]
      refine ⟨_, rfl, ?_⟩
      intro l hl
      simp only [List.mem_singleton] at hl
      rw [hl, h3]
      omega
    · rw [if_neg d]
      by_cases u : loadpct > 90
      · rw [if_pos u]
        refine ⟨_, rfl, ?_⟩
        intro l hl
        simp only [List.mem_singleton] at hl
        rw [hl, h5]
        omega
      · rw [if_neg u]
        exact ⟨_, rfl, fun l hl => absurd hl (List.not_mem_nil l)⟩
  · simp only [List.getElem?_cons_succ, List.getElem?_cons_zero]
    rw [if_neg (Nat.not_lt_zero _)]
    by_cases u : loadpct > 75
    · rw [if_pos u]
      refine ⟨_, rfl, ?_⟩
      intro l hl
      simp only [List.mem_singleton] at hl
      rw [hl, h6]
      omega
    · rw [if_neg u]
      exact ⟨_, rfl, fun l hl => absurd hl (List.not_mem_nil l)⟩
  · simp only [List.getElem?_cons_succ, List.getElem?_cons_zero]
    rw [if_neg (Nat.not_lt_zero _), if_neg (by omega)]
    exact ⟨_, rfl, fun l hl => absurd hl (List.not_mem_nil l)⟩

/-- Witness for C26: the initial variables in Conservative mode at level 4, a
sample that is busy throughout: no level is requested. -/
theorem C26_level_stays_in_range_witness :
    ∃ r, conservative_idle { governor_static with scale_mode := 'C' }
        { active_pwrlevel := 4, min_pwrlevel := 4, max_pwrlevel := 0 }
        { total_time := 200000, busy_time := 200000 } = some r ∧
      ∀ l ∈ r.requests, l ≤ 4 ∧
        ((l = 4 + 1 ∧ 4 < 4) ∨ (l + 1 = 4 ∧ 0 < 4)) :=
  C26_level_stays_in_range { governor_static with scale_mode := 'C' }
    { active_pwrlevel := 4, min_pwrlevel := 4, max_pwrlevel := 0 }
    { total_time := 200000, busy_time := 200000 } rfl rfl (by decide) (by decide) (by decide)
/-- Function conservative_idle never writes g_polling_interval. -/
theorem conservative_idle_interval (g : governor) (pwr : kgsl_pwrctrl)
    (stats : kgsl_power_stats) (r : governor_result)
    (h : conservative_idle g pwr stats = some r) :
    r.g.g_polling_interval = g.g_polling_interval := by
  unfold conservative_idle at h
  by_cases hc : stats.total_time = 0 ∨ g.scale_mode = mode 1 ∨ g.scale_mode = mode 2
  · rw [if_pos hc, Option.some.injEq] at h
    rw [← h]
  rw [if_neg hc] at h
  dsimp only at h
  by_cases hi : (g.walltime_total + stats.total_time % ULONG_MOD) % ULONG_MOD
      > g.g_polling_interval
  swap
  · rw [if_neg hi, Option.some.injEq] at h
    rw [← h]
  rw [if_pos hi] at h
  cases hd : g.down_thresholds[pwr.active_pwrlevel]? with
  | none =>
    rw [hd] at h
    exact Option.noConfusion h
  | some down =>
    rw [hd] at h
    dsimp only at h
    by_cases h1 : 100 * ((g.busytime_total + stats.busy_time % ULONG_MOD) % ULONG_MOD)
        % ULONG_MOD / ((g.walltime_total + stats.total_time % ULONG_MOD) % ULONG_MOD) < down
    · rw [if_pos h1, Option.some.injEq] at h
      rw [← h]
    rw [if_neg h1] at h
    cases hu : g.up_thresholds[pwr.active_pwrlevel]? with
    | none =>
      rw [hu] at h
      exact Option.noConfusion h
    | some up =>
      rw [hu] at h
      dsimp only at h
      by_cases h2 : 100 * ((g.busytime_total + stats.busy_time % ULONG_MOD) % ULONG_MOD)
          % ULONG_MOD / ((g.walltime_total + stats.total_time % ULONG_MOD) % ULONG_MOD) > up
      · rw [if_pos h2, Option.some.injEq] at h
        rw [← h]
      · rw [if_neg h2, Option.some.injEq] at h
        rw [← h]

/-- No call into the governor other than a successful write to the polling
interval changes g_polling_interval, and such a write leaves it within the
two limits. -/
theorem governor_step_interval (g : governor) (c : governor_call) (r : governor_result)
    (h : governor_step g c = some r)
    (hg : 10000 ≤ g.g_polling_interval ∧ g.g_polling_interval ≤ 1000000) :
    10000 ≤ r.g.g_polling_interval ∧ r.g.g_polling_interval ≤ 1000000 := by
  cases c with
  | init =>
    simp only [governor_step, Option.some.injEq] at h
    subst h
    exact hg
  | wake is_nap =>
    simp only [governor_step, Option.some.injEq] at h
    subst h
    unfold conservative_wake
    split_ifs <;> exact hg
  | idle pwr stats =>
    simp only [governor_step] at h
    rw [conservative_idle_interval g pwr stats r h]
    exact hg
  | sleep pwr =>
    simp only [governor_step, Option.some.injEq] at h
    subst h
    unfold conservative_sleep
    split_ifs <;> exact hg
  | stats_store parsed count =>
    simp only [governor_step, Option.some.injEq] at h
    subst h
    unfold conservative_stats_store
    split_ifs <;> exact hg
  | polling_interval_store parsed count =>
    simp only [governor_step, Option.some.injEq] at h
    subst h
    unfold conservative_polling_interval_store MIN_POLL_INTERVAL MAX_POLL_INTERVAL
    split_ifs <;> dsimp only <;> omega
  | down_store scanned count =>
    simp only [governor_step, Option.some.injEq] at h
    subst h
    exact hg
  | up_store scanned count =>
    simp only [governor_step, Option.some.injEq] at h
    subst h
    exact hg
  | mode_store pwr buf =>
    simp only [governor_step, Option.some.injEq] at h
    subst h
    unfold scale_mode_store
    split_ifs <;> exact hg

/-- The polling interval stays within its limits along every sequence of
calls. -/
theorem governor_run_interval :
    ∀ (calls : List governor_call) (g g' : governor),
      10000 ≤ g.g_polling_interval ∧ g.g_polling_interval ≤ 1000000 →
      governor_run g calls = some g' →
      10000 ≤ g'.g_polling_interval ∧ g'.g_polling_interval ≤ 1000000 := by
  intro calls
  induction calls with
  | nil =>
    intro g g' hg h
    simp only [governor_run, Option.some.injEq] at h
    subst h
    exact hg
  | cons c rest ih =>
    intro g g' hg h
    simp only [governor_run] at h
    cases hs : governor_step g c with
    | none =>
      rw [hs] at h
      exact Option.noConfusion h
    | some r =>
      rw [hs] at h
      exact ih r.g g' (governor_step_interval g c r hs hg) h

/-- C27. conservative_polling_interval_store clamps: when the text parses as
an unsigned long v, g_polling_interval afterwards equals min (max v 10000)
1000000, nothing else changes and the call returns count; when it does not
parse, the error of kstrtoul is returned and nothing changes. As the variable
starts at POLL_INTERVAL = 100000 and no other function of the governor writes
it, g_polling_interval lies in [10000, 1000000] after every sequence of calls
into the governor. -/
theorem C27_polling_interval_clamped (g : governor) (v count : Nat) :
    conservative_polling_interval_store g { err := 0, value := v } count
      = { ret := (count : Int),
          g := { g with g_polling_interval := min (max v 10000) 1000000 },
          requests := [] } ∧
    (∀ e : Int, e ≠ 0 →
      conservative_polling_interval_store g { err := e, value := v } count
        = { ret := e, g := g, requests := [] }) ∧
    (∀ (calls : List governor_call) (g' : governor),
      governor_run governor_static calls = some g' →
      10000 ≤ g'.g_polling_interval ∧ g'.g_polling_interval ≤ 1000000) := by
  refine ⟨?_, ?_, ?_⟩
  · have hv : (if v < 10000 then 10000 else if v > 1000000 then 1000000 else v)
        = min (max v 10000) 1000000 := by
      split_ifs <;> omega
    simp only [conservative_polling_interval_store, MIN_POLL_INTERVAL, MAX_POLL_INTERVAL,
      ne_eq, not_true_eq_false, if_false, hv]
  · intro e he
    simp only [conservative_polling_interval_store, ne_eq, he, not_false_eq_true, if_true]
  · intro calls g' h
    exact governor_run_interval calls governor_static g' (by decide) h

/-- Witness for C27: after a write of 5 and a failed write the interval is
10000; a write of 2000000 then gives 1000000. -/
theorem C27_polling_interval_clamped_witness :
    governor_run governor_static
        [.polling_interval_store { err := 0, value := 5 } 2,
         .polling_interval_store { err := -22, value := 0 } 4]
      = some { governor_static with g_polling_interval := 10000 } ∧
    (conservative_polling_interval_store governor_static { err := 0, value := 2000000 } 8).g
      = { governor_static with g_polling_interval := 1000000 } ∧
    10000 ≤ (10000 : Nat) ∧ (10000 : Nat) ≤ 1000000 :=
  ⟨by decide,
   (congrArg governor_result.g
      (C27_polling_interval_clamped governor_static 2000000 8).1).trans (by decide),
   (C27_polling_interval_clamped governor_static 0 0).2.2
      [.polling_interval_store { err := 0, value := 5 } 2,
       .polling_interval_store { err := -22, value := 0 } 4]
      { governor_static with g_polling_interval := 10000 } (by decide)⟩

end KgslConservative

namespace BoardM7

/-! ## Facts about the first loop -/

theorem fixed_position_of_no_extra (h : ion_platform_heap) (he : has_extra_data h = false) :
    fixed_position_of h = .NOT_FIXED := by
  obtain ⟨id, kind, size, base⟩ := h
  cases kind with
  | other b => rfl
  | cp e => cases e with
    | none => rfl
    | some p => simp [has_extra_data] at he
  | carveout e => cases e with
    | none => rfl
    | some p => simp [has_extra_data] at he
  | dma e => cases e with
    | none => rfl
    | some p => simp [has_extra_data] at he

/-- Effect of one pass of the first loop on the four size accumulators. -/
theorem size_step_sizes (env : reserve_env) (acc : reserve_acc) (h : ion_platform_heap) :
    (size_step env acc h).fixed_low_size
      = (if fixed_position_of h = .FIXED_LOW
          then (acc.fixed_low_size + (heap_sized env h).size) % U32
          else acc.fixed_low_size) ∧
    (size_step env acc h).fixed_middle_size
      = (if fixed_position_of h = .FIXED_MIDDLE
          then (acc.fixed_middle_size + (heap_sized env h).size) % U32
          else acc.fixed_middle_size) ∧
    (size_step env acc h).fixed_high_size
      = (if fixed_position_of h = .FIXED_HIGH
          then (acc.fixed_high_size + (heap_sized env h).size) % U32
          else acc.fixed_high_size) ∧
    (size_step env acc h).fixed_size
      = (if fixed_position_of h ≠ .NOT_FIXED
          then (acc.fixed_size + (heap_sized env h).size) % U32
          else acc.fixed_size) := by
  by_cases he : has_extra_data h = true
  · cases hp : fixed_position_of h <;> by_cases hc : use_cma_of h = false <;>
      simp [size_step, he, hp, hc]
  · have he' : has_extra_data h = false := by simpa using he
    have hp := fixed_position_of_no_extra h he'
    simp [size_step, he', hp]

theorem U32_eq : U32 = 4294967296 := by decide

/-- The first loop keeps fixed_size equal, modulo 2 ^ 32, to the sum of the
three per-position sizes. -/
theorem size_step_total (env : reserve_env) (acc : reserve_acc) (h : ion_platform_heap)
    (hinv : acc.fixed_size % U32
      = (acc.fixed_low_size + acc.fixed_middle_size + acc.fixed_high_size) % U32) :
    (size_step env acc h).fixed_size % U32
      = ((size_step env acc h).fixed_low_size + (size_step env acc h).fixed_middle_size
          + (size_step env acc h).fixed_high_size) % U32 := by
  obtain ⟨h1, h2, h3, h4⟩ := size_step_sizes env acc h
  rw [h1, h2, h3, h4]
  rw [U32_eq] at hinv ⊢
  cases hp : fixed_position_of h <;> simp <;> omega

theorem foldl_size_step_total (env : reserve_env) :
    ∀ (heaps : List ion_platform_heap) (acc : reserve_acc),
      acc.fixed_size % U32
        = (acc.fixed_low_size + acc.fixed_middle_size + acc.fixed_high_size) % U32 →
      (heaps.foldl (size_step env) acc).fixed_size % U32
        = ((heaps.foldl (size_step env) acc).fixed_low_size
            + (heaps.foldl (size_step env) acc).fixed_middle_size
            + (heaps.foldl (size_step env) acc).fixed_high_size) % U32 := by
  intro heaps
  induction heaps with
  | nil =>
    intro acc hinv
    exact hinv
  | cons h rest ih =>
    intro acc hinv
    exact ih (size_step env acc h) (size_step_total env acc h hinv)

/-- The size accumulated for a position is the running sum, modulo 2 ^ 32, of
the sizes of the heaps at that position, in table order. -/
theorem foldl_size_step_sizes (env : reserve_env) :
    ∀ (heaps : List ion_platform_heap) (acc : reserve_acc),
      (heaps.foldl (size_step env) acc).fixed_low_size
        = (heaps.filter (fun h => fixed_position_of h = .FIXED_LOW)).foldl
            (fun a h => (a + (heap_sized env h).size) % U32) acc.fixed_low_size ∧
      (heaps.foldl (size_step env) acc).fixed_middle_size
        = (heaps.filter (fun h => fixed_position_of h = .FIXED_MIDDLE)).foldl
            (fun a h => (a + (heap_sized env h).size) % U32) acc.fixed_middle_size ∧
      (heaps.foldl (size_step env) acc).fixed_high_size
        = (heaps.filter (fun h => fixed_position_of h = .FIXED_HIGH)).foldl
            (fun a h => (a + (heap_sized env h).size) % U32) acc.fixed_high_size := by
  intro heaps
  induction heaps with
  | nil =>
    intro acc
    exact ⟨rfl, rfl, rfl⟩
  | cons h rest ih =>
    intro acc
    obtain ⟨i1, i2, i3⟩ := ih (size_step env acc h)
    obtain ⟨h1, h2, h3, _⟩ := size_step_sizes env acc h
    simp only [List.foldl_cons]
    rw [i1, i2, i3, h1, h2, h3]
    cases hp : fixed_position_of h <;> simp [List.filter_cons, hp]

/-! ## Facts about the second loop -/

theorem heap_sized_position (env : reserve_env) (h : ion_platform_heap) :
    fixed_position_of (heap_sized env h) = fixed_position_of h ∧
    has_extra_data (heap_sized env h) = has_extra_data h ∧
    (heap_sized env h).kind = h.kind ∧ (heap_sized env h).base = h.base := by
  obtain ⟨id, kind, size, base⟩ := h
  cases kind with
  | other b => exact ⟨rfl, rfl, rfl, rfl⟩
  | carveout e => exact ⟨rfl, rfl, rfl, rfl⟩
  | dma e => exact ⟨rfl, rfl, rfl, rfl⟩
  | cp e =>
    cases e with
    | none => exact ⟨rfl, rfl, rfl, rfl⟩
    | some p =>
      simp only [heap_sized]
      split_ifs
      · refine ⟨?_, ?_, ?_, ?_⟩ <;> simp only [fixed_position_of, has_extra_data]
      · exact ⟨rfl, rfl, rfl, rfl⟩

theorem fixed_position_with_base (h : ion_platform_heap) (b : Nat) :
    fixed_position_of { h with base := b } = fixed_position_of h := by
  obtain ⟨id, kind, size, base⟩ := h
  simp only [fixed_position_of]

/-- What the body of the second loop does to a heap whose FIXED_MIDDLE case,
if it applies, finds a content-protected pdata: it returns, keeps position and
size, and sets the base by position. -/
theorem assign_base_ok (acc : reserve_acc) (h : ion_platform_heap)
    (hcp : fixed_position_of h = .FIXED_MIDDLE → ∃ p, h.kind = .cp (some p)) :
    assign_base acc h = .ok (placed acc h) ∧
    fixed_position_of (placed acc h) = fixed_position_of h ∧
    (placed acc h).size = h.size ∧
    (fixed_position_of h = .FIXED_LOW → (placed acc h).base = fixed_low_start) ∧
    (fixed_position_of h = .FIXED_MIDDLE → (placed acc h).base = fixed_middle_start acc) ∧
    (fixed_position_of h = .FIXED_HIGH → (placed acc h).base = fixed_high_start acc) := by
  have hne1 : ion_fixed_position.NOT_FIXED ≠ .FIXED_LOW := by decide
  have hne2 : ion_fixed_position.NOT_FIXED ≠ .FIXED_MIDDLE := by decide
  have hne3 : ion_fixed_position.NOT_FIXED ≠ .FIXED_HIGH := by decide
  have hne4 : ion_fixed_position.FIXED_LOW ≠ .FIXED_MIDDLE := by decide
  have hne5 : ion_fixed_position.FIXED_LOW ≠ .FIXED_HIGH := by decide
  have hne6 : ion_fixed_position.FIXED_MIDDLE ≠ .FIXED_HIGH := by decide
  have hkeep : assign_base acc h = .ok h → fixed_position_of h = .NOT_FIXED →
      assign_base acc h = .ok (placed acc h) ∧
      fixed_position_of (placed acc h) = fixed_position_of h ∧
      (placed acc h).size = h.size ∧
      (fixed_position_of h = .FIXED_LOW → (placed acc h).base = fixed_low_start) ∧
      (fixed_position_of h = .FIXED_MIDDLE → (placed acc h).base = fixed_middle_start acc) ∧
      (fixed_position_of h = .FIXED_HIGH → (placed acc h).base = fixed_high_start acc) := by
    intro e hp
    have hpl : placed acc h = h := by simp only [placed, e]
    rw [hpl, hp]
    exact ⟨e, rfl, rfl, fun hc => absurd hc hne1, fun hc => absurd hc hne2,
      fun hc => absurd hc hne3⟩
  by_cases he : has_extra_data h = true
  · cases hp : fixed_position_of h with
    | NOT_FIXED =>
      have e : assign_base acc h = .ok h := by simp [assign_base, he, hp]
      have := hkeep e hp
      rw [hp] at this
      exact this
    | FIXED_LOW =>
      have e : assign_base acc h = .ok { h with base := fixed_low_start } := by
        simp [assign_base, he, hp]
      have hpl : placed acc h = { h with base := fixed_low_start } := by
        simp only [placed, e]
      have hpos := fixed_position_with_base h fixed_low_start
      rw [hpl]
      refine ⟨e, ?_, ?_, fun _ => ?_, fun hc => absurd hc hne4, fun hc => absurd hc hne5⟩
      · rw [hpos, hp]
      · simp only []
      · simp only []
    | FIXED_HIGH =>
      have e : assign_base acc h = .ok { h with base := fixed_high_start acc } := by
        simp [assign_base, he, hp]
      have hpl : placed acc h = { h with base := fixed_high_start acc } := by
        simp only [placed, e]
      have hpos := fixed_position_with_base h (fixed_high_start acc)
      rw [hpl]
      refine ⟨e, ?_, ?_, fun hc => absurd hc.symm hne5, fun hc => absurd hc.symm hne6,
        fun _ => ?_⟩
      · rw [hpos, hp]
      · simp only []
      · simp only []
    | FIXED_MIDDLE =>
      obtain ⟨p, hk⟩ := hcp hp
      have hp' : p.fixed_position = .FIXED_MIDDLE := by
        simpa [fixed_position_of, hk] using hp
      have e : assign_base acc h = .ok { h with
          base := fixed_middle_start acc,
          kind := .cp (some { p with
            secure_base := (fixed_middle_start acc + U32 - HOLE_SIZE) % U32,
            secure_size := (HOLE_SIZE + h.size) % U32 }) } := by
        simp [assign_base, he, hp, hk]
      have hpl : placed acc h = { h with
          base := fixed_middle_start acc,
          kind := .cp (some { p with
            secure_base := (fixed_middle_start acc + U32 - HOLE_SIZE) % U32,
            secure_size := (HOLE_SIZE + h.size) % U32 }) } := by
        simp only [placed, e]
      rw [hpl]
      refine ⟨e, ?_, ?_, fun hc => absurd hc.symm hne4, fun _ => ?_,
        fun hc => absurd hc hne6⟩
      · simp only [fixed_position_of]
        exact hp'
      · simp only []
      · simp only []
  · have he' : has_extra_data h = false := by simpa using he
    have hp := fixed_position_of_no_extra h he'
    have e : assign_base acc h = .ok h := by simp [assign_base, he']
    exact hkeep e hp

/-- The second loop returns when every FIXED_MIDDLE heap is content-protected,
and then treats every heap on its own. -/
theorem assign_bases_ok (acc : reserve_acc) :
    ∀ heaps : List ion_platform_heap,
      (∀ h ∈ heaps, fixed_position_of h = .FIXED_MIDDLE → ∃ p, h.kind = .cp (some p)) →
      assign_bases acc heaps = .ok (heaps.map (placed acc)) := by
  intro heaps
  induction heaps with
  | nil =>
    intro _
    rfl
  | cons h rest ih =>
    intro hcp
    have e1 := (assign_base_ok acc h (hcp h (List.mem_cons_self h rest))).1
    have e2 := ih (fun x hx => hcp x (List.mem_cons_of_mem h hx))
    simp only [assign_bases, e1, e2, List.map_cons]

/-- The table reserve_ion_memory leaves when it runs through both loops: every
heap of the input, in order, sized by the first loop and placed by the
second. This holds when the accumulated fixed_size is not zero, no BUG_ON
fires and every FIXED_MIDDLE heap is content-protected. -/
theorem reserve_ion_memory_ok (env : reserve_env) (heaps : List ion_platform_heap)
    (hnz : (size_loop env heaps).fixed_size ≠ 0)
    (hbug : area_bug env (size_loop env heaps) = none)
    (hcp : ∀ h ∈ heaps, fixed_position_of h = .FIXED_MIDDLE → ∃ p, h.kind = .cp (some p)) :
    ∃ res, reserve_ion_memory env heaps = .ok res ∧
      res.acc = size_loop env heaps ∧
      res.heaps = heaps.map (fun h => placed (size_loop env heaps) (heap_sized env h)) := by
  have hcp' : ∀ h ∈ heaps.map (heap_sized env),
      fixed_position_of h = .FIXED_MIDDLE → ∃ p, h.kind = .cp (some p) := by
    intro h hh hp
    obtain ⟨h0, hh0, rfl⟩ := List.mem_map.mp hh
    obtain ⟨e1, _, e3, _⟩ := heap_sized_position env h0
    rw [e1] at hp
    rw [e3]
    exact hcp h0 hh0 hp
  have e := assign_bases_ok (size_loop env heaps) (heaps.map (heap_sized env)) hcp'
  refine ⟨{ heaps := (heaps.map (heap_sized env)).map (placed (size_loop env heaps)),
            acc := size_loop env heaps, reserved := (size_loop env heaps).reserved,
            memblock_removed := memblock_removed env (size_loop env heaps),
            dma_declared := (size_loop env heaps).dma_declared
              ++ dma_declared_middle (size_loop env heaps) (heaps.map (heap_sized env)) },
          ?_, ?_, ?_⟩
  · simp only [reserve_ion_memory, if_neg hnz, hbug, e]
  · simp only []
  · simp only [List.map_map, Function.comp_def]

/-- The heap reserve_ion_memory leaves for an input heap keeps its position
and takes its base from it. -/
theorem placed_sized (env : reserve_env) (acc : reserve_acc) (h : ion_platform_heap)
    (hcp : fixed_position_of h = .FIXED_MIDDLE → ∃ p, h.kind = .cp (some p)) :
    fixed_position_of (placed acc (heap_sized env h)) = fixed_position_of h ∧
    (placed acc (heap_sized env h)).size = (heap_sized env h).size ∧
    (fixed_position_of h = .FIXED_LOW →
      (placed acc (heap_sized env h)).base = fixed_low_start) ∧
    (fixed_position_of h = .FIXED_MIDDLE →
      (placed acc (heap_sized env h)).base = fixed_middle_start acc) ∧
    (fixed_position_of h = .FIXED_HIGH →
      (placed acc (heap_sized env h)).base = fixed_high_start acc) := by
  obtain ⟨e1, _, e3, _⟩ := heap_sized_position env h
  have hcp' : fixed_position_of (heap_sized env h) = .FIXED_MIDDLE →
      ∃ p, (heap_sized env h).kind = .cp (some p) := by
    intro hp
    rw [e1] at hp
    rw [e3]
    exact hcp hp
  obtain ⟨_, a2, a3, a4, a5, a6⟩ := assign_base_ok acc (heap_sized env h) hcp'
  rw [e1] at a2 a4 a5 a6
  exact ⟨a2, a3, a4, a5, a6⟩

/-- Filtering the final table by position is filtering the input table. -/
theorem filter_position_final (env : reserve_env) (acc : reserve_acc)
    (heaps : List ion_platform_heap) (pos : ion_fixed_position)
    (hcp : ∀ h ∈ heaps, fixed_position_of h = .FIXED_MIDDLE → ∃ p, h.kind = .cp (some p)) :
    (heaps.map (fun h => placed acc (heap_sized env h))).filter
        (fun h => fixed_position_of h = pos)
      = (heaps.filter (fun h => fixed_position_of h = pos)).map
          (fun h => placed acc (heap_sized env h)) := by
  rw [List.filter_map]
  congr 1
  apply List.filter_congr
  intro h hh
  simp only [Function.comp_apply, (placed_sized env acc h (hcp h hh)).1]

/-! ## Claims about the fixed heaps -/

/-- C18, as stated, fails, in four ways, each on a table with one FIXED_LOW,
one FIXED_MIDDLE and one FIXED_HIGH heap. With an empty MM heap the MM and MFC
bases coincide. With an MM heap of 0x70000000 bytes the MFC base wraps around
to 0x10000000, below the FW base. With an FW heap of 0x1000 bytes the first
BUG_ON fires and no base is assigned. With an MM heap that is a plain carveout
heap the second loop dereferences a null pdata. -/
theorem C18_counterexample_degenerate_tables :
    (base_of (reserve_ion_memory m7_env (three_heaps 0x1E0000 0 0x42000))
        .ION_CP_MM_HEAP_ID = some 0xA0000000 ∧
     base_of (reserve_ion_memory m7_env (three_heaps 0x1E0000 0 0x42000))
        .ION_CP_MFC_HEAP_ID = some 0xA0000000) ∧
    (base_of (reserve_ion_memory m7_env (three_heaps 0x1E0000 0x70000000 0x42000))
        .ION_MM_FIRMWARE_HEAP_ID = some 0x9FE00000 ∧
     base_of (reserve_ion_memory m7_env (three_heaps 0x1E0000 0x70000000 0x42000))
        .ION_CP_MFC_HEAP_ID = some 0x10000000) ∧
    bug_of (reserve_ion_memory m7_env (three_heaps 0x1000 0x6000000 0x42000))
      = some reserve_bug.low_size_unaligned ∧
    bug_of (reserve_ion_memory m7_env (three_heaps_carveout_mm 0x1E0000 0x6000000 0x42000))
      = some reserve_bug.null_pdata := by
  decide

/-- Arithmetic of the three start addresses when the fixed area does not wrap. -/
theorem adjacency_arith (A H yf ym yc bf bm bc : Nat)
    (hfit : A + yf + H + ym + yc < 4294967296) (hH : 0 < H) (hm : 0 < ym)
    (b1 : bf = A)
    (b2 : bm = (A + yf % 4294967296 + H) % 4294967296)
    (b3 : bc = ((A + yf % 4294967296 + H) % 4294967296 + ym % 4294967296) % 4294967296) :
    bm = bf + yf + H ∧ bc = bm + ym ∧ bf < bm ∧ bm < bc ∧ bf + yf ≤ bm ∧ bm + ym ≤ bc := by
  omega

/-- C18, amended. For every heap table with one FIXED_LOW (FW) heap, one
FIXED_MIDDLE (MM) heap that is content-protected and not empty, and one
FIXED_HIGH (MFC) heap, on which no BUG_ON of reserve_ion_memory fires and whose
fixed area ends below 4 GiB (APQ8064_FIXED_AREA_START + FW size + HOLE_SIZE +
MM size + MFC size < 2 ^ 32, sizes as the first loop leaves them),
reserve_ion_memory returns with FW base = APQ8064_FIXED_AREA_START,
MM base = FW base + FW size + HOLE_SIZE and MFC base = MM base + MM size; hence
FW base < MM base < MFC base, the FW heap ends at or below the MM base and the
MM heap ends at the MFC base. -/
theorem C18_fixed_heaps_adjacent (env : reserve_env) (heaps : List ion_platform_heap)
    (fw mm mfc : ion_platform_heap)
    (h_low : heaps.filter (fun h => fixed_position_of h = .FIXED_LOW) = [fw])
    (h_mid : heaps.filter (fun h => fixed_position_of h = .FIXED_MIDDLE) = [mm])
    (h_high : heaps.filter (fun h => fixed_position_of h = .FIXED_HIGH) = [mfc])
    (h_cp : ∃ p, mm.kind = .cp (some p))
    (h_bug : area_bug env (size_loop env heaps) = none)
    (h_mm : 0 < (heap_sized env mm).size)
    (h_fit : APQ8064_FIXED_AREA_START + (heap_sized env fw).size + HOLE_SIZE
      + (heap_sized env mm).size + (heap_sized env mfc).size < U32) :
    ∃ res fw' mm' mfc',
      reserve_ion_memory env heaps = .ok res ∧
      res.heaps.filter (fun h => fixed_position_of h = .FIXED_LOW) = [fw'] ∧
      res.heaps.filter (fun h => fixed_position_of h = .FIXED_MIDDLE) = [mm'] ∧
      res.heaps.filter (fun h => fixed_position_of h = .FIXED_HIGH) = [mfc'] ∧
      fw'.size = (heap_sized env fw).size ∧ mm'.size = (heap_sized env mm).size ∧
      mfc'.size = (heap_sized env mfc).size ∧
      fw'.base = APQ8064_FIXED_AREA_START ∧
      mm'.base = fw'.base + fw'.size + HOLE_SIZE ∧
      mfc'.base = mm'.base + mm'.size ∧
      fw'.base < mm'.base ∧ mm'.base < mfc'.base ∧
      fw'.base + fw'.size ≤ mm'.base ∧ mm'.base + mm'.size ≤ mfc'.base := by
  have hmem : ∀ (pos : ion_fixed_position) (x : ion_platform_heap),
      heaps.filter (fun h => fixed_position_of h = pos) = [x] →
      x ∈ heaps ∧ fixed_position_of x = pos := by
    intro pos x hx
    have : x ∈ heaps.filter (fun h => fixed_position_of h = pos) := by
      rw [hx]
      exact List.mem_singleton.mpr rfl
    have h2 := List.mem_filter.mp this
    exact ⟨h2.1, by simpa using h2.2⟩
  obtain ⟨fw_in, fw_pos⟩ := hmem _ fw h_low
  obtain ⟨mm_in, mm_pos⟩ := hmem _ mm h_mid
  obtain ⟨mfc_in, mfc_pos⟩ := hmem _ mfc h_high
  have hcp : ∀ h ∈ heaps, fixed_position_of h = .FIXED_MIDDLE →
      ∃ p, h.kind = .cp (some p) := by
    intro h hh hp
    have : h ∈ heaps.filter (fun h => fixed_position_of h = .FIXED_MIDDLE) :=
      List.mem_filter.mpr ⟨hh, by simpa using hp⟩
    rw [h_mid] at this
    rw [List.mem_singleton.mp this]
    exact h_cp
  obtain ⟨s1, s2, s3⟩ := foldl_size_step_sizes env heaps reserve_acc_init
  have stot := foldl_size_step_total env heaps reserve_acc_init rfl
  rw [h_low] at s1
  rw [h_mid] at s2
  rw [h_high] at s3
  simp only [List.foldl_cons, List.foldl_nil, reserve_acc_init, Nat.zero_add] at s1 s2 s3
  change (size_loop env heaps).fixed_low_size = _ at s1
  change (size_loop env heaps).fixed_middle_size = _ at s2
  change (size_loop env heaps).fixed_high_size = _ at s3
  change (size_loop env heaps).fixed_size % U32
    = ((size_loop env heaps).fixed_low_size + (size_loop env heaps).fixed_middle_size
        + (size_loop env heaps).fixed_high_size) % U32 at stot
  rw [s1, s2, s3] at stot
  rw [U32_eq] at h_fit s1 s2 s3 stot
  have hnz : (size_loop env heaps).fixed_size ≠ 0 := by
    intro h0
    rw [h0] at stot
    omega
  obtain ⟨res, hres, hacc, hheaps⟩ := reserve_ion_memory_ok env heaps hnz h_bug hcp
  obtain ⟨f1, f2, f3, _, _⟩ := placed_sized env (size_loop env heaps) fw (hcp fw fw_in)
  obtain ⟨m1, m2, _, m4, _⟩ := placed_sized env (size_loop env heaps) mm (hcp mm mm_in)
  obtain ⟨c1, c2, _, _, c5⟩ := placed_sized env (size_loop env heaps) mfc (hcp mfc mfc_in)
  have b1 := f3 fw_pos
  have b2 := m4 mm_pos
  have b3 := c5 mfc_pos
  simp only [fixed_low_start, fixed_middle_start, fixed_high_start, s1, s2, U32_eq]
    at b1 b2 b3
  have hhole : 0 < HOLE_SIZE := by decide
  refine ⟨res, placed (size_loop env heaps) (heap_sized env fw),
    placed (size_loop env heaps) (heap_sized env mm),
    placed (size_loop env heaps) (heap_sized env mfc), hres, ?_, ?_, ?_, f2, m2, c2, b1, ?_⟩
  · rw [hheaps, filter_position_final env _ heaps _ hcp, h_low, List.map_cons, List.map_nil]
  · rw [hheaps, filter_position_final env _ heaps _ hcp, h_mid, List.map_cons, List.map_nil]
  · rw [hheaps, filter_position_final env _ heaps _ hcp, h_high, List.map_cons, List.map_nil]
  rw [f2, m2]
  exact adjacency_arith _ _ _ _ _ _ _ _ h_fit hhole h_mm b1 b2 b3

/-- Witness for the amended C18: the heap table of the board built with
CONFIG_MSM_IOMMU and without CONFIG_CMA. -/
theorem C18_fixed_heaps_adjacent_witness :
    ∃ res fw' mm' mfc',
      reserve_ion_memory m7_env
        (apq8064_ion_pdata { CONFIG_MSM_IOMMU := true, CONFIG_CMA := false }) = .ok res ∧
      res.heaps.filter (fun h => fixed_position_of h = .FIXED_LOW) = [fw'] ∧
      res.heaps.filter (fun h => fixed_position_of h = .FIXED_MIDDLE) = [mm'] ∧
      res.heaps.filter (fun h => fixed_position_of h = .FIXED_HIGH) = [mfc'] ∧
      fw'.size = (heap_sized m7_env
        { id := .ION_MM_FIRMWARE_HEAP_ID, kind := .carveout (some fw_co_apq8064_ion_pdata),
          size := MSM_ION_MM_FW_SIZE, base := 0 }).size ∧
      mm'.size = (heap_sized m7_env
        { id := .ION_CP_MM_HEAP_ID,
          kind := .cp (some (cp_mm_apq8064_ion_pdata
            { CONFIG_MSM_IOMMU := true, CONFIG_CMA := false })),
          size := MSM_ION_MM_SIZE { CONFIG_MSM_IOMMU := true, CONFIG_CMA := false },
          base := 0 }).size ∧
      mfc'.size = (heap_sized m7_env
        { id := .ION_CP_MFC_HEAP_ID, kind := .cp (some cp_mfc_apq8064_ion_pdata),
          size := MSM_ION_MFC_SIZE, base := 0 }).size ∧
      fw'.base = APQ8064_FIXED_AREA_START ∧
      mm'.base = fw'.base + fw'.size + HOLE_SIZE ∧
      mfc'.base = mm'.base + mm'.size ∧
      fw'.base < mm'.base ∧ mm'.base < mfc'.base ∧
      fw'.base + fw'.size ≤ mm'.base ∧ mm'.base + mm'.size ≤ mfc'.base :=
  C18_fixed_heaps_adjacent m7_env
    (apq8064_ion_pdata { CONFIG_MSM_IOMMU := true, CONFIG_CMA := false })
    { id := .ION_MM_FIRMWARE_HEAP_ID, kind := .carveout (some fw_co_apq8064_ion_pdata),
      size := MSM_ION_MM_FW_SIZE, base := 0 }
    { id := .ION_CP_MM_HEAP_ID,
      kind := .cp (some (cp_mm_apq8064_ion_pdata
        { CONFIG_MSM_IOMMU := true, CONFIG_CMA := false })),
      size := MSM_ION_MM_SIZE { CONFIG_MSM_IOMMU := true, CONFIG_CMA := false },
      base := 0 }
    { id := .ION_CP_MFC_HEAP_ID, kind := .cp (some cp_mfc_apq8064_ion_pdata),
      size := MSM_ION_MFC_SIZE, base := 0 }
    (by decide) (by decide) (by decide) ⟨_, rfl⟩ (by decide) (by decide) (by decide)

/-- C19. For the heap table of the board in each of its configurations, with
HOLE_SIZE = 0x20000, MSM_ION_MM_FW_SIZE = 0x200000 - HOLE_SIZE and
MSM_ION_MM_SIZE = 0x6000000 with CONFIG_MSM_IOMMU and 0x8600000 without,
reserve_ion_memory returns, gives the FW heap the base 0x9FE00000 and the MM
heap the base 0xA0000000, and gives the MFC heap a base that lies above the FW
base by not more than 256 MB (0x10000000). -/
theorem C19_mfc_within_256MB (c : board_config) :
    HOLE_SIZE = 0x20000 ∧ MSM_ION_MM_FW_SIZE = 0x200000 - HOLE_SIZE ∧
    MSM_ION_MM_SIZE c = (if c.CONFIG_MSM_IOMMU then 0x6000000 else 0x8600000) ∧
    bug_of (reserve_ion_memory m7_env (apq8064_ion_pdata c)) = none ∧
    base_of (reserve_ion_memory m7_env (apq8064_ion_pdata c)) .ION_MM_FIRMWARE_HEAP_ID
      = some 0x9FE00000 ∧
    base_of (reserve_ion_memory m7_env (apq8064_ion_pdata c)) .ION_CP_MM_HEAP_ID
      = some 0xA0000000 ∧
    ∃ b, base_of (reserve_ion_memory m7_env (apq8064_ion_pdata c)) .ION_CP_MFC_HEAP_ID
        = some b ∧
      0x9FE00000 ≤ b ∧ b ≤ 0x9FE00000 + 0x10000000 := by
  rcases c with ⟨iommu, cma⟩
  cases iommu <;> cases cma
  · exact ⟨by decide, by decide, by decide, by decide, by decide, by decide,
      0xA8600000, by decide, by decide, by decide⟩
  · exact ⟨by decide, by decide, by decide, by decide, by decide, by decide,
      0xA8800000, by decide, by decide, by decide⟩
  · exact ⟨by decide, by decide, by decide, by decide, by decide, by decide,
      0xA6000000, by decide, by decide, by decide⟩
  · exact ⟨by decide, by decide, by decide, by decide, by decide, by decide,
      0xA6000000, by decide, by decide, by decide⟩

/-! ## Claims about the secure region and the board's alignment -/

/-- What the second loop leaves of a content-protected FIXED_MIDDLE heap. -/
theorem placed_middle_cp (acc : reserve_acc) (h : ion_platform_heap) (p : ion_cp_heap_pdata)
    (hk : h.kind = .cp (some p)) (hp : p.fixed_position = .FIXED_MIDDLE) :
    placed acc h = { h with
      base := fixed_middle_start acc,
      kind := .cp (some { p with
        secure_base := (fixed_middle_start acc + U32 - HOLE_SIZE) % U32,
        secure_size := (HOLE_SIZE + h.size) % U32 }) } := by
  have he : has_extra_data h = true := by simp [has_extra_data, hk]
  have hpos : fixed_position_of h = .FIXED_MIDDLE := by simp [fixed_position_of, hk, hp]
  have e : assign_base acc h = .ok { h with
      base := fixed_middle_start acc,
      kind := .cp (some { p with
        secure_base := (fixed_middle_start acc + U32 - HOLE_SIZE) % U32,
        secure_size := (HOLE_SIZE + h.size) % U32 }) } := by
    simp [assign_base, he, hpos, hk]
  simp only [placed, e]

/-- A check that can be evaluated for the condition that every FIXED_MIDDLE heap
of a table is content-protected. -/
theorem middle_cp_of_all (heaps : List ion_platform_heap)
    (hall : heaps.all (fun h =>
      match h.kind with
      | .cp (some _) => true
      | _ => !decide (fixed_position_of h = .FIXED_MIDDLE)) = true) :
    ∀ h ∈ heaps, fixed_position_of h = .FIXED_MIDDLE → ∃ p, h.kind = .cp (some p) := by
  intro x hx hp
  have hx' := List.all_eq_true.mp hall x hx
  cases hk : x.kind with
  | cp e =>
    cases e with
    | some p => exact ⟨p, rfl⟩
    | none =>
      rw [hk] at hx'
      simp only [hp, decide_True, Bool.not_true] at hx'
      exact Bool.noConfusion hx'
  | other b =>
    rw [hk] at hx'
    simp only [hp, decide_True, Bool.not_true] at hx'
    exact Bool.noConfusion hx'
  | carveout e =>
    rw [hk] at hx'
    simp only [hp, decide_True, Bool.not_true] at hx'
    exact Bool.noConfusion hx'
  | dma e =>
    rw [hk] at hx'
    simp only [hp, decide_True, Bool.not_true] at hx'
    exact Bool.noConfusion hx'

/-- Arithmetic of the secure region when neither the start of the middle area
nor the size of the region wraps. -/
theorem secure_arith (A L H z b sb ss : Nat)
    (hfit : A + L + H < 4294967296) (hz : H + z < 4294967296)
    (hb : b = (A + L + H) % 4294967296)
    (hsb : sb = (b + 4294967296 - H) % 4294967296)
    (hss : ss = (H + z) % 4294967296) :
    b = A + L + H ∧ sb + H = b ∧ sb = A + L ∧ ss = H + z ∧ sb + ss = b + z := by
  omega

/-- C28, as stated, fails on tables that the function does not carry through
its second loop, and where the 32-bit sums wrap. With all three heaps empty
fixed_size is 0, the function returns early and secure_base and secure_size
stay 0, not HOLE_SIZE + 0. With an FW heap of 0x601E0000 bytes the middle area
starts at 0 after wrap-around, so secure_base is 0xFFFE0000, not below the
heap base 0, and secure_base + secure_size is not heap base + heap size. With
an MM heap of 0x6080000 bytes a BUG_ON fires and nothing is set. -/
theorem C28_counterexample_secure_region :
    (secure_of (reserve_ion_memory m7_env (three_heaps 0 0 0)) .ION_CP_MM_HEAP_ID
        = some (0, 0) ∧ HOLE_SIZE + 0 ≠ 0) ∧
    (base_of (reserve_ion_memory m7_env (three_heaps 0x601E0000 0x100000 0x42000))
        .ION_CP_MM_HEAP_ID = some 0 ∧
     secure_of (reserve_ion_memory m7_env (three_heaps 0x601E0000 0x100000 0x42000))
        .ION_CP_MM_HEAP_ID = some (0xFFFE0000, 0x120000) ∧
     0xFFFE0000 + HOLE_SIZE ≠ 0 ∧ 0xFFFE0000 + 0x120000 ≠ 0 + 0x100000) ∧
    (bug_of (reserve_ion_memory m7_env (three_heaps 0x1E0000 0x6080000 0x42000))
        = some reserve_bug.middle_size_unaligned ∧
     secure_of (reserve_ion_memory m7_env (three_heaps 0x1E0000 0x6080000 0x42000))
        .ION_CP_MM_HEAP_ID = none) := by
  decide

/-- C28, amended. On every heap table that reserve_ion_memory carries through
its second loop (the accumulated fixed_size is not 0, no BUG_ON fires, every
FIXED_MIDDLE heap is content-protected) and whose middle area starts below
4 GiB (APQ8064_FIXED_AREA_START + fixed_low_size + HOLE_SIZE < 2 ^ 32), the
function returns, and for every FIXED_MIDDLE content-protected heap with
HOLE_SIZE + heap size < 2 ^ 32 it sets secure_base = heap base - HOLE_SIZE and
secure_size = HOLE_SIZE + heap size: the secure region starts at
APQ8064_FIXED_AREA_START + fixed_low_size, the end of the FIXED_LOW area,
covers the hole and the heap, and ends at heap base + heap size. -/
theorem C28_secure_region (env : reserve_env) (heaps : List ion_platform_heap)
    (hnz : (size_loop env heaps).fixed_size ≠ 0)
    (hbug : area_bug env (size_loop env heaps) = none)
    (hcp : ∀ h ∈ heaps, fixed_position_of h = .FIXED_MIDDLE → ∃ p, h.kind = .cp (some p))
    (hfit : APQ8064_FIXED_AREA_START + (size_loop env heaps).fixed_low_size + HOLE_SIZE
      < U32) :
    ∃ res, reserve_ion_memory env heaps = .ok res ∧
      res.heaps.length = heaps.length ∧
      ∀ (i : Nat) (h : ion_platform_heap) (p : ion_cp_heap_pdata),
        heaps[i]? = some h → h.kind = .cp (some p) → p.fixed_position = .FIXED_MIDDLE →
        HOLE_SIZE + (heap_sized env h).size < U32 →
        ∃ h' p', res.heaps[i]? = some h' ∧ h'.id = h.id ∧ h'.kind = .cp (some p') ∧
          h'.size = (heap_sized env h).size ∧
          h'.base = APQ8064_FIXED_AREA_START + (size_loop env heaps).fixed_low_size
            + HOLE_SIZE ∧
          p'.secure_base + HOLE_SIZE = h'.base ∧
          p'.secure_base = APQ8064_FIXED_AREA_START + (size_loop env heaps).fixed_low_size ∧
          p'.secure_size = HOLE_SIZE + h'.size ∧
          p'.secure_base + p'.secure_size = h'.base + h'.size := by
  obtain ⟨res, hres, _, hheaps⟩ := reserve_ion_memory_ok env heaps hnz hbug hcp
  refine ⟨res, hres, ?_, ?_⟩
  · rw [hheaps, List.length_map]
  intro i h p hi hk hp hz
  obtain ⟨_, _, e3, _⟩ := heap_sized_position env h
  have hk' : (heap_sized env h).kind = .cp (some p) := by rw [e3, hk]
  have hpl := placed_middle_cp (size_loop env heaps) (heap_sized env h) p hk' hp
  have hid : (heap_sized env h).id = h.id := by
    unfold heap_sized
    split
    · split_ifs <;> rfl
    · rfl
  rw [U32_eq] at hfit hz
  obtain ⟨a1, a2, a3, a4, a5⟩ := secure_arith APQ8064_FIXED_AREA_START
    (size_loop env heaps).fixed_low_size HOLE_SIZE (heap_sized env h).size
    (fixed_middle_start (size_loop env heaps))
    ((fixed_middle_start (size_loop env heaps) + U32 - HOLE_SIZE) % U32)
    ((HOLE_SIZE + (heap_sized env h).size) % U32) hfit hz
    (by simp only [fixed_middle_start, fixed_low_start, U32_eq])
    (by simp only [U32_eq]) (by simp only [U32_eq])
  refine ⟨placed (size_loop env heaps) (heap_sized env h),
    { p with
      secure_base := (fixed_middle_start (size_loop env heaps) + U32 - HOLE_SIZE) % U32,
      secure_size := (HOLE_SIZE + (heap_sized env h).size) % U32 }, ?_, ?_, ?_, ?_, ?_, ?_⟩
  · rw [hheaps, List.getElem?_map, hi]
    rfl
  · rw [hpl]
    exact hid
  · rw [hpl]
  · rw [hpl]
  · rw [hpl]
    exact a1
  · rw [hpl]
    exact ⟨a2, a3, a4, a5⟩

/-- Witness for the amended C28: the heap table of the board built with
CONFIG_MSM_IOMMU and without CONFIG_CMA, whose MM heap is entry 1. -/
theorem C28_secure_region_witness :
    ∃ res, reserve_ion_memory m7_env
        (apq8064_ion_pdata { CONFIG_MSM_IOMMU := true, CONFIG_CMA := false }) = .ok res ∧
      res.heaps.length
        = (apq8064_ion_pdata { CONFIG_MSM_IOMMU := true, CONFIG_CMA := false }).length ∧
      ∃ h' p', res.heaps[1]? = some h' ∧ h'.kind = .cp (some p') ∧
        h'.base = 0xA0000000 ∧ h'.size = 0x6000000 ∧
        p'.secure_base = 0x9FFE0000 ∧ p'.secure_size = 0x6020000 := by
  obtain ⟨res, h1, h2, h3⟩ := C28_secure_region m7_env
    (apq8064_ion_pdata { CONFIG_MSM_IOMMU := true, CONFIG_CMA := false })
    (by decide) (by decide) (middle_cp_of_all _ (by decide)) (by decide)
  obtain ⟨h', p', e1, _, e3, e4, e5, _, e7, e8, _⟩ := h3 1
    { id := .ION_CP_MM_HEAP_ID,
      kind := .cp (some (cp_mm_apq8064_ion_pdata
        { CONFIG_MSM_IOMMU := true, CONFIG_CMA := false })),
      size := MSM_ION_MM_SIZE { CONFIG_MSM_IOMMU := true, CONFIG_CMA := false },
      base := 0 }
    (cp_mm_apq8064_ion_pdata { CONFIG_MSM_IOMMU := true, CONFIG_CMA := false })
    (by decide) rfl rfl (by decide)
  have s1 : (heap_sized m7_env
      { id := .ION_CP_MM_HEAP_ID,
        kind := .cp (some (cp_mm_apq8064_ion_pdata
          { CONFIG_MSM_IOMMU := true, CONFIG_CMA := false })),
        size := MSM_ION_MM_SIZE { CONFIG_MSM_IOMMU := true, CONFIG_CMA := false },
        base := 0 }).size = 0x6000000 := by decide
  have s2 : APQ8064_FIXED_AREA_START + (size_loop m7_env
      (apq8064_ion_pdata { CONFIG_MSM_IOMMU := true, CONFIG_CMA := false })).fixed_low_size
      = 0x9FFE0000 := by decide
  have s3 : HOLE_SIZE = 0x20000 := by decide
  refine ⟨res, h1, h2, h', p', e1, e3, ?_, ?_, ?_, ?_⟩
  · rw [e5, s2, s3]
  · rw [e4, s1]
  · rw [e7, s2]
  · rw [e8, e4, s1, s3]
/-- The first loop reads the environment only through cma_alignment. -/
theorem size_loop_congr (env env' : reserve_env) (heaps : List ion_platform_heap)
    (h : env.cma_alignment = env'.cma_alignment) :
    size_loop env heaps = size_loop env' heaps := by
  have hs : ∀ x, heap_sized env x = heap_sized env' x := by
    intro x
    unfold heap_sized
    rw [h]
  have hstep : size_step env = size_step env' := by
    funext acc x
    unfold size_step
    rw [hs x]
  unfold size_loop
  rw [hstep]

/-- When no area uses CMA and the two alignment checks of the non-CMA path
pass, the only BUG_ON that can fire is one on the result of memblock_remove. -/
theorem area_bug_aligned (env : reserve_env) (acc : reserve_acc)
    (h1 : acc.low_use_cma = false) (h2 : acc.middle_use_cma = false)
    (h3 : acc.high_use_cma = false)
    (a1 : IS_ALIGNED ((acc.fixed_low_size + HOLE_SIZE) % U32) env.SECTION_SIZE = true)
    (a2 : IS_ALIGNED acc.fixed_middle_size env.SECTION_SIZE = true) :
    area_bug env acc = none ∨ area_bug env acc = some .low_memblock_remove ∨
    area_bug env acc = some .middle_memblock_remove ∨
    area_bug env acc = some .high_memblock_remove := by
  unfold area_bug
  simp only [h1, h2, h3, a1, a2, Bool.false_eq_true, if_false, Bool.true_eq_false]
  split_ifs <;> simp

/-- C29. For the heap table and size constants of the board built without
CONFIG_CMA, with or without CONFIG_MSM_IOMMU, and SECTION_SIZE = 1 MiB, no
area takes the CMA path, fixed_low_size + HOLE_SIZE = 0x200000 and
fixed_middle_size = MSM_ION_MM_SIZE are multiples of SECTION_SIZE, fixed_size
equals fixed_low_size + fixed_middle_size + fixed_high_size (the first loop's
values, before the high area is rounded up), and no BUG_ON fires when
memblock_remove succeeds; whatever memblock_remove returns, none of the
alignment assertions fires. -/
theorem C29_board_alignment (iommu : Bool) (mr : Nat → Nat → Int) :
    m7_env.SECTION_SIZE = 0x100000 ∧
    ((size_loop m7_env (apq8064_ion_pdata ⟨iommu, false⟩)).low_use_cma = false ∧
     (size_loop m7_env (apq8064_ion_pdata ⟨iommu, false⟩)).middle_use_cma = false ∧
     (size_loop m7_env (apq8064_ion_pdata ⟨iommu, false⟩)).high_use_cma = false) ∧
    ((size_loop m7_env (apq8064_ion_pdata ⟨iommu, false⟩)).fixed_low_size + HOLE_SIZE
        = 0x200000 ∧
     (0x200000 : Nat) % 0x100000 = 0 ∧
     IS_ALIGNED (((size_loop m7_env (apq8064_ion_pdata ⟨iommu, false⟩)).fixed_low_size
        + HOLE_SIZE) % U32) m7_env.SECTION_SIZE = true) ∧
    ((size_loop m7_env (apq8064_ion_pdata ⟨iommu, false⟩)).fixed_middle_size
        = MSM_ION_MM_SIZE ⟨iommu, false⟩ ∧
     MSM_ION_MM_SIZE ⟨iommu, false⟩ % 0x100000 = 0 ∧
     IS_ALIGNED (size_loop m7_env (apq8064_ion_pdata ⟨iommu, false⟩)).fixed_middle_size
        m7_env.SECTION_SIZE = true) ∧
    (size_loop m7_env (apq8064_ion_pdata ⟨iommu, false⟩)).fixed_size
      = (size_loop m7_env (apq8064_ion_pdata ⟨iommu, false⟩)).fixed_low_size
        + (size_loop m7_env (apq8064_ion_pdata ⟨iommu, false⟩)).fixed_middle_size
        + (size_loop m7_env (apq8064_ion_pdata ⟨iommu, false⟩)).fixed_high_size ∧
    area_bug m7_env (size_loop m7_env (apq8064_ion_pdata ⟨iommu, false⟩)) = none ∧
    bug_of (reserve_ion_memory m7_env (apq8064_ion_pdata ⟨iommu, false⟩)) = none ∧
    (area_bug { m7_env with memblock_remove := mr }
        (size_loop { m7_env with memblock_remove := mr } (apq8064_ion_pdata ⟨iommu, false⟩))
        = none ∨
     area_bug { m7_env with memblock_remove := mr }
        (size_loop { m7_env with memblock_remove := mr } (apq8064_ion_pdata ⟨iommu, false⟩))
        = some .low_memblock_remove ∨
     area_bug { m7_env with memblock_remove := mr }
        (size_loop { m7_env with memblock_remove := mr } (apq8064_ion_pdata ⟨iommu, false⟩))
        = some .middle_memblock_remove ∨
     area_bug { m7_env with memblock_remove := mr }
        (size_loop { m7_env with memblock_remove := mr } (apq8064_ion_pdata ⟨iommu, false⟩))
        = some .high_memblock_remove) := by
  have hcongr := size_loop_congr { m7_env with memblock_remove := mr } m7_env
    (apq8064_ion_pdata ⟨iommu, false⟩) rfl
  rw [hcongr]
  cases iommu
  · refine ⟨by decide, by decide, by decide, by decide, by decide, by decide, by decide, ?_⟩
    exact area_bug_aligned _ _ (by decide) (by decide) (by decide)
      (by change IS_ALIGNED _ m7_env.SECTION_SIZE = true; decide)
      (by change IS_ALIGNED _ m7_env.SECTION_SIZE = true; decide)
  · refine ⟨by decide, by decide, by decide, by decide, by decide, by decide, by decide, ?_⟩
    exact area_bug_aligned _ _ (by decide) (by decide) (by decide)
      (by change IS_ALIGNED _ m7_env.SECTION_SIZE = true; decide)
      (by change IS_ALIGNED _ m7_env.SECTION_SIZE = true; decide)

end BoardM7
